import Mathlib

/-!
# Solr Prometheus exporter reconciler

A shallow embedding of `controllers/solrprometheusexporter_controller.go` and
`controllers/util/prometheus_exporter_util.go`.

* Go `map[string]string` values are association lists read through `StringMap.get`;
  a nil map reads like the empty map and both are the empty list.
* Go pointers that the code tests against nil are `Option`s.
* Kubernetes fields that the code only passes through are kept as `Passthrough` payloads.
* Calls on the cluster client are functions over an explicit cluster state, and every
  call of a pass is recorded, with its answer, in the list of events of the pass.
-/

namespace SolrOperator

/-! ## Maps of labels and annotations -/

/-- Go `map[string]string`. -/
abbrev StringMap := List (String × String)

/-- Map read `m[k]`, with `none` for an absent key. -/
def StringMap.get (m : StringMap) (k : String) : Option String :=
  match m with
  | [] => none
  | (k1, v1) :: rest => if k1 = k then some v1 else StringMap.get rest k

/-- Map write `m[k] = v`. -/
def StringMap.set (m : StringMap) (k v : String) : StringMap :=
  (k, v) :: m.filter (fun p => !decide (p.1 = k))

/-- Modelled from the spec: `MergeLabelsOrAnnotations` of `controllers/util` is not among the
sources at hand. Section 4.1 of the specification: the result contains all of `base`; for each
key in `override` the value in `override` replaces any value from `base`; an absent override
returns `base` unchanged. -/
def MergeLabelsOrAnnotations (base override : StringMap) : StringMap :=
  override.foldr (fun p acc => StringMap.set acc p.1 p.2) base

/-! ## Kubernetes objects (only the fields the controller reads or writes) -/

/-- Content of a Kubernetes field that the controller copies without looking inside. -/
structure Passthrough where
  raw : String
  deriving DecidableEq, Repr, Inhabited

structure NamespacedName where
  Namespace : String
  Name : String
  deriving DecidableEq, Repr, Inhabited

structure OwnerReference where
  Kind : String
  Name : String
  UID : String
  Controller : Bool
  deriving DecidableEq, Repr, Inhabited

structure ObjectMeta where
  Name : String := ""
  Namespace : String := ""
  Labels : StringMap := []
  Annotations : StringMap := []
  OwnerReferences : List OwnerReference := []
  deriving DecidableEq, Repr, Inhabited

structure EnvVar where
  Name : String
  Value : String := ""
  ValueFrom : Option Passthrough := none
  deriving DecidableEq, Repr, Inhabited

structure KeyToPath where
  Key : String
  Path : String
  deriving DecidableEq, Repr, Inhabited

structure ConfigMapVolumeSource where
  Name : String
  Items : List KeyToPath
  deriving DecidableEq, Repr, Inhabited

/-- `corev1.VolumeSource`: the config map source the generator builds, or any other source
supplied by the user. -/
structure VolumeSource where
  ConfigMap : Option ConfigMapVolumeSource := none
  Other : Option Passthrough := none
  deriving DecidableEq, Repr, Inhabited

structure Volume where
  Name : String
  VolumeSource : VolumeSource
  deriving DecidableEq, Repr, Inhabited

structure VolumeMount where
  Name : String
  ReadOnly : Bool := false
  MountPath : String
  SubPath : String := ""
  deriving DecidableEq, Repr, Inhabited

structure ContainerPort where
  Name : String
  ContainerPort : Int
  Protocol : String
  deriving DecidableEq, Repr, Inhabited

structure HTTPGetAction where
  Scheme : String
  Path : String
  Port : Int
  deriving DecidableEq, Repr, Inhabited

structure Probe where
  HTTPGet : Option HTTPGetAction
  InitialDelaySeconds : Int
  TimeoutSeconds : Int
  PeriodSeconds : Int
  SuccessThreshold : Int
  FailureThreshold : Int
  deriving DecidableEq, Repr, Inhabited

structure ResourceRequirements where
  Requests : Option Passthrough := none
  Limits : Option Passthrough := none
  deriving DecidableEq, Repr, Inhabited

structure Container where
  Name : String
  Image : String := ""
  ImagePullPolicy : String := ""
  Ports : List ContainerPort := []
  VolumeMounts : List VolumeMount := []
  Command : List String := []
  Args : List String := []
  Env : List EnvVar := []
  LivenessProbe : Option Probe := none
  Resources : ResourceRequirements := {}
  deriving DecidableEq, Repr, Inhabited

structure PodSecurityContext where
  FSGroup : Option Int := none
  Other : Option Passthrough := none
  deriving DecidableEq, Repr, Inhabited

structure LocalObjectReference where
  Name : String
  deriving DecidableEq, Repr, Inhabited

structure PodSpec where
  TerminationGracePeriodSeconds : Option Int := none
  SecurityContext : Option PodSecurityContext := none
  Volumes : List Volume := []
  InitContainers : List Container := []
  Containers : List Container := []
  ImagePullSecrets : List LocalObjectReference := []
  Affinity : Option Passthrough := none
  Tolerations : Option (List Passthrough) := none
  NodeSelector : Option StringMap := none
  PriorityClassName : String := ""
  deriving DecidableEq, Repr, Inhabited

structure PodTemplateSpec where
  ObjectMeta : ObjectMeta := {}
  Spec : PodSpec := {}
  deriving DecidableEq, Repr, Inhabited

structure LabelSelector where
  MatchLabels : StringMap
  deriving DecidableEq, Repr, Inhabited

structure DeploymentSpec where
  Selector : Option LabelSelector := none
  Replicas : Option Int := none
  Template : PodTemplateSpec := {}
  deriving DecidableEq, Repr, Inhabited

structure DeploymentStatus where
  ReadyReplicas : Int := 0
  deriving DecidableEq, Repr, Inhabited

structure Deployment where
  ObjectMeta : ObjectMeta := {}
  Spec : DeploymentSpec := {}
  Status : DeploymentStatus := {}
  deriving DecidableEq, Repr, Inhabited

structure ConfigMap where
  ObjectMeta : ObjectMeta := {}
  Data : StringMap := []
  deriving DecidableEq, Repr, Inhabited

structure ServicePort where
  Name : String
  Port : Int
  Protocol : String
  TargetPort : Int
  deriving DecidableEq, Repr, Inhabited

structure ServiceSpec where
  Ports : List ServicePort := []
  Selector : StringMap := []
  ClusterIP : String := ""
  deriving DecidableEq, Repr, Inhabited

structure Service where
  ObjectMeta : ObjectMeta := {}
  Spec : ServiceSpec := {}
  deriving DecidableEq, Repr, Inhabited

/-! ## The custom resources of `api/v1beta1` (fields read by the controller) -/

/-- `solr.ZookeeperConnectionInfo`. The controller never reads its fields: it hands the
descriptor to `ZkConnectionString` and `AddACLsToEnv`. -/
structure ZookeeperConnectionInfo where
  InternalConnectionString : String := ""
  ChRoot : String := ""
  AllACL : Option Passthrough := none
  ReadOnlyACL : Option Passthrough := none
  deriving DecidableEq, Repr, Inhabited

structure SolrCloudStatus where
  ZookeeperConnectionInfo : ZookeeperConnectionInfo := {}
  deriving DecidableEq, Repr, Inhabited

structure SolrCloud where
  ObjectMeta : ObjectMeta := {}
  Status : SolrCloudStatus := {}
  deriving DecidableEq, Repr, Inhabited

structure SolrCloudReference where
  Name : String := ""
  Namespace : String := ""
  ZookeeperConnectionInfo : Option ZookeeperConnectionInfo := none
  deriving DecidableEq, Repr, Inhabited

structure StandaloneSolrReference where
  Address : String
  deriving DecidableEq, Repr, Inhabited

structure SolrReference where
  Cloud : Option SolrCloudReference := none
  Standalone : Option StandaloneSolrReference := none
  deriving DecidableEq, Repr, Inhabited

structure ContainerImage where
  Repository : String := ""
  Tag : String := ""
  PullPolicy : String := ""
  ImagePullSecret : String := ""
  deriving DecidableEq, Repr, Inhabited

/-- An extra volume of the pod options. `DefaultContainerMount` is a pointer in Go. -/
structure AdditionalVolume where
  Name : String
  Source : VolumeSource := {}
  DefaultContainerMount : Option VolumeMount := none
  deriving DecidableEq, Repr, Inhabited

structure PodOptions where
  Affinity : Option Passthrough := none
  Resources : ResourceRequirements := {}
  Volumes : List AdditionalVolume := []
  PodSecurityContext : Option PodSecurityContext := none
  EnvVariables : List EnvVar := []
  Annotations : StringMap := []
  Labels : StringMap := []
  Tolerations : Option (List Passthrough) := none
  NodeSelector : Option StringMap := none
  PriorityClassName : String := ""
  SidecarContainers : List Container := []
  InitContainers : List Container := []
  deriving DecidableEq, Repr, Inhabited

structure DeploymentOptions where
  Annotations : StringMap := []
  Labels : StringMap := []
  deriving DecidableEq, Repr, Inhabited

structure ServiceOptions where
  Annotations : StringMap := []
  Labels : StringMap := []
  deriving DecidableEq, Repr, Inhabited

structure ConfigMapOptions where
  Annotations : StringMap := []
  Labels : StringMap := []
  deriving DecidableEq, Repr, Inhabited

structure CustomExporterKubeOptions where
  PodOptions : Option PodOptions := none
  DeploymentOptions : Option DeploymentOptions := none
  ServiceOptions : Option ServiceOptions := none
  ConfigMapOptions : Option ConfigMapOptions := none
  deriving DecidableEq, Repr, Inhabited

structure SolrPrometheusExporterSpec where
  SolrReference : SolrReference := {}
  Image : ContainerImage := {}
  CustomKubeOptions : CustomExporterKubeOptions := {}
  ExporterEntrypoint : String := ""
  NumThreads : Int := 0
  ScrapeInterval : Int := 0
  Config : String := ""
  deriving DecidableEq, Repr, Inhabited

structure SolrPrometheusExporterStatus where
  Ready : Bool := false
  deriving DecidableEq, Repr, Inhabited

structure SolrPrometheusExporter where
  ObjectMeta : ObjectMeta := {}
  Spec : SolrPrometheusExporterSpec := {}
  Status : SolrPrometheusExporterStatus := {}
  deriving DecidableEq, Repr, Inhabited

/-- `GetLabels` of the embedded object metadata. -/
def SolrPrometheusExporter.GetLabels (e : SolrPrometheusExporter) : StringMap :=
  e.ObjectMeta.Labels

/-- `GetNamespace` of the embedded object metadata. -/
def SolrPrometheusExporter.GetNamespace (e : SolrPrometheusExporter) : String :=
  e.ObjectMeta.Namespace

/-! ## Declarations of the repository that the two source files use but do not define -/

/-- Methods of `api/v1beta1` and helpers of `controllers/util` whose bodies are not among the
sources at hand. They are parameters of the development. The three `Copy...Fields` helpers
take the desired object and the observed one and give back the observed object as rewritten
in place together with the flag they return. -/
structure Api where
  SolrPrometheusExporterTechnologyLabel : String
  WithDefaults : SolrPrometheusExporter → SolrPrometheusExporter × Bool
  SharedLabels : SolrPrometheusExporter → StringMap
  SharedLabelsWith : SolrPrometheusExporter → StringMap → StringMap
  MetricsDeploymentName : SolrPrometheusExporter → String
  MetricsConfigMapName : SolrPrometheusExporter → String
  MetricsServiceName : SolrPrometheusExporter → String
  ToImageName : ContainerImage → String
  ZkConnectionString : ZookeeperConnectionInfo → String
  AddACLsToEnv : ZookeeperConnectionInfo → Bool × List EnvVar
  CopyConfigMapFields : ConfigMap → ConfigMap → ConfigMap × Bool
  CopyServiceFields : Service → Service → Service × Bool
  CopyDeploymentFields : Deployment → Deployment → Deployment × Bool

/-! ## `controllers/util/prometheus_exporter_util.go` -/

def SolrMetricsPort : Int := 8080

def SolrMetricsPortName : String := "solr-metrics"

def ExtSolrMetricsPort : Int := 80

def DefaultPrometheusExporterEntrypoint : String :=
  "/opt/solr/contrib/prometheus-exporter/bin/solr-exporter"

/-- `strconv.Itoa`. -/
def Itoa (n : Int) : String := toString n

/-- `SolrConnectionInfo` defines how to connect to a cloud or standalone solr instance.
One, and only one, of Cloud or Standalone must be provided. -/
structure SolrConnectionInfo where
  CloudZkConnnectionInfo : Option ZookeeperConnectionInfo := none
  StandaloneAddress : String := ""
  deriving DecidableEq, Repr, Inhabited

/-- A run-time panic of the Go program. -/
inductive Panic where
  | nilPointerDereference
  deriving DecidableEq, Repr, Inhabited

/-- Line 143, `volume.DefaultContainerMount.Name = volume.Name`: a write through the pointer
`DefaultContainerMount`, which panics when the pointer is nil. -/
def setDefaultContainerMountName (volume : AdditionalVolume) : Except Panic AdditionalVolume :=
  match volume.DefaultContainerMount with
  | none => .error Panic.nilPointerDereference
  | some m => .ok { volume with DefaultContainerMount := some { m with Name := volume.Name } }

/-- The loop of lines 142-154 over `customPodOptions.Volumes`, started from the mounts and
volumes collected so far. -/
def addCustomVolumes :
    List AdditionalVolume → List VolumeMount → List Volume →
      Except Panic (List VolumeMount × List Volume)
  | [], volumeMounts, solrVolumes => .ok (volumeMounts, solrVolumes)
  | volume :: rest, volumeMounts, solrVolumes =>
    match setDefaultContainerMountName volume with
    | .error p => .error p
    | .ok volume =>
      -- Only add the container mount if one has been provided.
      let volumeMounts :=
        match volume.DefaultContainerMount with
        | some m => volumeMounts ++ [m]
        | none => volumeMounts
      addCustomVolumes rest volumeMounts
        (solrVolumes ++ [{ Name := volume.Name, VolumeSource := volume.Source }])

/-- Lines 240-268 of `GenerateSolrPrometheusExporterDeployment`: each optional setting of the
pod options is copied onto the pod, and the resources onto `Containers[0]`, when it is set. -/
def applyPodOptions (customPodOptions : PodOptions) (podSpec : PodSpec) : PodSpec :=
  let p1 : PodSpec :=
    match customPodOptions.Affinity with
    | some a => { podSpec with Affinity := some a }
    | none => podSpec
  let p2 : PodSpec :=
    match customPodOptions.Resources.Requests with
    | some r =>
      let setRequests : Container → Container :=
        fun c => { c with Resources := { c.Resources with Requests := some r } }
      { p1 with Containers := p1.Containers.modifyHead setRequests }
    | none => p1
  let p3 : PodSpec :=
    match customPodOptions.Resources.Limits with
    | some l =>
      let setLimits : Container → Container :=
        fun c => { c with Resources := { c.Resources with Limits := some l } }
      { p2 with Containers := p2.Containers.modifyHead setLimits }
    | none => p2
  let p4 : PodSpec :=
    match customPodOptions.PodSecurityContext with
    | some sc => { p3 with SecurityContext := some sc }
    | none => p3
  let p5 : PodSpec :=
    match customPodOptions.Tolerations with
    | some t => { p4 with Tolerations := some t }
    | none => p4
  let p6 : PodSpec :=
    match customPodOptions.NodeSelector with
    | some n => { p5 with NodeSelector := some n }
    | none => p5
  if customPodOptions.PriorityClassName ≠ "" then
    { p6 with PriorityClassName := customPodOptions.PriorityClassName }
  else p6

/-- The local `exporterArgs` of `GenerateSolrPrometheusExporterDeployment` as it stands at
line 173: built at lines 81-84 and extended at lines 86-88, 91-92, 101-103 and 126-128. -/
def exporterArgs (api : Api) (solrPrometheusExporter : SolrPrometheusExporter)
    (solrConnectionInfo : SolrConnectionInfo) : List String :=
  let exporterArgs0 : List String :=
    ["-p", Itoa SolrMetricsPort, "-n", Itoa solrPrometheusExporter.Spec.NumThreads]
  let exporterArgs1 :=
    if solrPrometheusExporter.Spec.ScrapeInterval > 0 then
      exporterArgs0 ++ ["-s", Itoa solrPrometheusExporter.Spec.ScrapeInterval]
    else exporterArgs0
  -- Setup the solrConnectionInfo
  let exporterArgs2 :=
    match solrConnectionInfo.CloudZkConnnectionInfo with
    | some zk => exporterArgs1 ++ ["-z", api.ZkConnectionString zk]
    | none =>
      if solrConnectionInfo.StandaloneAddress ≠ "" then
        exporterArgs1 ++ ["-b", solrConnectionInfo.StandaloneAddress]
      else exporterArgs1
  -- Only add the config if it is passed in from the user. Otherwise, use the default.
  if solrPrometheusExporter.Spec.Config ≠ "" then
    exporterArgs2 ++ ["-f", "/opt/solr-exporter/solr-prometheus-exporter.xml"]
  else
    exporterArgs2 ++ ["-f", "/opt/solr/contrib/prometheus-exporter/conf/solr-exporter-config.xml"]

/-- The local `envVars` of `GenerateSolrPrometheusExporterDeployment` as it stands at line 174:
the ACL entries of lines 94-100, the custom entries of line 139 and `JAVA_OPTS` of lines
157-163. -/
def envVars (api : Api) (solrPrometheusExporter : SolrPrometheusExporter)
    (solrConnectionInfo : SolrConnectionInfo) : List EnvVar :=
  -- Add ACL information, if given, through Env Vars
  let envVars0 : List EnvVar :=
    match solrConnectionInfo.CloudZkConnnectionInfo with
    | some zk => if (api.AddACLsToEnv zk).1 then (api.AddACLsToEnv zk).2 else []
    | none => []
  let allJavaOpts : List String :=
    match solrConnectionInfo.CloudZkConnnectionInfo with
    | some zk => if (api.AddACLsToEnv zk).1 then ["$(SOLR_ZK_CREDS_AND_ACLS)"] else []
    | none => []
  -- Add Custom EnvironmentVariables to the solr container
  let envVars1 :=
    match solrPrometheusExporter.Spec.CustomKubeOptions.PodOptions with
    | some o => envVars0 ++ o.EnvVariables
    | none => envVars0
  -- Add JAVA_OPTS last, so that it can use values from all of the other ENV_VARS
  if allJavaOpts.length > 0 then
    envVars1 ++ [{ Name := "JAVA_OPTS", Value := " ".intercalate allJavaOpts }]
  else envVars1

/-- The local `solrVolumes` of `GenerateSolrPrometheusExporterDeployment` after lines 106-129:
the config map volume when the exporter carries a config document. -/
def configVolumes (api : Api) (solrPrometheusExporter : SolrPrometheusExporter) : List Volume :=
  if solrPrometheusExporter.Spec.Config ≠ "" then
    [{ Name := "solr-prometheus-exporter-xml",
       VolumeSource :=
         { ConfigMap := some
             { Name := api.MetricsConfigMapName solrPrometheusExporter,
               Items := [{ Key := "solr-prometheus-exporter.xml",
                           Path := "solr-prometheus-exporter.xml" }] } } }]
  else []

/-- The local `volumeMounts` of `GenerateSolrPrometheusExporterDeployment` after lines 106-129:
the mount of the config map volume when the exporter carries a config document. -/
def configVolumeMounts (solrPrometheusExporter : SolrPrometheusExporter) : List VolumeMount :=
  if solrPrometheusExporter.Spec.Config ≠ "" then
    [{ Name := "solr-prometheus-exporter-xml", MountPath := "/opt/solr-exporter",
       ReadOnly := true }]
  else []

/-- The locals `volumeMounts` and `solrVolumes` of `GenerateSolrPrometheusExporterDeployment`
as they stand at line 156, after the loop over the custom volumes; `.error` when the loop
panics. -/
def podVolumes (api : Api) (solrPrometheusExporter : SolrPrometheusExporter) :
    Except Panic (List VolumeMount × List Volume) :=
  -- Add Custom Volumes to pod
  match solrPrometheusExporter.Spec.CustomKubeOptions.PodOptions with
  | some o =>
    addCustomVolumes o.Volumes (configVolumeMounts solrPrometheusExporter)
      (configVolumes api solrPrometheusExporter)
  | none =>
    .ok (configVolumeMounts solrPrometheusExporter, configVolumes api solrPrometheusExporter)

/-- `GenerateSolrPrometheusExporterDeployment` returns a new Deployment generated for the
SolrCloud Prometheus Exporter instance; `.error` is a panic of the Go function. The locals
`exporterArgs`, `envVars`, `volumeMounts` and `solrVolumes` are the functions above. -/
def GenerateSolrPrometheusExporterDeployment (api : Api)
    (solrPrometheusExporter : SolrPrometheusExporter) (solrConnectionInfo : SolrConnectionInfo) :
    Except Panic Deployment :=
  let gracePeriodTerm : Int := 10
  let singleReplica : Int := 1
  let fsGroup : Int := SolrMetricsPort
  let labels0 := api.SharedLabelsWith solrPrometheusExporter solrPrometheusExporter.GetLabels
  let selectorLabels0 := api.SharedLabels solrPrometheusExporter
  let labels1 := labels0.set "technology" api.SolrPrometheusExporterTechnologyLabel
  let selectorLabels := selectorLabels0.set "technology" api.SolrPrometheusExporterTechnologyLabel
  let podLabels0 := labels1
  let customDeploymentOptions := solrPrometheusExporter.Spec.CustomKubeOptions.DeploymentOptions
  let labels :=
    match customDeploymentOptions with
    | some o => MergeLabelsOrAnnotations labels1 o.Labels
    | none => labels1
  let annotations : StringMap :=
    match customDeploymentOptions with
    | some o => o.Annotations
    | none => []
  let customPodOptions := solrPrometheusExporter.Spec.CustomKubeOptions.PodOptions
  let podLabels :=
    match customPodOptions with
    | some o => MergeLabelsOrAnnotations podLabels0 o.Labels
    | none => podLabels0
  let podAnnotations : StringMap :=
    match customPodOptions with
    | some o => o.Annotations
    | none => []
  match podVolumes api solrPrometheusExporter with
  | .error p => .error p
  | .ok (volumeMounts, solrVolumes) =>
    let exporterArgs := exporterArgs api solrPrometheusExporter solrConnectionInfo
    let envVars := envVars api solrPrometheusExporter solrConnectionInfo
    let entrypoint :=
      if solrPrometheusExporter.Spec.ExporterEntrypoint ≠ "" then
        solrPrometheusExporter.Spec.ExporterEntrypoint
      else DefaultPrometheusExporterEntrypoint
    let exporterContainer : Container :=
      { Name := "solr-prometheus-exporter",
        Image := api.ToImageName solrPrometheusExporter.Spec.Image,
        ImagePullPolicy := solrPrometheusExporter.Spec.Image.PullPolicy,
        Ports := [{ ContainerPort := SolrMetricsPort, Name := SolrMetricsPortName,
                    Protocol := "TCP" }],
        VolumeMounts := volumeMounts,
        Command := [entrypoint],
        Args := exporterArgs,
        Env := envVars,
        LivenessProbe := some
          { HTTPGet := some { Scheme := "HTTP", Path := "/metrics", Port := SolrMetricsPort },
            InitialDelaySeconds := 20,
            TimeoutSeconds := 1,
            PeriodSeconds := 10,
            SuccessThreshold := 1,
            FailureThreshold := 3 } }
    let containers0 : List Container := [exporterContainer]
    let containers :=
      match customPodOptions with
      | some o =>
        if o.SidecarContainers.length > 0 then containers0 ++ o.SidecarContainers
        else containers0
      | none => containers0
    let initContainers : List Container :=
      match customPodOptions with
      | some o => if o.InitContainers.length > 0 then o.InitContainers else []
      | none => []
    let podSpec0 : PodSpec :=
      { TerminationGracePeriodSeconds := some gracePeriodTerm,
        SecurityContext := some { FSGroup := some fsGroup },
        Volumes := solrVolumes,
        InitContainers := initContainers,
        Containers := containers }
    let podSpec1 : PodSpec :=
      if solrPrometheusExporter.Spec.Image.ImagePullSecret ≠ "" then
        { podSpec0 with
          ImagePullSecrets := [{ Name := solrPrometheusExporter.Spec.Image.ImagePullSecret }] }
      else podSpec0
    let podSpec : PodSpec :=
      match customPodOptions with
      | none => podSpec1
      | some o => applyPodOptions o podSpec1
    .ok
      { ObjectMeta :=
          { Name := api.MetricsDeploymentName solrPrometheusExporter,
            Namespace := solrPrometheusExporter.GetNamespace,
            Labels := labels,
            Annotations := annotations },
        Spec :=
          { Selector := some { MatchLabels := selectorLabels },
            Replicas := some singleReplica,
            Template :=
              { ObjectMeta := { Labels := podLabels, Annotations := podAnnotations },
                Spec := podSpec } } }

/-- `GenerateMetricsConfigMap` returns a new ConfigMap generated for the Solr Prometheus
Exporter instance solr-prometheus-exporter.xml. -/
def GenerateMetricsConfigMap (api : Api) (solrPrometheusExporter : SolrPrometheusExporter) :
    ConfigMap :=
  let labels0 := api.SharedLabelsWith solrPrometheusExporter solrPrometheusExporter.GetLabels
  let customOptions := solrPrometheusExporter.Spec.CustomKubeOptions.ConfigMapOptions
  let labels :=
    match customOptions with
    | some o => MergeLabelsOrAnnotations labels0 o.Labels
    | none => labels0
  let annotations : StringMap :=
    match customOptions with
    | some o => o.Annotations
    | none => []
  { ObjectMeta :=
      { Name := api.MetricsConfigMapName solrPrometheusExporter,
        Namespace := solrPrometheusExporter.GetNamespace,
        Labels := labels,
        Annotations := annotations },
    Data := [("solr-prometheus-exporter.xml", solrPrometheusExporter.Spec.Config)] }

/-- `GenerateSolrMetricsService` returns a new Service generated for the SolrCloud Prometheus
Exporter deployment. (The local `copyLabels` of lines 303-306 is never read again.) -/
def GenerateSolrMetricsService (api : Api) (solrPrometheusExporter : SolrPrometheusExporter) :
    Service :=
  let labels0 := api.SharedLabelsWith solrPrometheusExporter solrPrometheusExporter.GetLabels
  let labels1 := labels0.set "service-type" "metrics"
  let annotations0 : StringMap :=
    [("prometheus.io/scrape", "true"),
     ("prometheus.io/scheme", "http"),
     ("prometheus.io/path", "/metrics"),
     ("prometheus.io/port", Itoa ExtSolrMetricsPort)]
  let selectorLabels0 := api.SharedLabels solrPrometheusExporter
  let selectorLabels := selectorLabels0.set "technology" api.SolrPrometheusExporterTechnologyLabel
  let customOptions := solrPrometheusExporter.Spec.CustomKubeOptions.ServiceOptions
  let labels :=
    match customOptions with
    | some o => MergeLabelsOrAnnotations labels1 o.Labels
    | none => labels1
  let annotations :=
    match customOptions with
    | some o => MergeLabelsOrAnnotations annotations0 o.Annotations
    | none => annotations0
  { ObjectMeta :=
      { Name := api.MetricsServiceName solrPrometheusExporter,
        Namespace := solrPrometheusExporter.GetNamespace,
        Labels := labels,
        Annotations := annotations },
    Spec :=
      { Ports := [{ Name := SolrMetricsPortName, Port := ExtSolrMetricsPort, Protocol := "TCP",
                    TargetPort := SolrMetricsPort }],
        Selector := selectorLabels } }

/-! ## The cluster client and the events of a pass -/

/-- An error value returned by the cluster client or by the owner reference helper. -/
structure Err where
  Reason : String
  Message : String := ""
  deriving DecidableEq, Repr, Inhabited

/-- `errors.IsNotFound`. -/
def IsNotFound (err : Err) : Bool := decide (err.Reason = "NotFound")

/-- `ctrl.Result`. -/
structure Result where
  Requeue : Bool := false
  RequeueAfter : Nat := 0
  deriving DecidableEq, Repr, Inhabited

/-- The kinds of object the reconciler talks about. -/
inductive Kind where
  | SolrPrometheusExporter
  | ConfigMap
  | Service
  | Deployment
  | SolrCloud
  deriving DecidableEq, Repr, Inhabited

/-- An object of one of the kinds. -/
inductive Obj where
  | exporter (o : SolrPrometheusExporter)
  | configMap (o : ConfigMap)
  | service (o : Service)
  | deployment (o : Deployment)
  | solrCloud (o : SolrCloud)
  deriving DecidableEq, Repr, Inhabited

def Obj.kind : Obj → Kind
  | .exporter _ => Kind.SolrPrometheusExporter
  | .configMap _ => Kind.ConfigMap
  | .service _ => Kind.Service
  | .deployment _ => Kind.Deployment
  | .solrCloud _ => Kind.SolrCloud

/-- One call of a pass together with its answer: `r.Get`, `r.Create`, `r.Update`,
`r.Status().Update` and `controllerutil.SetControllerReference`. -/
inductive Event where
  | get (kind : Kind) (key : NamespacedName) (answer : Except Err Obj)
  | create (obj : Obj) (answer : Option Err)
  | update (obj : Obj) (answer : Option Err)
  | statusUpdate (obj : Obj) (answer : Option Err)
  | setControllerReference (obj : Obj) (answer : Except Err Obj)

/-- The kind of object an event is about. -/
def Event.kind : Event → Kind
  | .get k _ _ => k
  | .create o _ => o.kind
  | .update o _ => o.kind
  | .statusUpdate o _ => o.kind
  | .setControllerReference o _ => o.kind

/-- The error a call answered with, if it failed. -/
def Event.failure : Event → Option Err
  | .get _ _ (.error err) => some err
  | .get _ _ (.ok _) => none
  | .create _ a => a
  | .update _ a => a
  | .statusUpdate _ a => a
  | .setControllerReference _ (.error err) => some err
  | .setControllerReference _ (.ok _) => none

/-- The objects of kind `k` on which a create call was issued, in order. -/
def createdOf (k : Kind) : List Event → List Obj
  | [] => []
  | .create o _ :: rest => if o.kind = k then o :: createdOf k rest else createdOf k rest
  | _ :: rest => createdOf k rest

/-- The objects of kind `k` on which an update call was issued, in order. -/
def updatedOf (k : Kind) : List Event → List Obj
  | [] => []
  | .update o _ :: rest => if o.kind = k then o :: updatedOf k rest else updatedOf k rest
  | _ :: rest => updatedOf k rest

/-- The objects on which a status update call was issued, in order. -/
def statusWrites : List Event → List Obj
  | [] => []
  | .statusUpdate o _ :: rest => o :: statusWrites rest
  | _ :: rest => statusWrites rest

/-- The cluster as the reconciler sees it: the typed calls of `client.Client` over a cluster
state `σ`, each giving its answer and the next state, and
`controllerutil.SetControllerReference`, which rewrites the metadata of the object it is
given. `Update` and `Create` answer with an error or nil, as in the convergence contract. -/
structure Client (σ : Type) where
  getSolrPrometheusExporter : NamespacedName → σ → Except Err SolrPrometheusExporter × σ
  updateSolrPrometheusExporter : SolrPrometheusExporter → σ → Option Err × σ
  statusUpdate : SolrPrometheusExporter → σ → Option Err × σ
  getConfigMap : NamespacedName → σ → Except Err ConfigMap × σ
  createConfigMap : ConfigMap → σ → Option Err × σ
  updateConfigMap : ConfigMap → σ → Option Err × σ
  getService : NamespacedName → σ → Except Err Service × σ
  createService : Service → σ → Option Err × σ
  updateService : Service → σ → Option Err × σ
  getDeployment : NamespacedName → σ → Except Err Deployment × σ
  createDeployment : Deployment → σ → Option Err × σ
  updateDeployment : Deployment → σ → Option Err × σ
  getSolrCloud : NamespacedName → σ → Except Err SolrCloud × σ
  SetControllerReference : SolrPrometheusExporter → ObjectMeta → Except Err ObjectMeta

/-- How a pass ends: `Reconcile` returns a result and an error, or the goroutine panics. -/
inductive Halt where
  | returned (result : Result) (err : Option Err)
  | panicked (p : Panic)
  deriving DecidableEq, Repr, Inhabited

/-- A stretch of a pass that was run: the calls it issued, the cluster state it left and
either the value it computed or the way the pass ended inside it. -/
structure Step (σ α : Type) where
  calls : List Event
  state : σ
  val : Except Halt α

/-- A stretch of a pass, to be run from a cluster state. -/
def Pass (σ α : Type) : Type := σ → Step σ α

/-- Nothing is called. -/
def Pass.pure {σ α : Type} (a : α) : Pass σ α :=
  fun s => { calls := [], state := s, val := .ok a }

/-- Sequencing: the second stretch runs only if the pass did not end in the first. -/
def Pass.bind {σ α β : Type} (m : Pass σ α) (f : α → Pass σ β) : Pass σ β :=
  fun s =>
    match (m s).val with
    | .ok a =>
      { calls := (m s).calls ++ (f a (m s).state).calls,
        state := (f a (m s).state).state,
        val := (f a (m s).state).val }
    | .error h => { calls := (m s).calls, state := (m s).state, val := .error h }

instance {σ : Type} : Monad (Pass σ) where
  pure := Pass.pure
  bind := Pass.bind

/-- The pass ends here. -/
def Pass.halt {σ α : Type} (h : Halt) : Pass σ α :=
  fun s => { calls := [], state := s, val := .error h }

/-- One call on the cluster, recorded with its answer. -/
def Pass.call {σ α : Type} (record : α → Event) (op : σ → α × σ) : Pass σ α :=
  fun s => { calls := [record (op s).1], state := (op s).2, val := .ok (op s).1 }

/-! ## `controllers/solrprometheusexporter_controller.go` -/

section Controller

variable {σ : Type}

/-- A `return` statement of `Reconcile`. -/
def Pass.ret {α : Type} (result : Result) (err : Option Err) : Pass σ α :=
  Pass.halt (Halt.returned result err)

/-- `controllerutil.SetControllerReference(owner, object, r.scheme)`, recorded as an event of
the pass; `wrap` rebuilds the object around its metadata. -/
def setControllerReference {α : Type} (c : Client σ) (owner : SolrPrometheusExporter)
    (meta : ObjectMeta) (wrap : ObjectMeta → α) (inj : α → Obj) : Pass σ (Except Err α) :=
  Pass.call (fun a => Event.setControllerReference (inj (wrap meta)) (a.map inj))
    (fun s => ((c.SetControllerReference owner meta).map wrap, s))

/-- Lines 83-102: the ConfigMap of the exporter is generated, owned, fetched and then created
or updated. -/
def configMapPhase (api : Api) (c : Client σ) (prometheusExporter : SolrPrometheusExporter) :
    Pass σ Unit := do
  -- Generate ConfigMap
  let generated := GenerateMetricsConfigMap api prometheusExporter
  let owned ← setControllerReference c prometheusExporter generated.ObjectMeta
    (fun m => { generated with ObjectMeta := m }) Obj.configMap
  match owned with
  | .error err => Pass.ret {} (some err)
  | .ok configMap =>
    -- Check if the ConfigMap already exists
    let key : NamespacedName :=
      { Name := configMap.ObjectMeta.Name, Namespace := configMap.ObjectMeta.Namespace }
    let found ← Pass.call (fun a => Event.get Kind.ConfigMap key (a.map Obj.configMap))
      (c.getConfigMap key)
    let err ←
      match found with
      | .error err =>
        if IsNotFound err then
          Pass.call (Event.create (Obj.configMap configMap)) (c.createConfigMap configMap)
        else pure (some err)
      | .ok foundConfigMap =>
        if (api.CopyConfigMapFields configMap foundConfigMap).2 then
          -- Update the found ConfigMap and write the result back if there are any changes
          Pass.call
            (Event.update (Obj.configMap (api.CopyConfigMapFields configMap foundConfigMap).1))
            (c.updateConfigMap (api.CopyConfigMapFields configMap foundConfigMap).1)
        else pure none
    match err with
    | some err => Pass.ret {} (some err)
    | none => pure ()

/-- Lines 105-125: the metrics Service is generated, owned, fetched and then created or
updated. -/
def servicePhase (api : Api) (c : Client σ) (prometheusExporter : SolrPrometheusExporter) :
    Pass σ Unit := do
  -- Generate Metrics Service
  let generated := GenerateSolrMetricsService api prometheusExporter
  let owned ← setControllerReference c prometheusExporter generated.ObjectMeta
    (fun m => { generated with ObjectMeta := m }) Obj.service
  match owned with
  | .error err => Pass.ret {} (some err)
  | .ok metricsService =>
    -- Check if the Metrics Service already exists
    let key : NamespacedName :=
      { Name := metricsService.ObjectMeta.Name,
        Namespace := metricsService.ObjectMeta.Namespace }
    let found ← Pass.call (fun a => Event.get Kind.Service key (a.map Obj.service))
      (c.getService key)
    let err ←
      match found with
      | .error err =>
        if IsNotFound err then
          Pass.call (Event.create (Obj.service metricsService)) (c.createService metricsService)
        else pure (some err)
      | .ok foundMetricsService =>
        if (api.CopyServiceFields metricsService foundMetricsService).2 then
          -- Update the found Metrics Service and write the result back if there are any changes
          Pass.call
            (Event.update
              (Obj.service (api.CopyServiceFields metricsService foundMetricsService).1))
            (c.updateService (api.CopyServiceFields metricsService foundMetricsService).1)
        else pure none
    match err with
    | some err => Pass.ret {} (some err)
    | none => pure ()

/-- `getSolrConnectionInfo`: the connection info and the error it returns. -/
def getSolrConnectionInfo (c : Client σ) (prometheusExporter : SolrPrometheusExporter) :
    Pass σ (SolrConnectionInfo × Option Err) := do
  let solrConnectionInfo0 : SolrConnectionInfo := {}
  let solrConnectionInfo : SolrConnectionInfo :=
    match prometheusExporter.Spec.SolrReference.Standalone with
    | some standalone => { solrConnectionInfo0 with StandaloneAddress := standalone.Address }
    | none => solrConnectionInfo0
  match prometheusExporter.Spec.SolrReference.Cloud with
  | none => pure (solrConnectionInfo, none)
  | some cloudRef =>
    match cloudRef.ZookeeperConnectionInfo with
    | some zk => pure ({ solrConnectionInfo with CloudZkConnnectionInfo := some zk }, none)
    | none =>
      if cloudRef.Name ≠ "" then do
        let key : NamespacedName := { Name := cloudRef.Name, Namespace := cloudRef.Namespace }
        let answer ← Pass.call (fun a => Event.get Kind.SolrCloud key (a.map Obj.solrCloud))
          (c.getSolrCloud key)
        match answer with
        | .ok solrCloud =>
          pure ({ solrConnectionInfo with
                  CloudZkConnnectionInfo := some solrCloud.Status.ZookeeperConnectionInfo },
                none)
        | .error err => pure (solrConnectionInfo, some err)
      else pure (solrConnectionInfo, none)

/-- The exporter object after `GenerateSolrPrometheusExporterDeployment` has returned: line 143
writes the volume name into every `DefaultContainerMount` of the pod options, through the
pointer held by the exporter itself. -/
def withDefaultContainerMountNames (e : SolrPrometheusExporter) : SolrPrometheusExporter :=
  match e.Spec.CustomKubeOptions.PodOptions with
  | none => e
  | some o =>
    let rename : AdditionalVolume → AdditionalVolume := fun v =>
      match v.DefaultContainerMount with
      | some m => { v with DefaultContainerMount := some { m with Name := v.Name } }
      | none => v
    let podOptions : PodOptions := { o with Volumes := o.Volumes.map rename }
    let options : CustomExporterKubeOptions :=
      { e.Spec.CustomKubeOptions with PodOptions := some podOptions }
    { e with Spec := { e.Spec with CustomKubeOptions := options } }

/-- Lines 133-155: the Deployment is generated, owned, fetched and then created or updated.
The value is the local `ready` as it stands at line 157. -/
def deploymentPhase (api : Api) (c : Client σ) (prometheusExporter : SolrPrometheusExporter)
    (solrConnectionInfo : SolrConnectionInfo) : Pass σ Bool := do
  match GenerateSolrPrometheusExporterDeployment api prometheusExporter solrConnectionInfo with
  | .error p => Pass.halt (Halt.panicked p)
  | .ok generated =>
    let owned ← setControllerReference c (withDefaultContainerMountNames prometheusExporter)
      generated.ObjectMeta (fun m => { generated with ObjectMeta := m }) Obj.deployment
    match owned with
    | .error err => Pass.ret {} (some err)
    | .ok deploy =>
      -- Check if the Metrics Deployment already exists
      let key : NamespacedName :=
        { Name := deploy.ObjectMeta.Name, Namespace := deploy.ObjectMeta.Namespace }
      let found ← Pass.call (fun a => Event.get Kind.Deployment key (a.map Obj.deployment))
        (c.getDeployment key)
      let (err, ready) ←
        match found with
        | .error err =>
          if IsNotFound err then do
            let err ← Pass.call (Event.create (Obj.deployment deploy))
              (c.createDeployment deploy)
            pure (err, false)
          else pure (some err, false)
        | .ok foundDeploy =>
          let copied := (api.CopyDeploymentFields deploy foundDeploy).1
          if (api.CopyDeploymentFields deploy foundDeploy).2 then do
            let err ← Pass.call (Event.update (Obj.deployment copied))
              (c.updateDeployment copied)
            pure (err, decide (copied.Status.ReadyReplicas > 0))
          else pure (none, decide (copied.Status.ReadyReplicas > 0))
      match err with
      | some err => Pass.ret {} (some err)
      | none => pure ready

/-- Lines 81-155: the children of the exporter are brought in line with its spec. The value is
the local `ready` as it stands at line 157. -/
def convergeChildren (api : Api) (c : Client σ) (prometheusExporter : SolrPrometheusExporter) :
    Pass σ Bool := do
  if prometheusExporter.Spec.Config ≠ "" then
    configMapPhase api c prometheusExporter
  servicePhase api c prometheusExporter
  -- Get the ZkConnectionString to connect to
  let (solrConnectionInfo, err) ← getSolrConnectionInfo c prometheusExporter
  match err with
  | some err => Pass.ret {} (some err)
  | none => deploymentPhase api c prometheusExporter solrConnectionInfo

/-- Lines 157-163: the status is written when `ready` differs from the recorded one, and the
pass returns. -/
def statusPhase {α : Type} (c : Client σ) (prometheusExporter : SolrPrometheusExporter)
    (ready : Bool) : Pass σ α := do
  if ready ≠ prometheusExporter.Status.Ready then
    let updated : SolrPrometheusExporter :=
      { prometheusExporter with Status := { prometheusExporter.Status with Ready := ready } }
    let err ← Pass.call (Event.statusUpdate (Obj.exporter updated)) (c.statusUpdate updated)
    Pass.ret {} err
  else Pass.ret {} none

/-- The body of `Reconcile`; every way out is a `return` or a panic. -/
def reconcilePass (api : Api) (c : Client σ) (req : NamespacedName) : Pass σ Empty := do
  -- Fetch the SolrPrometheusExporter instance
  let answer ← Pass.call
    (fun a => Event.get Kind.SolrPrometheusExporter req (a.map Obj.exporter))
    (c.getSolrPrometheusExporter req)
  match answer with
  | .error err =>
    if IsNotFound err then
      -- Object not found, return.  Created objects are automatically garbage collected.
      Pass.ret {} none
    else
      -- Error reading the object - requeue the req.
      Pass.ret {} (some err)
  | .ok fetched =>
    let prometheusExporter := (api.WithDefaults fetched).1
    if (api.WithDefaults fetched).2 then
      let err ← Pass.call (Event.update (Obj.exporter prometheusExporter))
        (c.updateSolrPrometheusExporter prometheusExporter)
      match err with
      | some err => Pass.ret {} (some err)
      | none => Pass.ret { Requeue := true } none
    else
      let ready ← convergeChildren api c prometheusExporter
      statusPhase c (withDefaultContainerMountNames prometheusExporter) ready

/-- What a pass did: the calls it issued, the cluster state it left and how it ended. -/
structure Outcome (σ : Type) where
  calls : List Event
  state : σ
  ret : Halt

/-- `Reconcile`, run for request `req` from cluster state `s`. -/
def Reconcile (api : Api) (c : Client σ) (req : NamespacedName) (s : σ) : Outcome σ :=
  let r := reconcilePass api c req s
  { calls := r.calls,
    state := r.state,
    ret :=
      match r.val with
      | .error h => h
      | .ok x => nomatch x }

end Controller

/-! ## A sample instance of the parameters and an in-memory cluster, for concrete runs -/

/-- A sample instance of the declarations the sources leave open. -/
def sampleApi : Api where
  SolrPrometheusExporterTechnologyLabel := "solr-prometheus-exporter"
  WithDefaults := fun e =>
    if e.Spec.NumThreads = 0 then ({ e with Spec := { e.Spec with NumThreads := 1 } }, true)
    else (e, false)
  SharedLabels := fun e => [("solr-prometheus-exporter", e.ObjectMeta.Name)]
  SharedLabelsWith := fun e labels => labels.set "solr-prometheus-exporter" e.ObjectMeta.Name
  MetricsDeploymentName := fun e => e.ObjectMeta.Name ++ "-solr-metrics"
  MetricsConfigMapName := fun e => e.ObjectMeta.Name ++ "-solr-metrics"
  MetricsServiceName := fun e => e.ObjectMeta.Name ++ "-solr-metrics"
  ToImageName := fun i => i.Repository ++ ":" ++ i.Tag
  ZkConnectionString := fun zk => zk.InternalConnectionString ++ zk.ChRoot
  AddACLsToEnv := fun zk =>
    match zk.AllACL with
    | some acl => (true, [{ Name := "ZK_ALL_ACL", ValueFrom := some acl },
                          { Name := "SOLR_ZK_CREDS_AND_ACLS", Value := "-DzkACL=$(ZK_ALL_ACL)" }])
    | none => (false, [])
  CopyConfigMapFields := fun desired found =>
    let copied : ConfigMap :=
      { found with
        ObjectMeta := { found.ObjectMeta with
                        Labels := desired.ObjectMeta.Labels,
                        Annotations := desired.ObjectMeta.Annotations },
        Data := desired.Data }
    (copied, decide (copied ≠ found))
  CopyServiceFields := fun desired found =>
    let copied : Service :=
      { found with
        ObjectMeta := { found.ObjectMeta with
                        Labels := desired.ObjectMeta.Labels,
                        Annotations := desired.ObjectMeta.Annotations },
        Spec := { found.Spec with Ports := desired.Spec.Ports,
                                  Selector := desired.Spec.Selector } }
    (copied, decide (copied ≠ found))
  CopyDeploymentFields := fun desired found =>
    let copied : Deployment :=
      { found with
        ObjectMeta := { found.ObjectMeta with
                        Labels := desired.ObjectMeta.Labels,
                        Annotations := desired.ObjectMeta.Annotations },
        Spec := desired.Spec }
    (copied, decide (copied ≠ found))

/-- An in-memory cluster. -/
structure Cluster where
  exporters : List SolrPrometheusExporter := []
  configMaps : List ConfigMap := []
  services : List Service := []
  deployments : List Deployment := []
  solrClouds : List SolrCloud := []
  deriving DecidableEq, Repr, Inhabited

/-- Whether metadata `m` carries the name and namespace `key`. -/
def named (key : NamespacedName) (m : ObjectMeta) : Bool :=
  decide (m.Name = key.Name) && decide (m.Namespace = key.Namespace)

/-- The key under which an object is stored. -/
def keyOf (m : ObjectMeta) : NamespacedName := { Name := m.Name, Namespace := m.Namespace }

/-- Fetch from a list of stored objects. -/
def fetch {α : Type} (objectMeta : α → ObjectMeta) (key : NamespacedName) (stored : List α) :
    Except Err α :=
  match stored.find? (fun o => named key (objectMeta o)) with
  | some o => .ok o
  | none => .error { Reason := "NotFound" }

/-- Store a new object, unless one of that name is already there. -/
def store {α : Type} (objectMeta : α → ObjectMeta) (o : α) (stored : List α) :
    Option Err × List α :=
  if stored.any (fun x => named (keyOf (objectMeta o)) (objectMeta x)) then
    (some { Reason := "AlreadyExists" }, stored)
  else (none, stored ++ [o])

/-- Overwrite a stored object. -/
def overwrite {α : Type} (objectMeta : α → ObjectMeta) (o : α) (stored : List α) :
    Option Err × List α :=
  if stored.any (fun x => named (keyOf (objectMeta o)) (objectMeta x)) then
    (none, stored.map (fun x => if named (keyOf (objectMeta o)) (objectMeta x) then o else x))
  else (some { Reason := "NotFound" }, stored)

/-- The owner reference to a parent exporter. -/
def ownerReferenceTo (owner : SolrPrometheusExporter) : OwnerReference :=
  { Kind := "SolrPrometheusExporter", Name := owner.ObjectMeta.Name, UID := "",
    Controller := true }

/-- A client that serves the in-memory cluster and never fails for another reason than the
absence or presence of the object. -/
def clusterClient : Client Cluster where
  getSolrPrometheusExporter := fun key s => (fetch (fun o => o.ObjectMeta) key s.exporters, s)
  updateSolrPrometheusExporter := fun o s =>
    ((overwrite (fun x => x.ObjectMeta) o s.exporters).1,
     { s with exporters := (overwrite (fun x => x.ObjectMeta) o s.exporters).2 })
  statusUpdate := fun o s =>
    ((overwrite (fun x => x.ObjectMeta) o s.exporters).1,
     { s with exporters := (overwrite (fun x => x.ObjectMeta) o s.exporters).2 })
  getConfigMap := fun key s => (fetch (fun o => o.ObjectMeta) key s.configMaps, s)
  createConfigMap := fun o s =>
    ((store (fun x => x.ObjectMeta) o s.configMaps).1,
     { s with configMaps := (store (fun x => x.ObjectMeta) o s.configMaps).2 })
  updateConfigMap := fun o s =>
    ((overwrite (fun x => x.ObjectMeta) o s.configMaps).1,
     { s with configMaps := (overwrite (fun x => x.ObjectMeta) o s.configMaps).2 })
  getService := fun key s => (fetch (fun o => o.ObjectMeta) key s.services, s)
  createService := fun o s =>
    ((store (fun x => x.ObjectMeta) o s.services).1,
     { s with services := (store (fun x => x.ObjectMeta) o s.services).2 })
  updateService := fun o s =>
    ((overwrite (fun x => x.ObjectMeta) o s.services).1,
     { s with services := (overwrite (fun x => x.ObjectMeta) o s.services).2 })
  getDeployment := fun key s => (fetch (fun o => o.ObjectMeta) key s.deployments, s)
  createDeployment := fun o s =>
    ((store (fun x => x.ObjectMeta) o s.deployments).1,
     { s with deployments := (store (fun x => x.ObjectMeta) o s.deployments).2 })
  updateDeployment := fun o s =>
    ((overwrite (fun x => x.ObjectMeta) o s.deployments).1,
     { s with deployments := (overwrite (fun x => x.ObjectMeta) o s.deployments).2 })
  getSolrCloud := fun key s => (fetch (fun o => o.ObjectMeta) key s.solrClouds, s)
  SetControllerReference := fun owner m =>
    .ok { m with OwnerReferences := m.OwnerReferences ++ [ownerReferenceTo owner] }

/-- The request for the sample exporter. -/
def sampleRequest : NamespacedName := { Namespace := "default", Name := "metrics" }

/-- A sample exporter with its defaults applied and a standalone target. -/
def sampleExporter : SolrPrometheusExporter :=
  { ObjectMeta := { Name := "metrics", Namespace := "default" },
    Spec := { NumThreads := 1,
              SolrReference := { Standalone := some { Address := "10.0.0.5:2181" } } } }

/-- The exporter container of a generated Deployment: `Containers[0]`. -/
def exporterContainer (d : Deployment) : Option Container :=
  d.Spec.Template.Spec.Containers.head?

/-- The sample exporter with a pod label override of the `technology` key. -/
def technologyOverrideExporter : SolrPrometheusExporter :=
  { sampleExporter with
    Spec := { sampleExporter.Spec with
              CustomKubeOptions :=
                { PodOptions := some { Labels := [("technology", "custom")] } } } }

/-- The sample exporter with an extra volume that has no default container mount. -/
def volumeWithoutMountExporter : SolrPrometheusExporter :=
  { sampleExporter with
    Spec := { sampleExporter.Spec with
              CustomKubeOptions :=
                { PodOptions := some
                    { Volumes := [{ Name := "extra",
                                    Source := { Other := some { raw := "emptyDir" } } }] } } } }

/-- The sample exporter with an extra volume that has a default container mount. -/
def volumeWithMountExporter : SolrPrometheusExporter :=
  { sampleExporter with
    Spec := { sampleExporter.Spec with
              CustomKubeOptions :=
                { PodOptions := some
                    { Volumes := [{ Name := "extra",
                                    Source := { Other := some { raw := "emptyDir" } },
                                    DefaultContainerMount :=
                                      some { Name := "", MountPath := "/extra" } }] } } } }

/-- A sample exporter that names no target at all. -/
def noTargetExporter : SolrPrometheusExporter :=
  { ObjectMeta := { Name := "metrics", Namespace := "default" }, Spec := { NumThreads := 1 } }

/-- A sample connection descriptor. -/
def sampleZookeeper : ZookeeperConnectionInfo :=
  { InternalConnectionString := "zk1:2181,zk2:2181", ChRoot := "/solr" }

/-- A sample exporter that names a standalone target and a cloud target with an inline
connection descriptor. -/
def bothTargetsExporter : SolrPrometheusExporter :=
  { ObjectMeta := { Name := "metrics", Namespace := "default" },
    Spec := { NumThreads := 1,
              SolrReference :=
                { Standalone := some { Address := "10.0.0.5:8983" },
                  Cloud := some { ZookeeperConnectionInfo := some sampleZookeeper } } } }

/-- The argument list of the exporter container in the words of claim C5: port, threads,
scrape interval when positive, then exactly one connection pair, then the config path. -/
def claimedExporterArgs (api : Api) (e : SolrPrometheusExporter) (info : SolrConnectionInfo) :
    List String :=
  ["-p", "8080"] ++ ["-n", Itoa e.Spec.NumThreads] ++
    (if e.Spec.ScrapeInterval > 0 then ["-s", Itoa e.Spec.ScrapeInterval] else []) ++
    (match info.CloudZkConnnectionInfo with
     | some zk => ["-z", api.ZkConnectionString zk]
     | none => ["-b", info.StandaloneAddress]) ++
    (if e.Spec.Config ≠ "" then ["-f", "/opt/solr-exporter/solr-prometheus-exporter.xml"]
     else ["-f", "/opt/solr/contrib/prometheus-exporter/conf/solr-exporter-config.xml"])

/-- The Deployment a successful call of the generator returned; the empty one after a panic. -/
def generatedOrEmpty (r : Except Panic Deployment) : Deployment :=
  match r with
  | .ok d => d
  | .error _ => {}

/-- The sample exporter with a pod label override that leaves the selector keys alone. -/
def teamLabelExporter : SolrPrometheusExporter :=
  { sampleExporter with
    Spec := { sampleExporter.Spec with
              CustomKubeOptions :=
                { PodOptions := some { Labels := [("team", "search")] } } } }

/-! ## Runs of a pass, as lists of events -/

/-- The `Copy...Fields` helper of the kind of the two objects: the observed object as rewritten
and the flag returned. -/
def copyFields (api : Api) : Obj → Obj → Obj × Bool
  | .configMap desired, .configMap observed =>
    (Obj.configMap (api.CopyConfigMapFields desired observed).1,
     (api.CopyConfigMapFields desired observed).2)
  | .service desired, .service observed =>
    (Obj.service (api.CopyServiceFields desired observed).1,
     (api.CopyServiceFields desired observed).2)
  | .deployment desired, .deployment observed =>
    (Obj.deployment (api.CopyDeploymentFields desired observed).1,
     (api.CopyDeploymentFields desired observed).2)
  | _, observed => (observed, false)

/-- Readiness as line 151 reads it off an object: a Deployment with a positive number of ready
replicas. -/
def Obj.ready : Obj → Bool
  | .deployment d => decide (d.Status.ReadyReplicas > 0)
  | _ => false

/-- The runs of the convergence step of one child (lines 83-102, 106-125 and 133-155), for the
object `generated` by the generator: the events issued, the error the step ends the pass with,
if any, and the readiness it computes. -/
inductive ChildRun (api : Api) (generated : Obj) : List Event → Option Err → Bool → Prop where
  | ownerFailed (err : Err) :
    ChildRun api generated [Event.setControllerReference generated (.error err)] (some err) false
  | fetchFailed (desired : Obj) (key : NamespacedName) (err : Err)
      (hkind : desired.kind = generated.kind) (hnf : IsNotFound err = false) :
    ChildRun api generated
      [Event.setControllerReference generated (.ok desired),
       Event.get generated.kind key (.error err)] (some err) false
  | created (desired : Obj) (key : NamespacedName) (err : Err) (answer : Option Err)
      (hkind : desired.kind = generated.kind) (hnf : IsNotFound err = true) :
    ChildRun api generated
      [Event.setControllerReference generated (.ok desired),
       Event.get generated.kind key (.error err),
       Event.create desired answer] answer false
  | updated (desired : Obj) (key : NamespacedName) (observed : Obj) (answer : Option Err)
      (hkind : desired.kind = generated.kind) (hobs : observed.kind = generated.kind)
      (hchanged : (copyFields api desired observed).2 = true) :
    ChildRun api generated
      [Event.setControllerReference generated (.ok desired),
       Event.get generated.kind key (.ok observed),
       Event.update (copyFields api desired observed).1 answer] answer
      (copyFields api desired observed).1.ready
  | unchanged (desired : Obj) (key : NamespacedName) (observed : Obj)
      (hkind : desired.kind = generated.kind) (hobs : observed.kind = generated.kind)
      (hchanged : (copyFields api desired observed).2 = false) :
    ChildRun api generated
      [Event.setControllerReference generated (.ok desired),
       Event.get generated.kind key (.ok observed)] none
      (copyFields api desired observed).1.ready

/-- The connection info `getSolrConnectionInfo` holds after lines 167-171, before it looks at
the cloud reference. -/
def standaloneInfo (e : SolrPrometheusExporter) : SolrConnectionInfo :=
  match e.Spec.SolrReference.Standalone with
  | some standalone => { StandaloneAddress := standalone.Address }
  | none => {}

/-- The runs of `getSolrConnectionInfo`: the events issued, the connection info and the error
returned. -/
inductive LookupRun (e : SolrPrometheusExporter) :
    List Event → SolrConnectionInfo → Option Err → Prop where
  | noCloud (hcloud : e.Spec.SolrReference.Cloud = none) :
    LookupRun e [] (standaloneInfo e) none
  | inline (cloudRef : SolrCloudReference) (zk : ZookeeperConnectionInfo)
      (hcloud : e.Spec.SolrReference.Cloud = some cloudRef)
      (hzk : cloudRef.ZookeeperConnectionInfo = some zk) :
    LookupRun e [] { standaloneInfo e with CloudZkConnnectionInfo := some zk } none
  | unnamed (cloudRef : SolrCloudReference)
      (hcloud : e.Spec.SolrReference.Cloud = some cloudRef)
      (hzk : cloudRef.ZookeeperConnectionInfo = none) (hname : cloudRef.Name = "") :
    LookupRun e [] (standaloneInfo e) none
  | found (cloudRef : SolrCloudReference) (solrCloud : SolrCloud)
      (hcloud : e.Spec.SolrReference.Cloud = some cloudRef)
      (hzk : cloudRef.ZookeeperConnectionInfo = none) (hname : cloudRef.Name ≠ "") :
    LookupRun e
      [Event.get Kind.SolrCloud { Name := cloudRef.Name, Namespace := cloudRef.Namespace }
        (.ok (Obj.solrCloud solrCloud))]
      { standaloneInfo e with
        CloudZkConnnectionInfo := some solrCloud.Status.ZookeeperConnectionInfo } none
  | failed (cloudRef : SolrCloudReference) (err : Err)
      (hcloud : e.Spec.SolrReference.Cloud = some cloudRef)
      (hzk : cloudRef.ZookeeperConnectionInfo = none) (hname : cloudRef.Name ≠ "") :
    LookupRun e
      [Event.get Kind.SolrCloud { Name := cloudRef.Name, Namespace := cloudRef.Namespace }
        (.error err)]
      (standaloneInfo e) (some err)

/-- The runs of lines 81-103 that do not end the pass: the ConfigMap is left out for an empty
config document and converged otherwise. -/
inductive ConfigRun (api : Api) (e : SolrPrometheusExporter) : List Event → Prop where
  | skipped (hconfig : e.Spec.Config = "") : ConfigRun api e []
  | converged (calls : List Event) (ready : Bool) (hconfig : e.Spec.Config ≠ "")
      (run : ChildRun api (Obj.configMap (GenerateMetricsConfigMap api e)) calls none ready) :
    ConfigRun api e calls

/-- The runs of lines 81-155: the events issued and either the local `ready` with which the
status step is reached or the way the pass ended. -/
inductive ConvergeRun (api : Api) (e : SolrPrometheusExporter) :
    List Event → Except Halt Bool → Prop where
  | configMapStopped (lc : List Event) (err : Err) (ready : Bool) (hconfig : e.Spec.Config ≠ "")
      (run : ChildRun api (Obj.configMap (GenerateMetricsConfigMap api e)) lc (some err) ready) :
    ConvergeRun api e lc (.error (Halt.returned {} (some err)))
  | serviceStopped (lc ls : List Event) (err : Err) (ready : Bool) (hc : ConfigRun api e lc)
      (run : ChildRun api (Obj.service (GenerateSolrMetricsService api e)) ls (some err) ready) :
    ConvergeRun api e (lc ++ ls) (.error (Halt.returned {} (some err)))
  | lookupFailed (lc ls ll : List Event) (ready : Bool) (info : SolrConnectionInfo) (err : Err)
      (hc : ConfigRun api e lc)
      (hs : ChildRun api (Obj.service (GenerateSolrMetricsService api e)) ls none ready)
      (hl : LookupRun e ll info (some err)) :
    ConvergeRun api e (lc ++ ls ++ ll) (.error (Halt.returned {} (some err)))
  | generatorPanicked (lc ls ll : List Event) (ready : Bool) (info : SolrConnectionInfo)
      (p : Panic) (hc : ConfigRun api e lc)
      (hs : ChildRun api (Obj.service (GenerateSolrMetricsService api e)) ls none ready)
      (hl : LookupRun e ll info none)
      (hg : GenerateSolrPrometheusExporterDeployment api e info = .error p) :
    ConvergeRun api e (lc ++ ls ++ ll) (.error (Halt.panicked p))
  | deploymentStopped (lc ls ll ld : List Event) (ready : Bool) (info : SolrConnectionInfo)
      (d : Deployment) (err : Err) (ready2 : Bool) (hc : ConfigRun api e lc)
      (hs : ChildRun api (Obj.service (GenerateSolrMetricsService api e)) ls none ready)
      (hl : LookupRun e ll info none)
      (hg : GenerateSolrPrometheusExporterDeployment api e info = .ok d)
      (hd : ChildRun api (Obj.deployment d) ld (some err) ready2) :
    ConvergeRun api e (lc ++ ls ++ ll ++ ld) (.error (Halt.returned {} (some err)))
  | converged (lc ls ll ld : List Event) (ready : Bool) (info : SolrConnectionInfo)
      (d : Deployment) (ready2 : Bool) (hc : ConfigRun api e lc)
      (hs : ChildRun api (Obj.service (GenerateSolrMetricsService api e)) ls none ready)
      (hl : LookupRun e ll info none)
      (hg : GenerateSolrPrometheusExporterDeployment api e info = .ok d)
      (hd : ChildRun api (Obj.deployment d) ld none ready2) :
    ConvergeRun api e (lc ++ ls ++ ll ++ ld) (.ok ready2)

/-- The exporter a pass holds once the defaults check reported no change and the Deployment
generator has run. -/
def heldExporter (api : Api) (fetched : SolrPrometheusExporter) : SolrPrometheusExporter :=
  withDefaultContainerMountNames (api.WithDefaults fetched).1

/-- The object a status write carries: the held exporter with the computed readiness. -/
def withReady (e : SolrPrometheusExporter) (ready : Bool) : SolrPrometheusExporter :=
  { e with Status := { e.Status with Ready := ready } }

/-- The runs of `Reconcile` for request `req`: the events issued and the way the pass ends. -/
inductive ReconcileRun (api : Api) (req : NamespacedName) : List Event → Halt → Prop where
  | parentNotFound (err : Err) (hnf : IsNotFound err = true) :
    ReconcileRun api req [Event.get Kind.SolrPrometheusExporter req (.error err)]
      (Halt.returned {} none)
  | parentFailed (err : Err) (hnf : IsNotFound err = false) :
    ReconcileRun api req [Event.get Kind.SolrPrometheusExporter req (.error err)]
      (Halt.returned {} (some err))
  | defaultsFailed (fetched : SolrPrometheusExporter) (err : Err)
      (hchanged : (api.WithDefaults fetched).2 = true) :
    ReconcileRun api req
      [Event.get Kind.SolrPrometheusExporter req (.ok (Obj.exporter fetched)),
       Event.update (Obj.exporter (api.WithDefaults fetched).1) (some err)]
      (Halt.returned {} (some err))
  | defaulted (fetched : SolrPrometheusExporter)
      (hchanged : (api.WithDefaults fetched).2 = true) :
    ReconcileRun api req
      [Event.get Kind.SolrPrometheusExporter req (.ok (Obj.exporter fetched)),
       Event.update (Obj.exporter (api.WithDefaults fetched).1) none]
      (Halt.returned { Requeue := true } none)
  | stopped (fetched : SolrPrometheusExporter) (calls : List Event) (h : Halt)
      (hchanged : (api.WithDefaults fetched).2 = false)
      (run : ConvergeRun api (api.WithDefaults fetched).1 calls (.error h)) :
    ReconcileRun api req
      (Event.get Kind.SolrPrometheusExporter req (.ok (Obj.exporter fetched)) :: calls) h
  | statusKept (fetched : SolrPrometheusExporter) (calls : List Event) (ready : Bool)
      (hchanged : (api.WithDefaults fetched).2 = false)
      (run : ConvergeRun api (api.WithDefaults fetched).1 calls (.ok ready))
      (hsame : ready = (heldExporter api fetched).Status.Ready) :
    ReconcileRun api req
      (Event.get Kind.SolrPrometheusExporter req (.ok (Obj.exporter fetched)) :: calls)
      (Halt.returned {} none)
  | statusWritten (fetched : SolrPrometheusExporter) (calls : List Event) (ready : Bool)
      (answer : Option Err) (hchanged : (api.WithDefaults fetched).2 = false)
      (run : ConvergeRun api (api.WithDefaults fetched).1 calls (.ok ready))
      (hdiffers : ready ≠ (heldExporter api fetched).Status.Ready) :
    ReconcileRun api req
      (Event.get Kind.SolrPrometheusExporter req (.ok (Obj.exporter fetched)) :: calls ++
        [Event.statusUpdate (Obj.exporter (withReady (heldExporter api fetched) ready)) answer])
      (Halt.returned {} answer)

/-- A fetch answered with NotFound that does not count as a failure of the pass: the fetch of
a child, which leads to its creation, or the fetch of the exporter itself. -/
def Event.isBenignNotFound : Event → Bool
  | .get k _ (.error err) => IsNotFound err && decide (k ≠ Kind.SolrCloud)
  | _ => false

/-- A call that failed with an error other than a benign NotFound. -/
def Event.stops (ev : Event) : Bool :=
  ev.failure.isSome && !ev.isBenignNotFound

/-- An object is what the generator of its kind returns for exporter `e`; for a Deployment,
with connection info that `getSolrConnectionInfo` returns for `e` without error. -/
def IsGenerated (api : Api) (e : SolrPrometheusExporter) : Obj → Prop
  | .configMap cm => cm = GenerateMetricsConfigMap api e
  | .service sv => sv = GenerateSolrMetricsService api e
  | .deployment d =>
    ∃ l info, LookupRun e l info none ∧
      GenerateSolrPrometheusExporterDeployment api e info = .ok d
  | _ => False

/-- The convergence contract of one child kind, read off the events of a stretch: a fetch of
kind `k` answered NotFound comes with exactly one create call, on the object `desired` that the
owner reference was attached to, and no update call; a fetch that succeeds comes with no create
call and with an update call, on the observed object as rewritten, exactly when `copyFields`
reports a change. -/
def ChildConverged (api : Api) (k : Kind) (generated : Obj) (l : List Event) : Prop :=
  ∀ key answer, Event.get k key answer ∈ l →
    ∃ desired, Event.setControllerReference generated (.ok desired) ∈ l ∧ desired.kind = k ∧
      (∀ err, answer = .error err → IsNotFound err = true →
        createdOf k l = [desired] ∧ updatedOf k l = []) ∧
      (∀ observed, answer = .ok observed →
        createdOf k l = [] ∧
        updatedOf k l =
          if (copyFields api desired observed).2 then [(copyFields api desired observed).1]
          else [])

/-- An in-memory cluster that holds the sample exporter and nothing else. -/
def sampleCluster : Cluster := { exporters := [sampleExporter] }

/-- The key of the children of the sample exporter. -/
def sampleChildKey : NamespacedName := { Namespace := "default", Name := "metrics-solr-metrics" }

/-- The sample exporter before its defaults are applied. -/
def undefaultedExporter : SolrPrometheusExporter :=
  { ObjectMeta := { Name := "metrics", Namespace := "default" },
    Spec := { SolrReference := { Standalone := some { Address := "10.0.0.5:2181" } } } }

/-- A stored Deployment of the sample exporter with two ready replicas. -/
def readyDeployment : Deployment :=
  { ObjectMeta := { Name := "metrics-solr-metrics", Namespace := "default" },
    Status := { ReadyReplicas := 2 } }

/-- An in-memory cluster that holds the sample exporter and its Deployment, two replicas of
which are ready. -/
def readyCluster : Cluster :=
  { exporters := [sampleExporter], deployments := [readyDeployment] }

/-- A stretch in which no call failed, benign NotFound answers apart. -/
def Quiet (l : List Event) : Prop := ∀ ev ∈ l, ev.stops = false

/-- A stretch whose last call failed with `err`, no call before it having failed, benign
NotFound answers apart. -/
def EndedBy (l : List Event) (err : Err) : Prop :=
  ∃ pre ev, l = pre ++ [ev] ∧ Quiet pre ∧ ev.failure = some err

/-- A sample exporter that names, by name and namespace, a SolrCloud that does not exist. -/
def cloudExporter : SolrPrometheusExporter :=
  { ObjectMeta := { Name := "metrics", Namespace := "default" },
    Spec := { NumThreads := 1,
              SolrReference := { Cloud := some { Name := "cloud1", Namespace := "default" } } } }

/-- An in-memory cluster that holds the exporter `cloudExporter` and nothing else. -/
def cloudlessCluster : Cluster := { exporters := [cloudExporter] }

/-- An in-memory cluster that holds the exporter `cloudExporter` and the SolrCloud it names. -/
def cloudCluster : Cluster :=
  { exporters := [cloudExporter],
    solrClouds := [{ ObjectMeta := { Name := "cloud1", Namespace := "default" },
                     Status := { ZookeeperConnectionInfo := sampleZookeeper } }] }

/-- A sample exporter whose cloud reference carries both a name and an inline descriptor. -/
def inlineCloudExporter : SolrPrometheusExporter :=
  { ObjectMeta := { Name := "metrics", Namespace := "default" },
    Spec := { NumThreads := 1,
              SolrReference :=
                { Cloud := some { Name := "cloud1", Namespace := "default",
                                  ZookeeperConnectionInfo := some sampleZookeeper } } } }

/-! ## Parts of the generated objects that the custom options decide -/

/-- The environment variables of the pod options of an exporter (line 139). -/
def customEnvVariables (e : SolrPrometheusExporter) : List EnvVar :=
  match e.Spec.CustomKubeOptions.PodOptions with
  | some o => o.EnvVariables
  | none => []

/-- The pod volumes that lines 150-153 build from the extra volumes of the pod options. -/
def customVolumes (e : SolrPrometheusExporter) : List Volume :=
  match e.Spec.CustomKubeOptions.PodOptions with
  | some o => o.Volumes.map (fun volume => { Name := volume.Name, VolumeSource := volume.Source })
  | none => []

/-- The container mounts that lines 143-148 build from the extra volumes of the pod options:
the default container mount of each volume that has one, under the name of the volume. -/
def customVolumeMounts (e : SolrPrometheusExporter) : List VolumeMount :=
  match e.Spec.CustomKubeOptions.PodOptions with
  | some o =>
    o.Volumes.filterMap
      (fun volume => volume.DefaultContainerMount.map (fun m => { m with Name := volume.Name }))
  | none => []

/-- The fixed scrape hints of the metrics Service, in the words of claim C18. -/
def scrapeHints : StringMap :=
  [("prometheus.io/scrape", "true"),
   ("prometheus.io/scheme", "http"),
   ("prometheus.io/path", "/metrics"),
   ("prometheus.io/port", "80")]

/-- The annotations of the service options of an exporter; none without service options. -/
def customServiceAnnotations (e : SolrPrometheusExporter) : StringMap :=
  match e.Spec.CustomKubeOptions.ServiceOptions with
  | some o => o.Annotations
  | none => []

/-- The exporter `e` with another bag of custom options. -/
def withCustomKubeOptions (e : SolrPrometheusExporter) (options : CustomExporterKubeOptions) :
    SolrPrometheusExporter :=
  { e with Spec := { e.Spec with CustomKubeOptions := options } }

/-- A sample exporter with a cloud target, credentials apart, and a custom environment
variable. -/
def customEnvExporter : SolrPrometheusExporter :=
  { ObjectMeta := { Name := "metrics", Namespace := "default" },
    Spec := { NumThreads := 1,
              SolrReference := { Cloud := some { Name := "cloud1", Namespace := "default" } },
              CustomKubeOptions :=
                { PodOptions := some { EnvVariables := [{ Name := "LOG", Value := "debug" }] } } } }

/-- A sample connection descriptor that carries access-control credentials. -/
def guardedZookeeper : ZookeeperConnectionInfo :=
  { InternalConnectionString := "zk1:2181,zk2:2181", ChRoot := "/solr",
    AllACL := some { raw := "secret/zk-all" } }

/-! ## Owner references, fetches and writes of a pass -/

/-- The name and namespace an object is stored under. -/
def Obj.key : Obj → NamespacedName
  | .exporter o => keyOf o.ObjectMeta
  | .configMap o => keyOf o.ObjectMeta
  | .service o => keyOf o.ObjectMeta
  | .deployment o => keyOf o.ObjectMeta
  | .solrCloud o => keyOf o.ObjectMeta

/-- The answer of `controllerutil.SetControllerReference` as a pass that holds the exporter
`owner` calls it on a generated child (lines 84, 107 and 134): the child with the metadata that
`SetControllerReference` returns for the owner, or its error. At line 134 the owner is the
exporter as the Deployment generator left it. -/
def attach {σ : Type} (c : Client σ) (owner : SolrPrometheusExporter) : Obj → Except Err Obj
  | .configMap o =>
    (c.SetControllerReference owner o.ObjectMeta).map
      (fun m => Obj.configMap { o with ObjectMeta := m })
  | .service o =>
    (c.SetControllerReference owner o.ObjectMeta).map
      (fun m => Obj.service { o with ObjectMeta := m })
  | .deployment o =>
    (c.SetControllerReference (withDefaultContainerMountNames owner) o.ObjectMeta).map
      (fun m => Obj.deployment { o with ObjectMeta := m })
  | o => .ok o

/-- The kinds of the children of an exporter. -/
def Kind.isChild : Kind → Bool
  | .ConfigMap => true
  | .Service => true
  | .Deployment => true
  | _ => false

/-- A create, update or status update call. -/
def Event.isWrite : Event → Bool
  | .create _ _ => true
  | .update _ _ => true
  | .statusUpdate _ _ => true
  | _ => false

/-- How the calls of a pass that holds the exporter `owner` hang together: every owner
reference attachment answers as `SetControllerReference` does for that owner, and every fetch
of a child asks for the name and namespace of an object of its kind to which the owner
reference was attached in the same pass. -/
def Tied {σ : Type} (c : Client σ) (owner : SolrPrometheusExporter) (l : List Event) : Prop :=
  (∀ g a, Event.setControllerReference g a ∈ l → a = attach c owner g) ∧
  (∀ k key answer, Event.get k key answer ∈ l → k.isChild = true →
    ∃ g d, Event.setControllerReference g (.ok d) ∈ l ∧ d.kind = k ∧ key = d.key)

/-- Every create call of a stretch is issued on an object that the answer to an earlier owner
reference attachment of the stretch carried. -/
def CreatesOwned (l : List Event) : Prop :=
  ∀ pre post o answer, l = pre ++ Event.create o answer :: post →
    ∃ generated, Event.setControllerReference generated (.ok o) ∈ pre

/-- The Service generated for the sample exporter, with the owner reference that the in-memory
cluster attaches. -/
def sampleOwnedService : Service :=
  { ObjectMeta :=
      { (GenerateSolrMetricsService sampleApi sampleExporter).ObjectMeta with
        OwnerReferences := [ownerReferenceTo sampleExporter] },
    Spec := (GenerateSolrMetricsService sampleApi sampleExporter).Spec }

/-! ## What a pass leaves behind -/

/-- The objects of kind `k` that the successful create and update calls of a stretch wrote, in
order. -/
def writtenOf (k : Kind) : List Event → List Obj
  | [] => []
  | .create o none :: rest => if o.kind = k then o :: writtenOf k rest else writtenOf k rest
  | .update o none :: rest => if o.kind = k then o :: writtenOf k rest else writtenOf k rest
  | _ :: rest => writtenOf k rest

/-- What a fetch of an object of kind `k` answers after a pass that issued the calls `l`, when
the pass itself was answered `fetched` and nothing but the pass touched the object: the object
as the last successful create or update call of the pass wrote it and, without such a call, the
answer `fetched` again. -/
def leftOf (k : Kind) (l : List Event) (fetched : Except Err Obj) : Except Err Obj :=
  match (writtenOf k l).getLast? with
  | some o => .ok o
  | none => fetched

/-- Two answers to the fetch of the exporter that show the same exporter, its status apart: the
same metadata and the same spec, or the same error. -/
def sameButStatus : Except Err Obj → Except Err Obj → Prop
  | .ok (.exporter a), .ok (.exporter b) => a.ObjectMeta = b.ObjectMeta ∧ a.Spec = b.Spec
  | a, b => a = b

/-- The calls `second` of a pass were answered by a cluster that is as the pass with the calls
`first` left it: a fetch that both passes issued is answered in the second pass with the
object as the first pass left it (a created child stored as given, an updated child stored as
written, anything else as the first pass saw it), and the exporter is fetched with the
metadata and the spec it had in the first pass. -/
def NoDrift (first second : List Event) : Prop :=
  ∀ k key answer1 answer2,
    Event.get k key answer1 ∈ first → Event.get k key answer2 ∈ second →
    (k = Kind.SolrPrometheusExporter → sameButStatus answer1 answer2) ∧
    (k ≠ Kind.SolrPrometheusExporter → answer2 = leftOf k first answer1)

/-- The helpers that the sources leave open read the metadata and the spec of the exporter and
not its status; the defaults check leaves the status as it is. -/
structure StatusBlind (api : Api) : Prop where
  WithDefaults : ∀ (e : SolrPrometheusExporter) (st : SolrPrometheusExporterStatus),
    api.WithDefaults { e with Status := st }
      = ({ (api.WithDefaults e).1 with Status := st }, (api.WithDefaults e).2)
  SharedLabels : ∀ (e : SolrPrometheusExporter) (st : SolrPrometheusExporterStatus),
    api.SharedLabels { e with Status := st } = api.SharedLabels e
  SharedLabelsWith : ∀ (e : SolrPrometheusExporter) (st : SolrPrometheusExporterStatus)
    (labels : StringMap),
    api.SharedLabelsWith { e with Status := st } labels = api.SharedLabelsWith e labels
  MetricsDeploymentName : ∀ (e : SolrPrometheusExporter) (st : SolrPrometheusExporterStatus),
    api.MetricsDeploymentName { e with Status := st } = api.MetricsDeploymentName e
  MetricsConfigMapName : ∀ (e : SolrPrometheusExporter) (st : SolrPrometheusExporterStatus),
    api.MetricsConfigMapName { e with Status := st } = api.MetricsConfigMapName e
  MetricsServiceName : ∀ (e : SolrPrometheusExporter) (st : SolrPrometheusExporterStatus),
    api.MetricsServiceName { e with Status := st } = api.MetricsServiceName e

/-- The `Copy...Fields` helpers report no change when the observed object already carries every
managed field of the desired one: when it is the desired object itself, stored as given, and
when it is an object that the helper has already rewritten for the same desired object. -/
def CopySettles (api : Api) : Prop :=
  (∀ desired, (copyFields api desired desired).2 = false) ∧
  (∀ desired observed, (copyFields api desired (copyFields api desired observed).1).2 = false)

/-- The fetches of a stretch: kind, name and namespace, and answer. -/
def getsOf : List Event → List (Kind × NamespacedName × Except Err Obj)
  | [] => []
  | .get k key answer :: rest => (k, key, answer) :: getsOf rest
  | _ :: rest => getsOf rest

/-- The sample exporter with a config document. -/
def configExporter : SolrPrometheusExporter :=
  { sampleExporter with Spec := { sampleExporter.Spec with Config := "<config/>" } }

/-- An in-memory cluster that holds the exporter `configExporter` and nothing else. -/
def configCluster : Cluster := { exporters := [configExporter] }

/-! # Properties -/

/-! ## Maps -/

theorem StringMap.get_filter_ne (m : StringMap) (k k2 : String) (h : k2 ≠ k) :
    StringMap.get (m.filter (fun p => !decide (p.1 = k))) k2 = StringMap.get m k2 := by
  induction m with
  | nil => rfl
  | cons p rest ih =>
    obtain ⟨a, b⟩ := p
    by_cases hp : a = k
    · have hne : ¬ k = k2 := fun h2 => h h2.symm
      subst hp
      simp [List.filter_cons, StringMap.get, hne, ih]
    · by_cases hk : a = k2
      · subst hk
        simp [List.filter_cons, hp, StringMap.get]
      · simp [List.filter_cons, hp, StringMap.get, hk, ih]

theorem StringMap.get_set_self (m : StringMap) (k v : String) :
    (m.set k v).get k = some v := by
  simp [StringMap.set, StringMap.get]

theorem StringMap.get_set_ne (m : StringMap) (k v k2 : String) (h : k2 ≠ k) :
    (m.set k v).get k2 = m.get k2 := by
  have hne : ¬ k = k2 := fun h2 => h h2.symm
  simp only [StringMap.set, StringMap.get, hne, if_false]
  exact StringMap.get_filter_ne m k k2 h

theorem get_MergeLabelsOrAnnotations (base override : StringMap) (k : String) :
    (MergeLabelsOrAnnotations base override).get k =
      match override.get k with
      | some v => some v
      | none => base.get k := by
  induction override with
  | nil => rfl
  | cons p rest ih =>
    have hstep : MergeLabelsOrAnnotations base (p :: rest) =
        (MergeLabelsOrAnnotations base rest).set p.1 p.2 := rfl
    rw [hstep]
    by_cases hp : p.1 = k
    · subst hp
      simp [StringMap.get_set_self, StringMap.get]
    · have hk : k ≠ p.1 := fun h2 => hp h2.symm
      rw [StringMap.get_set_ne _ _ _ _ hk, ih]
      simp [StringMap.get, hp]

/-! ## The generators -/

/-- The pod template labels of a generated Deployment (lines 54-73 and 218). -/
theorem deployment_podLabels (api : Api) (e : SolrPrometheusExporter) (info : SolrConnectionInfo)
    (d : Deployment) (hd : GenerateSolrPrometheusExporterDeployment api e info = .ok d) :
    d.Spec.Template.ObjectMeta.Labels =
      match e.Spec.CustomKubeOptions.PodOptions with
      | some o =>
        MergeLabelsOrAnnotations
          ((api.SharedLabelsWith e e.GetLabels).set "technology"
            api.SolrPrometheusExporterTechnologyLabel) o.Labels
      | none =>
        (api.SharedLabelsWith e e.GetLabels).set "technology"
          api.SolrPrometheusExporterTechnologyLabel := by
  unfold GenerateSolrPrometheusExporterDeployment at hd
  dsimp only at hd
  split at hd
  · cases hd
  · cases hd
    rfl

/-- The selector of the generated Service (lines 316-317 and 336). -/
theorem service_selector (api : Api) (e : SolrPrometheusExporter) :
    (GenerateSolrMetricsService api e).Spec.Selector =
      (api.SharedLabels e).set "technology" api.SolrPrometheusExporterTechnologyLabel := rfl

/-- In the sample instance the shared labels are among the shared labels with extras. -/
theorem sampleApi_shared (e : SolrPrometheusExporter) (labels : StringMap) (k v : String)
    (h : (sampleApi.SharedLabels e).get k = some v) :
    (sampleApi.SharedLabelsWith e labels).get k = some v := by
  simp only [sampleApi, StringMap.get] at h
  split at h
  · next hk =>
    subst hk
    simp only [sampleApi]
    rw [StringMap.get_set_self]
    exact h
  · cases h

/-- C3 as stated fails: with a pod label override of the `technology` key the generated
Service selector asks for a `technology` value that the pod template labels of the generated
Deployment do not carry. -/
theorem selector_stability_counterexample :
    ∃ d, GenerateSolrPrometheusExporterDeployment sampleApi technologyOverrideExporter {} = .ok d ∧
      ¬ (∀ k v,
          (GenerateSolrMetricsService sampleApi technologyOverrideExporter).Spec.Selector.get k
            = some v →
          d.Spec.Template.ObjectMeta.Labels.get k = some v) := by
  refine ⟨_, rfl, ?_⟩
  intro h
  have h2 := h "technology" "solr-prometheus-exporter" (by decide)
  revert h2
  decide

/-- C3, amended: when the shared labels are among the shared labels built on the labels of the
exporter, and the pod label overrides give no key of the Service selector another value, the
selector of the generated Service holds the technology label and each of its pairs is a pod
template label of the Deployment generated for the same exporter. Deployment and service label
overrides are unrestricted. -/
theorem selector_matches_pod_labels (api : Api) (e : SolrPrometheusExporter)
    (info : SolrConnectionInfo) (d : Deployment)
    (hshared : ∀ k v, (api.SharedLabels e).get k = some v →
      (api.SharedLabelsWith e e.GetLabels).get k = some v)
    (hpod : ∀ o, e.Spec.CustomKubeOptions.PodOptions = some o →
      ∀ k v w, (GenerateSolrMetricsService api e).Spec.Selector.get k = some v →
        o.Labels.get k = some w → w = v)
    (hd : GenerateSolrPrometheusExporterDeployment api e info = .ok d) :
    (GenerateSolrMetricsService api e).Spec.Selector.get "technology"
        = some api.SolrPrometheusExporterTechnologyLabel ∧
      ∀ k v, (GenerateSolrMetricsService api e).Spec.Selector.get k = some v →
        d.Spec.Template.ObjectMeta.Labels.get k = some v := by
  constructor
  · rw [service_selector, StringMap.get_set_self]
  · intro k v hk
    have hbase : ((api.SharedLabelsWith e e.GetLabels).set "technology"
        api.SolrPrometheusExporterTechnologyLabel).get k = some v := by
      rw [service_selector] at hk
      by_cases hkt : k = "technology"
      · subst hkt
        rw [StringMap.get_set_self] at hk ⊢
        exact hk
      · rw [StringMap.get_set_ne _ _ _ _ hkt] at hk ⊢
        exact hshared k v hk
    rw [deployment_podLabels api e info d hd]
    cases hopt : e.Spec.CustomKubeOptions.PodOptions with
    | none => exact hbase
    | some o =>
      dsimp only
      rw [get_MergeLabelsOrAnnotations]
      cases hov : o.Labels.get k with
      | none => exact hbase
      | some w =>
        dsimp only
        rw [hpod o hopt k v w hk hov]

/-- C3, amended, on the sample exporter with a pod label override of another key. -/
theorem selector_matches_pod_labels_witness :
    (GenerateSolrMetricsService sampleApi teamLabelExporter).Spec.Selector.get "technology"
        = some sampleApi.SolrPrometheusExporterTechnologyLabel ∧
      ∀ k v,
        (GenerateSolrMetricsService sampleApi teamLabelExporter).Spec.Selector.get k = some v →
        (generatedOrEmpty (GenerateSolrPrometheusExporterDeployment sampleApi teamLabelExporter
          {})).Spec.Template.ObjectMeta.Labels.get k = some v :=
  selector_matches_pod_labels sampleApi teamLabelExporter {} _
    (fun k v h => sampleApi_shared teamLabelExporter _ k v h)
    (by
      intro o h
      cases h
      intro k v w hs ho
      simp only [StringMap.get] at ho
      split at ho
      · next hk =>
        subst hk
        have hnone : (GenerateSolrMetricsService sampleApi teamLabelExporter).Spec.Selector.get
            "team" = none := by decide
        rw [hnone] at hs
        cases hs
      · cases ho)
    rfl

/-- The loop over the extra volumes runs to its end when every volume has a mount. -/
theorem addCustomVolumes_ok (volumes : List AdditionalVolume)
    (h : ∀ v ∈ volumes, v.DefaultContainerMount ≠ none)
    (volumeMounts : List VolumeMount) (solrVolumes : List Volume) :
    ∃ r, addCustomVolumes volumes volumeMounts solrVolumes = .ok r := by
  induction volumes generalizing volumeMounts solrVolumes with
  | nil => exact ⟨_, rfl⟩
  | cons v rest ih =>
    have hv := h v (List.mem_cons_self v rest)
    cases hm : v.DefaultContainerMount with
    | none => exact absurd hm hv
    | some m =>
      simp only [addCustomVolumes, setDefaultContainerMountName, hm]
      exact ih (fun w hw => h w (List.mem_cons_of_mem v hw)) _ _

/-- The loop over the extra volumes panics when a volume has no mount. -/
theorem addCustomVolumes_panics (volumes : List AdditionalVolume)
    (h : ∃ v ∈ volumes, v.DefaultContainerMount = none)
    (volumeMounts : List VolumeMount) (solrVolumes : List Volume) :
    addCustomVolumes volumes volumeMounts solrVolumes = .error Panic.nilPointerDereference := by
  induction volumes generalizing volumeMounts solrVolumes with
  | nil =>
    obtain ⟨v, hv, _⟩ := h
    cases hv
  | cons v rest ih =>
    cases hm : v.DefaultContainerMount with
    | none => simp only [addCustomVolumes, setDefaultContainerMountName, hm]
    | some m =>
      simp only [addCustomVolumes, setDefaultContainerMountName, hm]
      apply ih
      obtain ⟨w, hw, hnone⟩ := h
      rcases List.mem_cons.mp hw with hwv | hwr
      · subst hwv
        rw [hm] at hnone
        cases hnone
      · exact ⟨w, hwr, hnone⟩

/-- The Deployment generator returns exactly when the loop over the extra volumes does. -/
theorem generator_ok_iff (api : Api) (e : SolrPrometheusExporter) (info : SolrConnectionInfo) :
    (∃ d, GenerateSolrPrometheusExporterDeployment api e info = .ok d) ↔
      ∃ r, podVolumes api e = .ok r := by
  unfold GenerateSolrPrometheusExporterDeployment
  dsimp only
  split
  · next p hp =>
    rw [hp]
    constructor
    · rintro ⟨d, hd⟩
      cases hd
    · rintro ⟨r, hr⟩
      cases hr
  · next vm sv hp =>
    rw [hp]
    exact ⟨fun _ => ⟨_, rfl⟩, fun _ => ⟨_, rfl⟩⟩

/-- The Deployment generator returns when every extra volume has a default container mount. -/
theorem deployment_generator_returns (api : Api) (e : SolrPrometheusExporter)
    (info : SolrConnectionInfo)
    (h : ∀ o, e.Spec.CustomKubeOptions.PodOptions = some o →
      ∀ v ∈ o.Volumes, v.DefaultContainerMount ≠ none) :
    ∃ d, GenerateSolrPrometheusExporterDeployment api e info = .ok d := by
  rw [generator_ok_iff]
  unfold podVolumes
  cases hopt : e.Spec.CustomKubeOptions.PodOptions with
  | none => exact ⟨_, rfl⟩
  | some o => exact addCustomVolumes_ok o.Volumes (h o hopt) _ _

/-- The Deployment generator panics when an extra volume has no default container mount. -/
theorem deployment_generator_panics (api : Api) (e : SolrPrometheusExporter)
    (info : SolrConnectionInfo) (o : PodOptions)
    (hopt : e.Spec.CustomKubeOptions.PodOptions = some o)
    (h : ∃ v ∈ o.Volumes, v.DefaultContainerMount = none) :
    GenerateSolrPrometheusExporterDeployment api e info
      = .error Panic.nilPointerDereference := by
  have hv : podVolumes api e = .error Panic.nilPointerDereference := by
    unfold podVolumes
    rw [hopt]
    exact addCustomVolumes_panics o.Volumes h _ _
  unfold GenerateSolrPrometheusExporterDeployment
  dsimp only
  rw [hv]

/-- C4, the defect: on an exporter whose pod options list an extra volume without a default
container mount, line 143 writes through the nil pointer before line 146 tests it, and the
generator panics instead of returning a Deployment. -/
theorem deployment_generator_panic_on_volume_without_mount :
    GenerateSolrPrometheusExporterDeployment sampleApi volumeWithoutMountExporter {}
      = .error Panic.nilPointerDereference := rfl

/-- Rewriting the head of a list of containers leaves every field the rewrite keeps. -/
theorem head_modifyHead_proj {β : Type} (g : Container → β) (f : Container → Container)
    (l : List Container) (hf : ∀ c, g (f c) = g c) :
    (l.modifyHead f).head?.map g = l.head?.map g := by
  cases l with
  | nil => rfl
  | cons c rest => simp [List.modifyHead, hf]

/-- Lines 240-268 change nothing but the resources of `Containers[0]`. -/
theorem applyPodOptions_head {β : Type} (g : Container → β)
    (hg : ∀ (c : Container) (r : ResourceRequirements), g { c with Resources := r } = g c)
    (o : PodOptions) (p : PodSpec) :
    (applyPodOptions o p).Containers.head?.map g = p.Containers.head?.map g := by
  unfold applyPodOptions
  lift_lets
  extract_lets p1 p2 p3 p4 p5 p6
  have h1 : p1.Containers = p.Containers := by
    simp only [p1]; split <;> rfl
  have h2 : p2.Containers.head?.map g = p.Containers.head?.map g := by
    simp only [p2]
    split
    · rw [← h1]
      exact head_modifyHead_proj g _ _ (fun c => hg c _)
    · rw [h1]
  have h3 : p3.Containers.head?.map g = p.Containers.head?.map g := by
    simp only [p3]
    split
    · rw [← h2]
      exact head_modifyHead_proj g _ _ (fun c => hg c _)
    · exact h2
  have h4 : p4.Containers = p3.Containers := by
    simp only [p4]; split <;> rfl
  have h5 : p5.Containers = p4.Containers := by
    simp only [p5]; split <;> rfl
  have h6 : p6.Containers = p5.Containers := by
    simp only [p6]; split <;> rfl
  split <;> simp only [h6, h5, h4, h3]

/-- Lines 240-268 leave the volumes of the pod alone. -/
theorem applyPodOptions_volumes (o : PodOptions) (p : PodSpec) :
    (applyPodOptions o p).Volumes = p.Volumes := by
  unfold applyPodOptions
  lift_lets
  extract_lets p1 p2 p3 p4 p5 p6
  have h1 : p1.Volumes = p.Volumes := by
    simp only [p1]; split <;> rfl
  have h2 : p2.Volumes = p1.Volumes := by
    simp only [p2]; split <;> rfl
  have h3 : p3.Volumes = p2.Volumes := by
    simp only [p3]; split <;> rfl
  have h4 : p4.Volumes = p3.Volumes := by
    simp only [p4]; split <;> rfl
  have h5 : p5.Volumes = p4.Volumes := by
    simp only [p5]; split <;> rfl
  have h6 : p6.Volumes = p5.Volumes := by
    simp only [p6]; split <;> rfl
  split <;> simp only [h6, h5, h4, h3, h2, h1]

/-- The metrics port as the generators print it. -/
theorem Itoa_SolrMetricsPort : Itoa SolrMetricsPort = "8080" := by decide

/-- What a generated Deployment holds of the locals of the generator: the volumes of the pod
and the mounts, arguments and environment of `Containers[0]`. -/
theorem generated_exporterContainer (api : Api) (e : SolrPrometheusExporter)
    (info : SolrConnectionInfo) (d : Deployment)
    (hd : GenerateSolrPrometheusExporterDeployment api e info = .ok d) :
    ∃ volumeMounts solrVolumes, podVolumes api e = .ok (volumeMounts, solrVolumes) ∧
      d.Spec.Template.Spec.Volumes = solrVolumes ∧
      (exporterContainer d).map Container.VolumeMounts = some volumeMounts ∧
      (exporterContainer d).map Container.Args = some (exporterArgs api e info) ∧
      (exporterContainer d).map Container.Env = some (envVars api e info) := by
  unfold GenerateSolrPrometheusExporterDeployment at hd
  dsimp only at hd
  split at hd
  · cases hd
  · next vm sv hp =>
    cases hd
    refine ⟨vm, sv, hp, ?_, ?_, ?_, ?_⟩
    · dsimp only
      cases e.Spec.CustomKubeOptions.PodOptions <;> dsimp only <;>
        (try rw [applyPodOptions_volumes]) <;> split_ifs <;> rfl
    · unfold exporterContainer
      dsimp only
      cases e.Spec.CustomKubeOptions.PodOptions <;> dsimp only <;>
        (try rw [applyPodOptions_head Container.VolumeMounts (fun _ _ => rfl)]) <;>
        split_ifs <;> rfl
    · unfold exporterContainer
      dsimp only
      cases e.Spec.CustomKubeOptions.PodOptions <;> dsimp only <;>
        (try rw [applyPodOptions_head Container.Args (fun _ _ => rfl)]) <;>
        split_ifs <;> rfl
    · unfold exporterContainer
      dsimp only
      cases e.Spec.CustomKubeOptions.PodOptions <;> dsimp only <;>
        (try rw [applyPodOptions_head Container.Env (fun _ _ => rfl)]) <;>
        split_ifs <;> rfl

/-- C5 as stated fails: for connection info with neither field populated the generator emits
no connection pair at all, while the claimed list holds the pair `-b` with an empty address. -/
theorem exporter_args_counterexample :
    ∃ d c, GenerateSolrPrometheusExporterDeployment sampleApi noTargetExporter {} = .ok d ∧
      exporterContainer d = some c ∧
      c.Args ≠ claimedExporterArgs sampleApi noTargetExporter {} := by
  refine ⟨_, _, rfl, rfl, ?_⟩
  decide

/-- C5, amended: the argument list of the exporter container is, in this order, `-p 8080`,
`-n` with the thread count, `-s` with the scrape interval only when it is positive, then `-z`
with the zookeeper connection string when a cloud descriptor is resolved, otherwise `-b` with
the standalone address when that address is not empty, otherwise no connection pair, then `-f`
with the mounted config path when the config document is not empty and with the default config
path otherwise. -/
theorem exporter_args (api : Api) (e : SolrPrometheusExporter) (info : SolrConnectionInfo)
    (d : Deployment) (hd : GenerateSolrPrometheusExporterDeployment api e info = .ok d) :
    (exporterContainer d).map Container.Args = some
      (["-p", "8080"] ++ ["-n", Itoa e.Spec.NumThreads] ++
        (if e.Spec.ScrapeInterval > 0 then ["-s", Itoa e.Spec.ScrapeInterval] else []) ++
        (match info.CloudZkConnnectionInfo with
         | some zk => ["-z", api.ZkConnectionString zk]
         | none => if info.StandaloneAddress ≠ "" then ["-b", info.StandaloneAddress] else []) ++
        (if e.Spec.Config ≠ "" then ["-f", "/opt/solr-exporter/solr-prometheus-exporter.xml"]
         else ["-f", "/opt/solr/contrib/prometheus-exporter/conf/solr-exporter-config.xml"])) := by
  obtain ⟨_, _, _, _, _, hargs, _⟩ := generated_exporterContainer api e info d hd
  rw [hargs]
  unfold exporterArgs
  rw [Itoa_SolrMetricsPort]
  cases info.CloudZkConnnectionInfo <;> dsimp only <;> split_ifs <;> simp

/-- C5, amended, on the sample exporter and its standalone address. -/
theorem exporter_args_witness :
    (exporterContainer (generatedOrEmpty (GenerateSolrPrometheusExporterDeployment sampleApi
        sampleExporter { StandaloneAddress := "10.0.0.5:2181" }))).map Container.Args
      = some ["-p", "8080", "-n", "1", "-b", "10.0.0.5:2181", "-f",
          "/opt/solr/contrib/prometheus-exporter/conf/solr-exporter-config.xml"] :=
  exporter_args sampleApi sampleExporter { StandaloneAddress := "10.0.0.5:2181" } _ rfl

/-- C6, the defect: for an exporter that names both a standalone target and a cloud target with
an inline descriptor, `getSolrConnectionInfo` returns, whatever the client does, connection info
with both fields populated, against the comment on `SolrConnectionInfo`. -/
theorem getSolrConnectionInfo_both_populated {σ : Type} (c : Client σ) (s : σ) :
    (getSolrConnectionInfo c bothTargetsExporter s).val =
      .ok ({ CloudZkConnnectionInfo := some sampleZookeeper,
             StandaloneAddress := "10.0.0.5:8983" }, none) := rfl

section
variable {σ : Type}

/-- Lines 83-102 run as the convergence step of the generated ConfigMap. -/
theorem configMapPhase_run (api : Api) (c : Client σ) (e : SolrPrometheusExporter) (s : σ) :
    ∃ err ready,
      ChildRun api (Obj.configMap (GenerateMetricsConfigMap api e))
        (configMapPhase api c e s).calls err ready ∧
      (configMapPhase api c e s).val =
        (match err with
         | some x => .error (Halt.returned {} (some x))
         | none => .ok ()) := by
  simp only [configMapPhase, bind, Pass.bind, Pass.call, Pass.ret, Pass.halt, pure, Pass.pure,
    setControllerReference]
  cases hown : c.SetControllerReference e (GenerateMetricsConfigMap api e).ObjectMeta with
  | error err =>
    exact ⟨some err, false, ChildRun.ownerFailed err, rfl⟩
  | ok m =>
    simp only [Except.map, Pass.bind, Pass.call]
    cases hget : (c.getConfigMap { Namespace := m.Namespace, Name := m.Name } s).1 with
    | error err =>
      cases hnf : IsNotFound err with
      | false =>
        simp only [hnf, Pass.bind, Pass.pure, Pass.halt]
        exact ⟨some err, false, ChildRun.fetchFailed _ _ err rfl hnf, rfl⟩
      | true =>
        simp only [hnf, Pass.bind, Pass.pure, Pass.halt, Pass.call, if_true]
        cases hcreate : (c.createConfigMap { ObjectMeta := m, Data := (GenerateMetricsConfigMap api e).Data }
            (c.getConfigMap { Namespace := m.Namespace, Name := m.Name } s).2).1 with
        | none => exact ⟨none, false, ChildRun.created _ _ err none rfl hnf, rfl⟩
        | some err2 =>
          exact ⟨some err2, false, ChildRun.created _ _ err (some err2) rfl hnf, rfl⟩
    | ok found =>
      cases hch : (api.CopyConfigMapFields
          { ObjectMeta := m, Data := (GenerateMetricsConfigMap api e).Data } found).2 with
      | false =>
        simp only [hch, Pass.bind, Pass.pure, Pass.halt]
        exact ⟨none, _,
          ChildRun.unchanged (Obj.configMap _) _ (Obj.configMap found) rfl rfl hch, rfl⟩
      | true =>
        simp only [hch, Pass.bind, Pass.pure, Pass.halt, Pass.call, if_true]
        cases hupd : (c.updateConfigMap
            (api.CopyConfigMapFields { ObjectMeta := m, Data := (GenerateMetricsConfigMap api e).Data } found).1
            (c.getConfigMap { Namespace := m.Namespace, Name := m.Name } s).2).1 with
        | none =>
          exact ⟨none, _,
            ChildRun.updated (Obj.configMap _) _ (Obj.configMap found) none rfl rfl hch, rfl⟩
        | some err2 =>
          exact ⟨some err2, _,
            ChildRun.updated (Obj.configMap _) _ (Obj.configMap found) (some err2) rfl rfl hch,
            rfl⟩

/-- Lines 106-125 run as the convergence step of the generated Service. -/
theorem servicePhase_run (api : Api) (c : Client σ) (e : SolrPrometheusExporter) (s : σ) :
    ∃ err ready,
      ChildRun api (Obj.service (GenerateSolrMetricsService api e))
        (servicePhase api c e s).calls err ready ∧
      (servicePhase api c e s).val =
        (match err with
         | some x => .error (Halt.returned {} (some x))
         | none => .ok ()) := by
  simp only [servicePhase, bind, Pass.bind, Pass.call, Pass.ret, Pass.halt, pure, Pass.pure,
    setControllerReference]
  cases hown : c.SetControllerReference e (GenerateSolrMetricsService api e).ObjectMeta with
  | error err =>
    exact ⟨some err, false, ChildRun.ownerFailed err, rfl⟩
  | ok m =>
    simp only [Except.map, Pass.bind, Pass.call]
    cases hget : (c.getService { Namespace := m.Namespace, Name := m.Name } s).1 with
    | error err =>
      cases hnf : IsNotFound err with
      | false =>
        simp only [hnf, Pass.bind, Pass.pure, Pass.halt]
        exact ⟨some err, false, ChildRun.fetchFailed _ _ err rfl hnf, rfl⟩
      | true =>
        simp only [hnf, Pass.bind, Pass.pure, Pass.halt, Pass.call, if_true]
        cases hcreate : (c.createService { ObjectMeta := m, Spec := (GenerateSolrMetricsService api e).Spec }
            (c.getService { Namespace := m.Namespace, Name := m.Name } s).2).1 with
        | none => exact ⟨none, false, ChildRun.created _ _ err none rfl hnf, rfl⟩
        | some err2 =>
          exact ⟨some err2, false, ChildRun.created _ _ err (some err2) rfl hnf, rfl⟩
    | ok found =>
      cases hch : (api.CopyServiceFields
          { ObjectMeta := m, Spec := (GenerateSolrMetricsService api e).Spec } found).2 with
      | false =>
        simp only [hch, Pass.bind, Pass.pure, Pass.halt]
        exact ⟨none, _,
          ChildRun.unchanged (Obj.service _) _ (Obj.service found) rfl rfl hch, rfl⟩
      | true =>
        simp only [hch, Pass.bind, Pass.pure, Pass.halt, Pass.call, if_true]
        cases hupd : (c.updateService
            (api.CopyServiceFields { ObjectMeta := m, Spec := (GenerateSolrMetricsService api e).Spec } found).1
            (c.getService { Namespace := m.Namespace, Name := m.Name } s).2).1 with
        | none =>
          exact ⟨none, _,
            ChildRun.updated (Obj.service _) _ (Obj.service found) none rfl rfl hch, rfl⟩
        | some err2 =>
          exact ⟨some err2, _,
            ChildRun.updated (Obj.service _) _ (Obj.service found) (some err2) rfl rfl hch,
            rfl⟩

/-- `getSolrConnectionInfo` runs as `LookupRun` says. -/
theorem getSolrConnectionInfo_run (c : Client σ) (e : SolrPrometheusExporter) (s : σ) :
    ∃ info err, LookupRun e (getSolrConnectionInfo c e s).calls info err ∧
      (getSolrConnectionInfo c e s).val = .ok (info, err) := by
  cases hcloud : e.Spec.SolrReference.Cloud with
  | none =>
    simp only [getSolrConnectionInfo, hcloud, bind, Pass.bind, Pass.call, pure, Pass.pure]
    exact ⟨_, _, LookupRun.noCloud hcloud, rfl⟩
  | some cloudRef =>
    cases hzk : cloudRef.ZookeeperConnectionInfo with
    | some zk =>
      simp only [getSolrConnectionInfo, hcloud, hzk, bind, Pass.bind, Pass.call, pure, Pass.pure]
      exact ⟨_, _, LookupRun.inline cloudRef zk hcloud hzk, rfl⟩
    | none =>
      by_cases hname : cloudRef.Name = ""
      · simp only [getSolrConnectionInfo, hcloud, hzk, bind, Pass.bind, Pass.call, pure,
          Pass.pure, hname, ne_eq, not_true_eq_false, if_false]
        exact ⟨_, _, LookupRun.unnamed cloudRef hcloud hzk hname, rfl⟩
      · simp only [getSolrConnectionInfo, hcloud, hzk, bind, Pass.bind, Pass.call, pure,
          Pass.pure, hname, ne_eq, not_false_eq_true, if_true]
        cases hget : (c.getSolrCloud { Namespace := cloudRef.Namespace, Name := cloudRef.Name }
            s).1 with
        | ok solrCloud => exact ⟨_, _, LookupRun.found cloudRef solrCloud hcloud hzk hname, rfl⟩
        | error err => exact ⟨_, _, LookupRun.failed cloudRef err hcloud hzk hname, rfl⟩
end

section
variable {σ : Type}

/-- Lines 133-155 run as the convergence step of the generated Deployment and compute the
readiness of that run. -/
theorem deploymentPhase_run (api : Api) (c : Client σ) (e : SolrPrometheusExporter)
    (info : SolrConnectionInfo) (d : Deployment) (s : σ)
    (hg : GenerateSolrPrometheusExporterDeployment api e info = .ok d) :
    ∃ err ready,
      ChildRun api (Obj.deployment d) (deploymentPhase api c e info s).calls err ready ∧
      (deploymentPhase api c e info s).val =
        (match err with
         | some x => .error (Halt.returned {} (some x))
         | none => .ok ready) := by
  simp only [deploymentPhase, hg, bind, Pass.bind, Pass.call, Pass.ret, Pass.halt, pure,
    Pass.pure, setControllerReference]
  cases hown : c.SetControllerReference (withDefaultContainerMountNames e) d.ObjectMeta with
  | error err =>
    exact ⟨some err, false, ChildRun.ownerFailed err, rfl⟩
  | ok m =>
    simp only [Except.map, Pass.bind, Pass.call]
    cases hget : (c.getDeployment { Namespace := m.Namespace, Name := m.Name } s).1 with
    | error err =>
      cases hnf : IsNotFound err with
      | false =>
        simp only [hnf, Pass.bind, Pass.pure, Pass.halt]
        exact ⟨some err, false, ChildRun.fetchFailed _ _ err rfl hnf, rfl⟩
      | true =>
        simp only [hnf, Pass.bind, Pass.pure, Pass.halt, Pass.call, if_true]
        cases hcreate : (c.createDeployment { d with ObjectMeta := m }
            (c.getDeployment { Namespace := m.Namespace, Name := m.Name } s).2).1 with
        | none => exact ⟨none, false, ChildRun.created _ _ err none rfl hnf, rfl⟩
        | some err2 =>
          exact ⟨some err2, false, ChildRun.created _ _ err (some err2) rfl hnf, rfl⟩
    | ok found =>
      cases hch : (api.CopyDeploymentFields { d with ObjectMeta := m } found).2 with
      | false =>
        simp only [hch, Pass.bind, Pass.pure, Pass.halt]
        exact ⟨none, _,
          ChildRun.unchanged (Obj.deployment _) _ (Obj.deployment found) rfl rfl hch, rfl⟩
      | true =>
        simp only [hch, Pass.bind, Pass.pure, Pass.halt, Pass.call, if_true]
        cases hupd : (c.updateDeployment (api.CopyDeploymentFields { d with ObjectMeta := m }
            found).1 (c.getDeployment { Namespace := m.Namespace, Name := m.Name } s).2).1 with
        | none =>
          exact ⟨none, _,
            ChildRun.updated (Obj.deployment _) _ (Obj.deployment found) none rfl rfl hch, rfl⟩
        | some err2 =>
          exact ⟨some err2, _,
            ChildRun.updated (Obj.deployment _) _ (Obj.deployment found) (some err2) rfl rfl hch,
            rfl⟩

/-- A panic of the Deployment generator ends the pass before any call of lines 133-155. -/
theorem deploymentPhase_panic (api : Api) (c : Client σ) (e : SolrPrometheusExporter)
    (info : SolrConnectionInfo) (p : Panic) (s : σ)
    (hg : GenerateSolrPrometheusExporterDeployment api e info = .error p) :
    (deploymentPhase api c e info s).calls = [] ∧
      (deploymentPhase api c e info s).val = .error (Halt.panicked p) := by
  simp only [deploymentPhase, hg, Pass.halt, and_self]
end

section
variable {σ : Type}

/-- Sequencing after a stretch that computed a value. -/
theorem Pass.bind_ok {α β : Type} (m : Pass σ α) (f : α → Pass σ β) (s : σ) (a : α)
    (h : (m s).val = .ok a) :
    Pass.bind m f s =
      { calls := (m s).calls ++ (f a (m s).state).calls,
        state := (f a (m s).state).state,
        val := (f a (m s).state).val } := by
  simp only [Pass.bind, h]

/-- Sequencing after a stretch in which the pass ended. -/
theorem Pass.bind_error {α β : Type} (m : Pass σ α) (f : α → Pass σ β) (s : σ) (x : Halt)
    (h : (m s).val = .error x) :
    Pass.bind m f s = { calls := (m s).calls, state := (m s).state, val := .error x } := by
  simp only [Pass.bind, h]

/-- Lines 105-155 run as `ConvergeRun` says, after any run of lines 81-103 that did not end the
pass. -/
theorem convergeAfterConfig_run (api : Api) (c : Client σ) (e : SolrPrometheusExporter)
    (lc : List Event) (hc : ConfigRun api e lc) (s : σ) :
    ConvergeRun api e
      (lc ++ (Pass.bind (servicePhase api c e) (fun _ =>
        Pass.bind (getSolrConnectionInfo c e) (fun r =>
          match r.2 with
          | some err => Pass.ret {} (some err)
          | none => deploymentPhase api c e r.1)) s).calls)
      (Pass.bind (servicePhase api c e) (fun _ =>
        Pass.bind (getSolrConnectionInfo c e) (fun r =>
          match r.2 with
          | some err => Pass.ret {} (some err)
          | none => deploymentPhase api c e r.1)) s).val := by
  obtain ⟨err, ready, hrun, hval⟩ := servicePhase_run api c e s
  cases err with
  | some x =>
    rw [Pass.bind_error _ _ _ _ hval]
    exact ConvergeRun.serviceStopped lc _ x ready hc hrun
  | none =>
    rw [Pass.bind_ok _ _ _ _ hval]
    obtain ⟨info, lerr, hl, hlv⟩ := getSolrConnectionInfo_run c e (servicePhase api c e s).state
    rw [Pass.bind_ok _ _ _ _ hlv]
    cases lerr with
    | some x =>
      have h := ConvergeRun.lookupFailed lc _ _ ready info x hc hrun hl
      simpa only [Pass.ret, Pass.halt, List.append_nil, List.append_assoc] using h
    | none =>
      cases hg : GenerateSolrPrometheusExporterDeployment api e info with
      | error p =>
        obtain ⟨hcalls, hv⟩ := deploymentPhase_panic api c e info p
          (getSolrConnectionInfo c e (servicePhase api c e s).state).state hg
        have h := ConvergeRun.generatorPanicked lc _ _ ready info p hc hrun hl hg
        simpa only [hcalls, hv, List.append_nil, List.append_assoc] using h
      | ok d =>
        obtain ⟨derr, ready2, hd, hdv⟩ := deploymentPhase_run api c e info d
          (getSolrConnectionInfo c e (servicePhase api c e s).state).state hg
        cases derr with
        | some x =>
          have h := ConvergeRun.deploymentStopped lc _ _ _ ready info d x ready2 hc hrun hl hg hd
          simpa only [hdv, List.append_assoc] using h
        | none =>
          have h := ConvergeRun.converged lc _ _ _ ready info d ready2 hc hrun hl hg hd
          simpa only [hdv, List.append_assoc] using h

/-- Lines 81-155 run as `ConvergeRun` says. -/
theorem convergeChildren_run (api : Api) (c : Client σ) (e : SolrPrometheusExporter) (s : σ) :
    ConvergeRun api e (convergeChildren api c e s).calls (convergeChildren api c e s).val := by
  simp only [convergeChildren, bind, pure]
  by_cases hconfig : e.Spec.Config = ""
  · simp only [hconfig, ne_eq, not_true_eq_false, if_false]
    rw [Pass.bind_ok _ _ _ PUnit.unit rfl]
    exact convergeAfterConfig_run api c e [] (ConfigRun.skipped hconfig) s
  · simp only [hconfig, ne_eq, not_false_eq_true, if_true]
    obtain ⟨err, ready, hrun, hval⟩ := configMapPhase_run api c e s
    cases err with
    | some x =>
      rw [Pass.bind_error _ _ _ _ hval]
      exact ConvergeRun.configMapStopped _ x ready hconfig hrun
    | none =>
      rw [Pass.bind_ok _ _ _ _ hval]
      exact convergeAfterConfig_run api c e _ (ConfigRun.converged _ ready hconfig hrun) _
end

section
variable {σ : Type}

/-- A pass whose fetch of the exporter fails. -/
theorem Reconcile_parent_error (api : Api) (c : Client σ) (req : NamespacedName) (s : σ)
    (err : Err) (hget : (c.getSolrPrometheusExporter req s).1 = .error err) :
    (Reconcile api c req s).calls
        = [Event.get Kind.SolrPrometheusExporter req (.error err)] ∧
      (Reconcile api c req s).ret
        = Halt.returned {} (if IsNotFound err = true then none else some err) := by
  simp only [Reconcile, reconcilePass, bind, Pass.bind, Pass.call, Pass.ret, Pass.halt, hget,
    Except.map]
  cases IsNotFound err <;> simp [Pass.halt]

/-- A pass in which the defaults check changes the exporter. -/
theorem Reconcile_defaulted (api : Api) (c : Client σ) (req : NamespacedName) (s : σ)
    (fetched : SolrPrometheusExporter)
    (hget : (c.getSolrPrometheusExporter req s).1 = .ok fetched)
    (hchanged : (api.WithDefaults fetched).2 = true) :
    (Reconcile api c req s).calls
        = [Event.get Kind.SolrPrometheusExporter req (.ok (Obj.exporter fetched)),
           Event.update (Obj.exporter (api.WithDefaults fetched).1)
             (c.updateSolrPrometheusExporter (api.WithDefaults fetched).1
               (c.getSolrPrometheusExporter req s).2).1] ∧
      (Reconcile api c req s).ret
        = (match (c.updateSolrPrometheusExporter (api.WithDefaults fetched).1
              (c.getSolrPrometheusExporter req s).2).1 with
           | some err => Halt.returned {} (some err)
           | none => Halt.returned { Requeue := true } none) := by
  simp only [Reconcile, reconcilePass, bind, Pass.bind, Pass.call, Pass.ret, Pass.halt, hget,
    Except.map, hchanged, if_true]
  cases (c.updateSolrPrometheusExporter (api.WithDefaults fetched).1
    (c.getSolrPrometheusExporter req s).2).1 <;> simp [Pass.halt]

/-- A pass that ends while it converges the children. -/
theorem Reconcile_stopped (api : Api) (c : Client σ) (req : NamespacedName) (s : σ)
    (fetched : SolrPrometheusExporter) (h : Halt)
    (hget : (c.getSolrPrometheusExporter req s).1 = .ok fetched)
    (hchanged : (api.WithDefaults fetched).2 = false)
    (hconv : (convergeChildren api c (api.WithDefaults fetched).1
      (c.getSolrPrometheusExporter req s).2).val = .error h) :
    (Reconcile api c req s).calls
        = Event.get Kind.SolrPrometheusExporter req (.ok (Obj.exporter fetched)) ::
            (convergeChildren api c (api.WithDefaults fetched).1
              (c.getSolrPrometheusExporter req s).2).calls ∧
      (Reconcile api c req s).ret = h := by
  simp only [Reconcile, reconcilePass, bind]
  rw [Pass.bind_ok _ _ _ (c.getSolrPrometheusExporter req s).1 rfl]
  simp only [Pass.call, hget, Except.map, hchanged, Bool.false_eq_true, if_false]
  rw [Pass.bind_error _ _ _ h hconv]
  simp

/-- A pass that reaches the status step with readiness `ready`. -/
theorem Reconcile_status (api : Api) (c : Client σ) (req : NamespacedName) (s : σ)
    (fetched : SolrPrometheusExporter) (ready : Bool)
    (hget : (c.getSolrPrometheusExporter req s).1 = .ok fetched)
    (hchanged : (api.WithDefaults fetched).2 = false)
    (hconv : (convergeChildren api c (api.WithDefaults fetched).1
      (c.getSolrPrometheusExporter req s).2).val = .ok ready) :
    (Reconcile api c req s).calls
        = Event.get Kind.SolrPrometheusExporter req (.ok (Obj.exporter fetched)) ::
            (convergeChildren api c (api.WithDefaults fetched).1
              (c.getSolrPrometheusExporter req s).2).calls ++
          (if ready ≠ (heldExporter api fetched).Status.Ready then
            [Event.statusUpdate (Obj.exporter (withReady (heldExporter api fetched) ready))
              (c.statusUpdate (withReady (heldExporter api fetched) ready)
                (convergeChildren api c (api.WithDefaults fetched).1
                  (c.getSolrPrometheusExporter req s).2).state).1]
           else []) ∧
      (Reconcile api c req s).ret
        = (if ready ≠ (heldExporter api fetched).Status.Ready then
            Halt.returned {} (c.statusUpdate (withReady (heldExporter api fetched) ready)
              (convergeChildren api c (api.WithDefaults fetched).1
                (c.getSolrPrometheusExporter req s).2).state).1
           else Halt.returned {} none) := by
  simp only [Reconcile, reconcilePass, bind]
  rw [Pass.bind_ok _ _ _ (c.getSolrPrometheusExporter req s).1 rfl]
  simp only [Pass.call, hget, Except.map, hchanged, Bool.false_eq_true, if_false]
  rw [Pass.bind_ok _ _ _ ready hconv]
  simp only [statusPhase, heldExporter, withReady, bind]
  by_cases hr : ready = (withDefaultContainerMountNames (api.WithDefaults fetched).1).Status.Ready
  · simp [hr, Pass.ret, Pass.halt]
  · simp [hr, Pass.bind, Pass.call, Pass.ret, Pass.halt]

/-- Every pass runs as `ReconcileRun` says. -/
theorem Reconcile_run (api : Api) (c : Client σ) (req : NamespacedName) (s : σ) :
    ReconcileRun api req (Reconcile api c req s).calls (Reconcile api c req s).ret := by
  cases hget : (c.getSolrPrometheusExporter req s).1 with
  | error err =>
    obtain ⟨hc, hr⟩ := Reconcile_parent_error api c req s err hget
    rw [hc, hr]
    cases hnf : IsNotFound err with
    | true => exact ReconcileRun.parentNotFound err hnf
    | false => exact ReconcileRun.parentFailed err hnf
  | ok fetched =>
    cases hchanged : (api.WithDefaults fetched).2 with
    | true =>
      obtain ⟨hc, hr⟩ := Reconcile_defaulted api c req s fetched hget hchanged
      rw [hc, hr]
      cases (c.updateSolrPrometheusExporter (api.WithDefaults fetched).1
        (c.getSolrPrometheusExporter req s).2).1 with
      | none => exact ReconcileRun.defaulted fetched hchanged
      | some err => exact ReconcileRun.defaultsFailed fetched err hchanged
    | false =>
      have hrun := convergeChildren_run api c (api.WithDefaults fetched).1
        (c.getSolrPrometheusExporter req s).2
      cases hconv : (convergeChildren api c (api.WithDefaults fetched).1
        (c.getSolrPrometheusExporter req s).2).val with
      | error h =>
        obtain ⟨hc, hr⟩ := Reconcile_stopped api c req s fetched h hget hchanged hconv
        rw [hc, hr]
        rw [hconv] at hrun
        exact ReconcileRun.stopped fetched _ h hchanged hrun
      | ok ready =>
        obtain ⟨hc, hr⟩ := Reconcile_status api c req s fetched ready hget hchanged hconv
        rw [hc, hr]
        rw [hconv] at hrun
        by_cases hsame : ready = (heldExporter api fetched).Status.Ready
        · simp only [hsame, ne_eq, not_true_eq_false, if_false, List.append_nil]
          rw [hsame] at hrun
          exact ReconcileRun.statusKept fetched _ _ hchanged hrun rfl
        · simp only [hsame, ne_eq, not_false_eq_true, if_true]
          exact ReconcileRun.statusWritten fetched _ ready _ hchanged hrun hsame
end

/-! ## Facts about runs -/

/-- The create calls of two stretches, one after the other. -/
theorem createdOf_append (k : Kind) (a b : List Event) :
    createdOf k (a ++ b) = createdOf k a ++ createdOf k b := by
  induction a with
  | nil => rfl
  | cons ev rest ih =>
    cases ev <;> simp [createdOf, ih]
    split_ifs <;> simp

/-- The update calls of two stretches, one after the other. -/
theorem updatedOf_append (k : Kind) (a b : List Event) :
    updatedOf k (a ++ b) = updatedOf k a ++ updatedOf k b := by
  induction a with
  | nil => rfl
  | cons ev rest ih =>
    cases ev <;> simp [updatedOf, ih]
    split_ifs <;> simp

/-- The status writes of two stretches, one after the other. -/
theorem statusWrites_append (a b : List Event) :
    statusWrites (a ++ b) = statusWrites a ++ statusWrites b := by
  induction a with
  | nil => rfl
  | cons ev rest ih =>
    cases ev <;> simp [statusWrites, ih]

/-- A stretch without events of kind `k` creates no object of kind `k`. -/
theorem createdOf_foreign (k : Kind) (l : List Event) (h : ∀ ev ∈ l, ev.kind ≠ k) :
    createdOf k l = [] := by
  induction l with
  | nil => rfl
  | cons ev rest ih =>
    have hrest := ih (fun x hx => h x (List.mem_cons_of_mem _ hx))
    have hev := h ev (List.mem_cons_self _ _)
    cases ev <;> simp only [createdOf, hrest]
    simp only [Event.kind] at hev
    simp [hev]

/-- A stretch without events of kind `k` updates no object of kind `k`. -/
theorem updatedOf_foreign (k : Kind) (l : List Event) (h : ∀ ev ∈ l, ev.kind ≠ k) :
    updatedOf k l = [] := by
  induction l with
  | nil => rfl
  | cons ev rest ih =>
    have hrest := ih (fun x hx => h x (List.mem_cons_of_mem _ hx))
    have hev := h ev (List.mem_cons_self _ _)
    cases ev <;> simp only [updatedOf, hrest]
    simp only [Event.kind] at hev
    simp [hev]

/-- `copyFields` gives back an object of the kind of the observed one. -/
theorem copyFields_kind (api : Api) (desired observed : Obj) :
    (copyFields api desired observed).1.kind = observed.kind := by
  cases desired <;> cases observed <;> rfl

/-- Every event of the convergence step of a child is about the kind of that child. -/
theorem ChildRun.childKind {api : Api} {generated : Obj} {l : List Event} {err : Option Err}
    {ready : Bool} (run : ChildRun api generated l err ready) :
    ∀ ev ∈ l, ev.kind = generated.kind := by
  cases run <;> simp [Event.kind, copyFields_kind, *]

/-- The convergence step of a child writes no status. -/
theorem ChildRun.childStatusWrites {api : Api} {generated : Obj} {l : List Event}
    {err : Option Err} {ready : Bool} (run : ChildRun api generated l err ready) :
    statusWrites l = [] := by
  cases run <;> rfl

/-- Every event of `getSolrConnectionInfo` is about the sibling SolrCloud. -/
theorem LookupRun.lookupKind {e : SolrPrometheusExporter} {l : List Event}
    {info : SolrConnectionInfo} {err : Option Err} (run : LookupRun e l info err) :
    ∀ ev ∈ l, ev.kind = Kind.SolrCloud := by
  cases run <;> simp [Event.kind, Obj.kind]

/-- `getSolrConnectionInfo` writes no status. -/
theorem LookupRun.lookupStatusWrites {e : SolrPrometheusExporter} {l : List Event}
    {info : SolrConnectionInfo} {err : Option Err} (run : LookupRun e l info err) :
    statusWrites l = [] := by
  cases run <;> rfl

/-- Every event of lines 81-103 is about the ConfigMap. -/
theorem ConfigRun.configKind {api : Api} {e : SolrPrometheusExporter} {l : List Event}
    (run : ConfigRun api e l) : ∀ ev ∈ l, ev.kind = Kind.ConfigMap := by
  cases run with
  | skipped _ => simp
  | converged _ _ _ run => exact run.childKind

/-- Lines 81-103 write no status. -/
theorem ConfigRun.configStatusWrites {api : Api} {e : SolrPrometheusExporter} {l : List Event}
    (run : ConfigRun api e l) : statusWrites l = [] := by
  cases run with
  | skipped _ => rfl
  | converged _ _ _ run => exact run.childStatusWrites

/-- Lines 81-155 issue calls about the children and the sibling SolrCloud only, and no status
write. -/
theorem ConvergeRun.no_parent_call {api : Api} {e : SolrPrometheusExporter} {l : List Event}
    {v : Except Halt Bool} (run : ConvergeRun api e l v) :
    (∀ ev ∈ l, ev.kind ≠ Kind.SolrPrometheusExporter) ∧ statusWrites l = [] := by
  cases run with
  | configMapStopped lc err ready hconfig run =>
    refine ⟨fun ev hev => ?_, run.childStatusWrites⟩
    rw [run.childKind ev hev]; simp [Obj.kind]
  | serviceStopped lc ls err ready hc run =>
    refine ⟨fun ev hev => ?_, ?_⟩
    · rcases List.mem_append.mp hev with h | h
      · rw [hc.configKind ev h]; simp
      · rw [run.childKind ev h]; simp [Obj.kind]
    · rw [statusWrites_append, hc.configStatusWrites, run.childStatusWrites]; rfl
  | lookupFailed lc ls ll ready info err hc hs hl =>
    refine ⟨fun ev hev => ?_, ?_⟩
    · rcases List.mem_append.mp hev with h | h
      · rcases List.mem_append.mp h with h | h
        · rw [hc.configKind ev h]; simp
        · rw [hs.childKind ev h]; simp [Obj.kind]
      · rw [hl.lookupKind ev h]; simp
    · simp only [statusWrites_append, hc.configStatusWrites, hs.childStatusWrites,
        hl.lookupStatusWrites, List.append_nil]
  | generatorPanicked lc ls ll ready info p hc hs hl hg =>
    refine ⟨fun ev hev => ?_, ?_⟩
    · rcases List.mem_append.mp hev with h | h
      · rcases List.mem_append.mp h with h | h
        · rw [hc.configKind ev h]; simp
        · rw [hs.childKind ev h]; simp [Obj.kind]
      · rw [hl.lookupKind ev h]; simp
    · simp only [statusWrites_append, hc.configStatusWrites, hs.childStatusWrites,
        hl.lookupStatusWrites, List.append_nil]
  | deploymentStopped lc ls ll ld ready info d err ready2 hc hs hl hg hd =>
    refine ⟨fun ev hev => ?_, ?_⟩
    · rcases List.mem_append.mp hev with h | h
      · rcases List.mem_append.mp h with h | h
        · rcases List.mem_append.mp h with h | h
          · rw [hc.configKind ev h]; simp
          · rw [hs.childKind ev h]; simp [Obj.kind]
        · rw [hl.lookupKind ev h]; simp
      · rw [hd.childKind ev h]; simp [Obj.kind]
    · simp only [statusWrites_append, hc.configStatusWrites, hs.childStatusWrites,
        hl.lookupStatusWrites, hd.childStatusWrites, List.append_nil]
  | converged lc ls ll ld ready info d ready2 hc hs hl hg hd =>
    refine ⟨fun ev hev => ?_, ?_⟩
    · rcases List.mem_append.mp hev with h | h
      · rcases List.mem_append.mp h with h | h
        · rcases List.mem_append.mp h with h | h
          · rw [hc.configKind ev h]; simp
          · rw [hs.childKind ev h]; simp [Obj.kind]
        · rw [hl.lookupKind ev h]; simp
      · rw [hd.childKind ev h]; simp [Obj.kind]
    · simp only [statusWrites_append, hc.configStatusWrites, hs.childStatusWrites,
        hl.lookupStatusWrites, hd.childStatusWrites, List.append_nil]

/-- The convergence step of a child meets the convergence contract of its kind. -/
theorem ChildRun.converged {api : Api} {generated : Obj} {l : List Event} {err : Option Err}
    {ready : Bool} (run : ChildRun api generated l err ready) :
    ChildConverged api generated.kind generated l := by
  intro key answer hget
  cases run with
  | ownerFailed err => simp at hget
  | fetchFailed desired key2 err hkind hnf =>
    simp at hget
    obtain ⟨_, rfl⟩ := hget
    refine ⟨desired, by simp, hkind, ?_, ?_⟩
    · intro err2 h hnf2
      cases h
      rw [hnf] at hnf2
      cases hnf2
    · intro observed h
      cases h
  | created desired key2 err answer2 hkind hnf =>
    simp at hget
    obtain ⟨_, rfl⟩ := hget
    refine ⟨desired, by simp, hkind, ?_, ?_⟩
    · intro err2 h hnf2
      simp [createdOf, updatedOf, hkind]
    · intro observed h
      cases h
  | updated desired key2 observed answer2 hkind hobs hchanged =>
    simp at hget
    obtain ⟨_, rfl⟩ := hget
    refine ⟨desired, by simp, hkind, ?_, ?_⟩
    · intro err2 h hnf2
      cases h
    · intro observed2 h
      cases h
      simp [createdOf, updatedOf, hchanged, copyFields_kind, hobs]
  | unchanged desired key2 observed hkind hobs hchanged =>
    simp at hget
    obtain ⟨_, rfl⟩ := hget
    refine ⟨desired, by simp, hkind, ?_, ?_⟩
    · intro err2 h hnf2
      cases h
    · intro observed2 h
      cases h
      simp [createdOf, updatedOf, hchanged]

/-- A stretch without events of kind `k` meets the contract of kind `k` for want of a fetch. -/
theorem ChildConverged.of_foreign (api : Api) (k : Kind) (generated : Obj) (l : List Event)
    (h : ∀ ev ∈ l, ev.kind ≠ k) : ChildConverged api k generated l := by
  intro key answer hget
  exact absurd rfl (h _ hget)

/-- The contract of kind `k` survives a preceding stretch without events of kind `k`. -/
theorem ChildConverged.append_left {api : Api} {k : Kind} {generated : Obj} {a b : List Event}
    (ha : ∀ ev ∈ a, ev.kind ≠ k) (h : ChildConverged api k generated b) :
    ChildConverged api k generated (a ++ b) := by
  intro key answer hget
  have hb : Event.get k key answer ∈ b := by
    rcases List.mem_append.mp hget with h1 | h1
    · exact absurd rfl (ha _ h1)
    · exact h1
  obtain ⟨desired, hmem, hkind, hnf, hok⟩ := h key answer hb
  refine ⟨desired, List.mem_append_right _ hmem, hkind, ?_, ?_⟩
  · intro err he hn
    simpa [createdOf_append, updatedOf_append, createdOf_foreign k a ha,
      updatedOf_foreign k a ha] using hnf err he hn
  · intro observed he
    simpa [createdOf_append, updatedOf_append, createdOf_foreign k a ha,
      updatedOf_foreign k a ha] using hok observed he

/-- The contract of kind `k` survives a following stretch without events of kind `k`. -/
theorem ChildConverged.append_right {api : Api} {k : Kind} {generated : Obj} {a b : List Event}
    (hb : ∀ ev ∈ b, ev.kind ≠ k) (h : ChildConverged api k generated a) :
    ChildConverged api k generated (a ++ b) := by
  intro key answer hget
  have ha : Event.get k key answer ∈ a := by
    rcases List.mem_append.mp hget with h1 | h1
    · exact h1
    · exact absurd rfl (hb _ h1)
  obtain ⟨desired, hmem, hkind, hnf, hok⟩ := h key answer ha
  refine ⟨desired, List.mem_append_left _ hmem, hkind, ?_, ?_⟩
  · intro err he hn
    simpa [createdOf_append, updatedOf_append, createdOf_foreign k b hb,
      updatedOf_foreign k b hb] using hnf err he hn
  · intro observed he
    simpa [createdOf_append, updatedOf_append, createdOf_foreign k b hb,
      updatedOf_foreign k b hb] using hok observed he

/-- The events of lines 81-155 fall into four consecutive stretches: the steps of the ConfigMap
and of the Service, the sibling lookup and the step of the Deployment; a stretch that was not
run is empty. -/
theorem ConvergeRun.segments {api : Api} {e : SolrPrometheusExporter} {l : List Event}
    {v : Except Halt Bool} (run : ConvergeRun api e l v) :
    ∃ lc ls ll ld, l = lc ++ ls ++ ll ++ ld ∧
      (lc = [] ∨ ∃ err r, ChildRun api (Obj.configMap (GenerateMetricsConfigMap api e)) lc err r) ∧
      (ls = [] ∨ ∃ err r, ChildRun api (Obj.service (GenerateSolrMetricsService api e)) ls err r) ∧
      (∀ ev ∈ ll, ev.kind = Kind.SolrCloud) ∧
      (ld = [] ∨ ∃ d err r, IsGenerated api e (Obj.deployment d) ∧
        ChildRun api (Obj.deployment d) ld err r) := by
  have hcfg : ∀ lc, ConfigRun api e lc →
      (lc = [] ∨ ∃ err r,
        ChildRun api (Obj.configMap (GenerateMetricsConfigMap api e)) lc err r) := by
    intro lc hc
    cases hc with
    | skipped _ => exact Or.inl rfl
    | converged _ r _ run => exact Or.inr ⟨_, r, run⟩
  cases run with
  | configMapStopped lc err ready hconfig run =>
    exact ⟨l, [], [], [], by simp, Or.inr ⟨_, _, run⟩, Or.inl rfl, by simp, Or.inl rfl⟩
  | serviceStopped lc ls err ready hc run =>
    exact ⟨lc, ls, [], [], by simp, hcfg lc hc, Or.inr ⟨_, _, run⟩, by simp, Or.inl rfl⟩
  | lookupFailed lc ls ll ready info err hc hs hl =>
    exact ⟨lc, ls, ll, [], by simp, hcfg lc hc, Or.inr ⟨_, _, hs⟩, hl.lookupKind, Or.inl rfl⟩
  | generatorPanicked lc ls ll ready info p hc hs hl hg =>
    exact ⟨lc, ls, ll, [], by simp, hcfg lc hc, Or.inr ⟨_, _, hs⟩, hl.lookupKind, Or.inl rfl⟩
  | deploymentStopped lc ls ll ld ready info d err ready2 hc hs hl hg hd =>
    exact ⟨lc, ls, ll, ld, rfl, hcfg lc hc, Or.inr ⟨_, _, hs⟩, hl.lookupKind,
      Or.inr ⟨d, _, _, ⟨ll, info, hl, hg⟩, hd⟩⟩
  | converged lc ls ll ld ready info d ready2 hc hs hl hg hd =>
    exact ⟨lc, ls, ll, ld, rfl, hcfg lc hc, Or.inr ⟨_, _, hs⟩, hl.lookupKind,
      Or.inr ⟨d, _, _, ⟨ll, info, hl, hg⟩, hd⟩⟩

/-- Lines 81-155 meet the convergence contract of every child kind they issue a call about. -/
theorem ConvergeRun.childConverged {api : Api} {e : SolrPrometheusExporter} {l : List Event}
    {v : Except Halt Bool} (run : ConvergeRun api e l v) (k : Kind)
    (hk : k = Kind.ConfigMap ∨ k = Kind.Service ∨ k = Kind.Deployment)
    (hmem : ∃ ev ∈ l, ev.kind = k) :
    ∃ generated, generated.kind = k ∧ IsGenerated api e generated ∧
      ChildConverged api k generated l := by
  obtain ⟨lc, ls, ll, ld, rfl, hc, hs, hl, hd⟩ := run.segments
  have kc : ∀ ev ∈ lc, ev.kind = Kind.ConfigMap := by
    rcases hc with rfl | ⟨_, _, run⟩
    · simp
    · exact run.childKind
  have ks : ∀ ev ∈ ls, ev.kind = Kind.Service := by
    rcases hs with rfl | ⟨_, _, run⟩
    · simp
    · exact run.childKind
  have kd : ∀ ev ∈ ld, ev.kind = Kind.Deployment := by
    rcases hd with rfl | ⟨_, _, _, _, run⟩
    · simp
    · exact run.childKind
  obtain ⟨ev, hev, hevk⟩ := hmem
  simp only [List.mem_append] at hev
  rcases hk with rfl | rfl | rfl
  · -- the ConfigMap
    have fs : ∀ x ∈ ls, x.kind ≠ Kind.ConfigMap := fun x hx => by rw [ks x hx]; decide
    have fl : ∀ x ∈ ll, x.kind ≠ Kind.ConfigMap := fun x hx => by rw [hl x hx]; decide
    have fd : ∀ x ∈ ld, x.kind ≠ Kind.ConfigMap := fun x hx => by rw [kd x hx]; decide
    rcases hc with rfl | ⟨_, _, run⟩
    · rcases hev with ((h | h) | h) | h
      · cases h
      · exact absurd hevk (fs ev h)
      · exact absurd hevk (fl ev h)
      · exact absurd hevk (fd ev h)
    · exact ⟨Obj.configMap (GenerateMetricsConfigMap api e), rfl, rfl,
        ((run.converged.append_right fs).append_right fl).append_right fd⟩
  · -- the Service
    have fc : ∀ x ∈ lc, x.kind ≠ Kind.Service := fun x hx => by rw [kc x hx]; decide
    have fl : ∀ x ∈ ll, x.kind ≠ Kind.Service := fun x hx => by rw [hl x hx]; decide
    have fd : ∀ x ∈ ld, x.kind ≠ Kind.Service := fun x hx => by rw [kd x hx]; decide
    rcases hs with rfl | ⟨_, _, run⟩
    · rcases hev with ((h | h) | h) | h
      · exact absurd hevk (fc ev h)
      · cases h
      · exact absurd hevk (fl ev h)
      · exact absurd hevk (fd ev h)
    · exact ⟨Obj.service (GenerateSolrMetricsService api e), rfl, rfl,
        ((ChildConverged.append_left fc run.converged).append_right fl).append_right fd⟩
  · -- the Deployment
    have fc : ∀ x ∈ lc, x.kind ≠ Kind.Deployment := fun x hx => by rw [kc x hx]; decide
    have fs : ∀ x ∈ ls, x.kind ≠ Kind.Deployment := fun x hx => by rw [ks x hx]; decide
    have fl : ∀ x ∈ ll, x.kind ≠ Kind.Deployment := fun x hx => by rw [hl x hx]; decide
    rcases hd with rfl | ⟨d, _, _, hgen, run⟩
    · rcases hev with ((h | h) | h) | h
      · exact absurd hevk (fc ev h)
      · exact absurd hevk (fs ev h)
      · exact absurd hevk (fl ev h)
      · cases h
    · have fcsl : ∀ x ∈ lc ++ ls ++ ll, x.kind ≠ Kind.Deployment := by
        intro x hx
        simp only [List.mem_append] at hx
        rcases hx with (h | h) | h
        · exact fc x h
        · exact fs x h
        · exact fl x h
      exact ⟨Obj.deployment d, rfl, hgen, ChildConverged.append_left fcsl run.converged⟩

section
variable {σ : Type}

/-- C1: in every pass, for each child kind (ConfigMap, Service, Deployment) whose fetch was
issued: the object fetched for is the generated one with the owner reference attached; if the
fetch answered NotFound the pass issues exactly one create call of that kind, on that object,
and no update call of that kind; if the fetch succeeded the pass issues no create call of that
kind, and an update call, on the observed object as `copyFields` rewrote it, exactly when
`copyFields` reports a change. -/
theorem child_create_or_update (api : Api) (c : Client σ) (req : NamespacedName) (s : σ)
    (k : Kind) (hk : k = Kind.ConfigMap ∨ k = Kind.Service ∨ k = Kind.Deployment)
    (key : NamespacedName) (answer : Except Err Obj)
    (hget : Event.get k key answer ∈ (Reconcile api c req s).calls) :
    ∃ fetched generated desired,
      Event.get Kind.SolrPrometheusExporter req (.ok (Obj.exporter fetched))
        ∈ (Reconcile api c req s).calls ∧
      IsGenerated api (api.WithDefaults fetched).1 generated ∧ generated.kind = k ∧
      Event.setControllerReference generated (.ok desired) ∈ (Reconcile api c req s).calls ∧
      desired.kind = k ∧
      (∀ err, answer = .error err → IsNotFound err = true →
        createdOf k (Reconcile api c req s).calls = [desired] ∧
        updatedOf k (Reconcile api c req s).calls = []) ∧
      (∀ observed, answer = .ok observed →
        createdOf k (Reconcile api c req s).calls = [] ∧
        updatedOf k (Reconcile api c req s).calls =
          if (copyFields api desired observed).2 then [(copyFields api desired observed).1]
          else []) := by
  have hne : k ≠ Kind.SolrPrometheusExporter := by
    rcases hk with rfl | rfl | rfl <;> decide
  have key1 : ∀ (fetched : SolrPrometheusExporter) (l tail : List Event) (v : Except Halt Bool),
      ConvergeRun api (api.WithDefaults fetched).1 l v →
      (∀ ev ∈ tail, ev.kind ≠ k) →
      Event.get k key answer ∈
        Event.get Kind.SolrPrometheusExporter req (.ok (Obj.exporter fetched)) :: l ++ tail →
      ∃ generated, generated.kind = k ∧ IsGenerated api (api.WithDefaults fetched).1 generated ∧
        ChildConverged api k generated
          (Event.get Kind.SolrPrometheusExporter req (.ok (Obj.exporter fetched)) :: l ++ tail) := by
    intro fetched l tail v run htail hmem
    have hl : Event.get k key answer ∈ l := by
      simp only [List.cons_append, List.mem_cons, List.mem_append] at hmem
      rcases hmem with h | h | h
      · cases h
        exact absurd rfl hne
      · exact h
      · exact absurd rfl (htail _ h)
    obtain ⟨generated, hgk, hgen, hconv⟩ := run.childConverged k hk ⟨_, hl, rfl⟩
    refine ⟨generated, hgk, hgen, ?_⟩
    have hhead : ∀ ev ∈ [Event.get Kind.SolrPrometheusExporter req
        (.ok (Obj.exporter fetched))], ev.kind ≠ k := by
      intro ev hev
      simp only [List.mem_singleton] at hev
      subst hev
      exact fun h => hne h.symm
    exact ChildConverged.append_right htail (ChildConverged.append_left hhead hconv)
  have finish : ∀ (fetched : SolrPrometheusExporter) (calls : List Event),
      Event.get Kind.SolrPrometheusExporter req (.ok (Obj.exporter fetched)) ∈ calls →
      Event.get k key answer ∈ calls →
      (∃ generated, generated.kind = k ∧ IsGenerated api (api.WithDefaults fetched).1 generated ∧
        ChildConverged api k generated calls) →
      ∃ fetched generated desired,
        Event.get Kind.SolrPrometheusExporter req (.ok (Obj.exporter fetched)) ∈ calls ∧
        IsGenerated api (api.WithDefaults fetched).1 generated ∧ generated.kind = k ∧
        Event.setControllerReference generated (.ok desired) ∈ calls ∧
        desired.kind = k ∧
        (∀ err, answer = .error err → IsNotFound err = true →
          createdOf k calls = [desired] ∧ updatedOf k calls = []) ∧
        (∀ observed, answer = .ok observed →
          createdOf k calls = [] ∧
          updatedOf k calls =
            if (copyFields api desired observed).2 then [(copyFields api desired observed).1]
            else []) := by
    intro fetched calls hp hg ⟨generated, hgk, hgen, hconv⟩
    obtain ⟨desired, hmem, hdk, hnf, hok⟩ := hconv key answer hg
    exact ⟨fetched, generated, desired, hp, hgen, hgk, hmem, hdk, hnf, hok⟩
  have hrun := Reconcile_run api c req s
  revert hget
  generalize (Reconcile api c req s).calls = calls at hrun ⊢
  generalize (Reconcile api c req s).ret = ret at hrun
  intro hget
  cases hrun with
  | parentNotFound err hnf =>
    simp only [List.mem_singleton] at hget
    cases hget
    exact absurd rfl hne
  | parentFailed err hnf =>
    simp only [List.mem_singleton] at hget
    cases hget
    exact absurd rfl hne
  | defaultsFailed fetched err hchanged =>
    simp at hget
    exact absurd hget.1 hne
  | defaulted fetched hchanged =>
    simp at hget
    exact absurd hget.1 hne
  | stopped fetched l h hchanged run =>
    have h1 := key1 fetched l [] _ run (by simp) (by simpa using hget)
    simp only [List.append_nil] at h1
    exact finish fetched _ (List.mem_cons_self _ _) hget h1
  | statusKept fetched l ready hchanged run hsame =>
    have h1 := key1 fetched l [] _ run (by simp) (by simpa using hget)
    simp only [List.append_nil] at h1
    exact finish fetched _ (List.mem_cons_self _ _) hget h1
  | statusWritten fetched l ready answer2 hchanged run hdiffers =>
    have htail : ∀ ev ∈ [Event.statusUpdate
        (Obj.exporter (withReady (heldExporter api fetched) ready)) answer2], ev.kind ≠ k := by
      intro ev hev
      simp only [List.mem_singleton] at hev
      subst hev
      exact fun h => hne h.symm
    have h1 := key1 fetched l _ _ run htail hget
    exact finish fetched _ (List.mem_cons_self _ _) hget h1
end

/-- C1 on the sample cluster: the Service of the sample exporter is absent and is created. -/
theorem child_create_or_update_witness :
    ∃ fetched generated desired,
      Event.get Kind.SolrPrometheusExporter sampleRequest (.ok (Obj.exporter fetched))
        ∈ (Reconcile sampleApi clusterClient sampleRequest sampleCluster).calls ∧
      IsGenerated sampleApi (sampleApi.WithDefaults fetched).1 generated ∧
      generated.kind = Kind.Service ∧
      Event.setControllerReference generated (.ok desired)
        ∈ (Reconcile sampleApi clusterClient sampleRequest sampleCluster).calls ∧
      desired.kind = Kind.Service ∧
      (∀ err, (Except.error { Reason := "NotFound" } : Except Err Obj) = .error err →
        IsNotFound err = true →
        createdOf Kind.Service (Reconcile sampleApi clusterClient sampleRequest sampleCluster).calls
          = [desired] ∧
        updatedOf Kind.Service (Reconcile sampleApi clusterClient sampleRequest sampleCluster).calls
          = []) ∧
      (∀ observed, (Except.error { Reason := "NotFound" } : Except Err Obj) = .ok observed →
        createdOf Kind.Service (Reconcile sampleApi clusterClient sampleRequest sampleCluster).calls
          = [] ∧
        updatedOf Kind.Service (Reconcile sampleApi clusterClient sampleRequest sampleCluster).calls
          = if (copyFields sampleApi desired observed).2 then
              [(copyFields sampleApi desired observed).1]
            else []) :=
  child_create_or_update sampleApi clusterClient sampleRequest sampleCluster Kind.Service
    (Or.inr (Or.inl rfl)) sampleChildKey (.error { Reason := "NotFound" })
    (List.mem_cons_of_mem _ (List.mem_cons_of_mem _ (List.mem_cons_self _ _)))

section
variable {σ : Type}

/-- C8: when the fetched exporter is changed by the defaults check, the pass issues, after the
fetch of the exporter, the update of the defaulted exporter and nothing else (no call about a
child, no status write), and when that update succeeds it returns a result that asks for an
immediate requeue, with no error. -/
theorem defaults_first (api : Api) (c : Client σ) (req : NamespacedName) (s : σ)
    (fetched : SolrPrometheusExporter)
    (hget : (c.getSolrPrometheusExporter req s).1 = .ok fetched)
    (hchanged : (api.WithDefaults fetched).2 = true) :
    (Reconcile api c req s).calls
        = [Event.get Kind.SolrPrometheusExporter req (.ok (Obj.exporter fetched)),
           Event.update (Obj.exporter (api.WithDefaults fetched).1)
             (c.updateSolrPrometheusExporter (api.WithDefaults fetched).1
               (c.getSolrPrometheusExporter req s).2).1] ∧
      ((c.updateSolrPrometheusExporter (api.WithDefaults fetched).1
          (c.getSolrPrometheusExporter req s).2).1 = none →
        (Reconcile api c req s).ret = Halt.returned { Requeue := true } none) := by
  obtain ⟨hc, hr⟩ := Reconcile_defaulted api c req s fetched hget hchanged
  refine ⟨hc, fun hnone => ?_⟩
  rw [hr, hnone]

/-- C8 on an in-memory cluster that holds the sample exporter without its defaults. -/
theorem defaults_first_witness :
    (Reconcile sampleApi clusterClient sampleRequest { exporters := [undefaultedExporter] }).calls
        = [Event.get Kind.SolrPrometheusExporter sampleRequest
             (.ok (Obj.exporter undefaultedExporter)),
           Event.update (Obj.exporter sampleExporter) none] ∧
      ((none : Option Err) = none →
        (Reconcile sampleApi clusterClient sampleRequest
          { exporters := [undefaultedExporter] }).ret = Halt.returned { Requeue := true } none) :=
  defaults_first sampleApi clusterClient sampleRequest { exporters := [undefaultedExporter] }
    undefaultedExporter rfl rfl

/-- The rename of line 143 leaves the status of the exporter alone. -/
theorem withDefaultContainerMountNames_status (e : SolrPrometheusExporter) :
    (withDefaultContainerMountNames e).Status = e.Status := by
  unfold withDefaultContainerMountNames
  split <;> rfl

/-- C10: in every pass that reaches the status step, with readiness `ready`, a status write is
issued exactly when `ready` differs from the `Status.Ready` of the exporter the pass holds, and
it carries `ready`; when the two are equal the pass issues no status write and no other write
of the exporter. -/
theorem status_written_iff_changed (api : Api) (c : Client σ) (req : NamespacedName) (s : σ)
    (fetched : SolrPrometheusExporter) (ready : Bool)
    (hget : (c.getSolrPrometheusExporter req s).1 = .ok fetched)
    (hchanged : (api.WithDefaults fetched).2 = false)
    (hconv : (convergeChildren api c (api.WithDefaults fetched).1
      (c.getSolrPrometheusExporter req s).2).val = .ok ready) :
    statusWrites (Reconcile api c req s).calls
        = (if ready ≠ (api.WithDefaults fetched).1.Status.Ready then
            [Obj.exporter (withReady (heldExporter api fetched) ready)]
           else []) ∧
      (withReady (heldExporter api fetched) ready).Status.Ready = ready ∧
      updatedOf Kind.SolrPrometheusExporter (Reconcile api c req s).calls = [] := by
  obtain ⟨hc, _⟩ := Reconcile_status api c req s fetched ready hget hchanged hconv
  have hrun := convergeChildren_run api c (api.WithDefaults fetched).1
    (c.getSolrPrometheusExporter req s).2
  obtain ⟨hkind, hsw⟩ := hrun.no_parent_call
  have hheld : (heldExporter api fetched).Status.Ready
      = (api.WithDefaults fetched).1.Status.Ready := by
    unfold heldExporter
    rw [withDefaultContainerMountNames_status]
  rw [hc, hheld]
  refine ⟨?_, rfl, ?_⟩
  · rw [statusWrites_append]
    simp only [statusWrites, hsw, List.nil_append]
    split_ifs <;> rfl
  · rw [updatedOf_append]
    simp only [updatedOf, updatedOf_foreign _ _ hkind, List.nil_append]
    split_ifs <;> rfl
end

/-- C10 on an in-memory cluster in which the Deployment of the sample exporter has ready
replicas while the recorded status says not ready: the status write is issued. -/
theorem status_written_iff_changed_witness :
    statusWrites (Reconcile sampleApi clusterClient sampleRequest readyCluster).calls
        = (if true ≠ (sampleApi.WithDefaults sampleExporter).1.Status.Ready then
            [Obj.exporter (withReady (heldExporter sampleApi sampleExporter) true)]
           else []) ∧
      (withReady (heldExporter sampleApi sampleExporter) true).Status.Ready = true ∧
      updatedOf Kind.SolrPrometheusExporter
        (Reconcile sampleApi clusterClient sampleRequest readyCluster).calls = [] :=
  status_written_iff_changed sampleApi clusterClient sampleRequest readyCluster sampleExporter
    true rfl rfl rfl

section
variable {σ : Type}

/-- The readiness computed by a convergence step of the Deployment that did not end the pass:
true exactly when the Deployment was found with ready replicas, given that
`CopyDeploymentFields` leaves the count of ready replicas alone; false when it was created. -/
theorem ChildRun.deployment_ready {api : Api} {d : Deployment} {l : List Event} {ready : Bool}
    (hcopy : ∀ desired observed,
      (api.CopyDeploymentFields desired observed).1.Status.ReadyReplicas
        = observed.Status.ReadyReplicas)
    (run : ChildRun api (Obj.deployment d) l none ready) :
    ∃ key answer, Event.get Kind.Deployment key answer ∈ l ∧
      (ready = true ↔
        ∃ found, answer = .ok (Obj.deployment found) ∧ found.Status.ReadyReplicas > 0) ∧
      (∀ err, answer = .error err →
        IsNotFound err = true ∧ ready = false ∧
        ∃ desired, desired.kind = Kind.Deployment ∧ Event.create desired none ∈ l) := by
  generalize hnone : (none : Option Err) = e0 at run
  cases run with
  | ownerFailed err => cases hnone
  | fetchFailed desired key err hkind hnf => cases hnone
  | created desired key err answer hkind hnf =>
    subst hnone
    refine ⟨key, .error err, by simp [Obj.kind], ?_, ?_⟩
    · constructor
      · intro h; cases h
      · rintro ⟨found, h, _⟩; cases h
    · intro err2 h
      cases h
      exact ⟨hnf, rfl, desired, hkind, by simp⟩
  | updated desired key observed answer hkind hobs hchanged =>
    subst hnone
    refine ⟨key, .ok observed, by simp [Obj.kind], ?_, ?_⟩
    · cases desired <;> cases observed <;> simp [Obj.kind] at hkind hobs
      simp [copyFields, Obj.ready, hcopy]
    · intro err2 h; cases h
  | unchanged desired key observed hkind hobs hchanged =>
    refine ⟨key, .ok observed, by simp [Obj.kind], ?_, ?_⟩
    · cases desired <;> cases observed <;> simp [Obj.kind] at hkind hobs
      simp [copyFields, Obj.ready, hcopy]
    · intro err2 h; cases h
end

section
variable {σ : Type}

/-- The readiness with which lines 81-155 reach the status step. -/
theorem ConvergeRun.ready_iff {api : Api} {e : SolrPrometheusExporter} {l : List Event}
    {ready : Bool}
    (hcopy : ∀ desired observed,
      (api.CopyDeploymentFields desired observed).1.Status.ReadyReplicas
        = observed.Status.ReadyReplicas)
    (run : ConvergeRun api e l (.ok ready)) :
    ∃ key answer, Event.get Kind.Deployment key answer ∈ l ∧
      (ready = true ↔
        ∃ found, answer = .ok (Obj.deployment found) ∧ found.Status.ReadyReplicas > 0) ∧
      (∀ err, answer = .error err →
        IsNotFound err = true ∧ ready = false ∧
        ∃ desired, desired.kind = Kind.Deployment ∧ Event.create desired none ∈ l) := by
  generalize hv : (Except.ok ready : Except Halt Bool) = v at run
  cases run with
  | configMapStopped lc err r hconfig run => cases hv
  | serviceStopped lc ls err r hc run => cases hv
  | lookupFailed lc ls ll r info err hc hs hl => cases hv
  | generatorPanicked lc ls ll r info p hc hs hl hg => cases hv
  | deploymentStopped lc ls ll ld r info d err r2 hc hs hl hg hd => cases hv
  | converged lc ls ll ld r info d r2 hc hs hl hg hd =>
    cases hv
    obtain ⟨key, answer, hmem, hiff, hnf⟩ := hd.deployment_ready hcopy
    refine ⟨key, answer, List.mem_append_right _ hmem, hiff, ?_⟩
    intro err h
    obtain ⟨h1, h2, desired, h3, h4⟩ := hnf err h
    exact ⟨h1, h2, desired, h3, List.mem_append_right _ h4⟩

/-- Lines 81-155 end the pass with an error or a panic, never with a plain return. -/
theorem ConvergeRun.stop_has_error {api : Api} {e : SolrPrometheusExporter} {l : List Event}
    {h : Halt} (run : ConvergeRun api e l (.error h)) (res : Result) :
    h ≠ Halt.returned res none := by
  generalize hv : (Except.error h : Except Halt Bool) = v at run
  cases run <;> cases hv <;> simp

/-- C9: in a pass that completes without error after the defaults check reported no change,
and given that `CopyDeploymentFields` leaves the count of ready replicas alone, the readiness
the pass computes is true exactly when the Deployment was found with a ready-replica count
above zero; when the fetch of the Deployment failed, it failed with NotFound, the Deployment was
created and the readiness is false; and after the pass the status of the exporter carries that
readiness: either it did already and nothing was written, or a status write with it
succeeded. -/
theorem readiness_reflects_deployment (api : Api) (c : Client σ) (req : NamespacedName) (s : σ)
    (fetched : SolrPrometheusExporter) (res : Result)
    (hcopy : ∀ desired observed,
      (api.CopyDeploymentFields desired observed).1.Status.ReadyReplicas
        = observed.Status.ReadyReplicas)
    (hget : (c.getSolrPrometheusExporter req s).1 = .ok fetched)
    (hchanged : (api.WithDefaults fetched).2 = false)
    (hret : (Reconcile api c req s).ret = Halt.returned res none) :
    ∃ ready key answer,
      (convergeChildren api c (api.WithDefaults fetched).1
        (c.getSolrPrometheusExporter req s).2).val = .ok ready ∧
      Event.get Kind.Deployment key answer ∈ (Reconcile api c req s).calls ∧
      (ready = true ↔
        ∃ found, answer = .ok (Obj.deployment found) ∧ found.Status.ReadyReplicas > 0) ∧
      (∀ err, answer = .error err →
        IsNotFound err = true ∧ ready = false ∧
        ∃ desired, desired.kind = Kind.Deployment ∧
          Event.create desired none ∈ (Reconcile api c req s).calls) ∧
      (((api.WithDefaults fetched).1.Status.Ready = ready ∧
          statusWrites (Reconcile api c req s).calls = []) ∨
        (Event.statusUpdate (Obj.exporter (withReady (heldExporter api fetched) ready)) none
            ∈ (Reconcile api c req s).calls ∧
          (withReady (heldExporter api fetched) ready).Status.Ready = ready)) := by
  have hrun := convergeChildren_run api c (api.WithDefaults fetched).1
    (c.getSolrPrometheusExporter req s).2
  have hheld : (heldExporter api fetched).Status.Ready
      = (api.WithDefaults fetched).1.Status.Ready := by
    unfold heldExporter
    rw [withDefaultContainerMountNames_status]
  cases hconv : (convergeChildren api c (api.WithDefaults fetched).1
      (c.getSolrPrometheusExporter req s).2).val with
  | error h =>
    obtain ⟨_, hr⟩ := Reconcile_stopped api c req s fetched h hget hchanged hconv
    rw [hconv] at hrun
    rw [hr] at hret
    exact absurd hret (hrun.stop_has_error res)
  | ok ready =>
    obtain ⟨hc, hr⟩ := Reconcile_status api c req s fetched ready hget hchanged hconv
    rw [hconv] at hrun
    obtain ⟨key, answer, hmem, hiff, hnf⟩ := hrun.ready_iff hcopy
    obtain ⟨_, hsw⟩ := hrun.no_parent_call
    refine ⟨ready, key, answer, rfl, ?_, hiff, ?_, ?_⟩
    · rw [hc]
      exact List.mem_append_left _ (List.mem_cons_of_mem _ hmem)
    · intro err h
      obtain ⟨h1, h2, desired, h3, h4⟩ := hnf err h
      refine ⟨h1, h2, desired, h3, ?_⟩
      rw [hc]
      exact List.mem_append_left _ (List.mem_cons_of_mem _ h4)
    · rw [hheld] at hc hr
      by_cases hsame : ready = (api.WithDefaults fetched).1.Status.Ready
      · left
        refine ⟨hsame.symm, ?_⟩
        rw [hc, if_neg (not_not.mpr hsame), List.append_nil]
        simp only [statusWrites]
        exact hsw
      · right
        simp only [hsame, ne_eq, not_false_eq_true, if_true] at hc hr
        rw [hr] at hret
        have hans : (c.statusUpdate (withReady (heldExporter api fetched) ready)
            (convergeChildren api c (api.WithDefaults fetched).1
              (c.getSolrPrometheusExporter req s).2).state).1 = none := by
          injection hret
        rw [hans] at hc
        refine ⟨?_, rfl⟩
        rw [hc]
        exact List.mem_append_right _ (List.mem_singleton_self _)
end

/-- C9 on an in-memory cluster in which the Deployment of the sample exporter has two ready
replicas: the readiness is true and the status write carries it. -/
theorem readiness_reflects_deployment_witness :
    ∃ ready key answer,
      (convergeChildren sampleApi clusterClient (sampleApi.WithDefaults sampleExporter).1
        (clusterClient.getSolrPrometheusExporter sampleRequest readyCluster).2).val = .ok ready ∧
      Event.get Kind.Deployment key answer
        ∈ (Reconcile sampleApi clusterClient sampleRequest readyCluster).calls ∧
      (ready = true ↔
        ∃ found, answer = .ok (Obj.deployment found) ∧ found.Status.ReadyReplicas > 0) ∧
      (∀ err, answer = .error err →
        IsNotFound err = true ∧ ready = false ∧
        ∃ desired, desired.kind = Kind.Deployment ∧
          Event.create desired none
            ∈ (Reconcile sampleApi clusterClient sampleRequest readyCluster).calls) ∧
      (((sampleApi.WithDefaults sampleExporter).1.Status.Ready = ready ∧
          statusWrites (Reconcile sampleApi clusterClient sampleRequest readyCluster).calls = []) ∨
        (Event.statusUpdate
            (Obj.exporter (withReady (heldExporter sampleApi sampleExporter) ready)) none
            ∈ (Reconcile sampleApi clusterClient sampleRequest readyCluster).calls ∧
          (withReady (heldExporter sampleApi sampleExporter) ready).Status.Ready = ready)) :=
  readiness_reflects_deployment sampleApi clusterClient sampleRequest readyCluster sampleExporter
    {} (fun _ _ => rfl) rfl rfl rfl

/-- C2 as stated fails: on a cluster without the Service of the exporter and without the
SolrCloud it names, the lookup answers NotFound, the pass returns that error, and yet a create
call for the Service was issued before the lookup. -/
theorem lookup_not_found_counterexample :
    Event.get Kind.SolrCloud { Namespace := "default", Name := "cloud1" }
        (.error { Reason := "NotFound" })
      ∈ (Reconcile sampleApi clusterClient sampleRequest cloudlessCluster).calls ∧
    (Reconcile sampleApi clusterClient sampleRequest cloudlessCluster).ret
      = Halt.returned {} (some { Reason := "NotFound" }) ∧
    (createdOf Kind.Service
      (Reconcile sampleApi clusterClient sampleRequest cloudlessCluster).calls).length = 1 :=
  ⟨List.mem_cons_of_mem _ (List.mem_cons_of_mem _ (List.mem_cons_of_mem _
    (List.mem_cons_of_mem _ (List.mem_cons_self _ _)))), rfl, rfl⟩

/-- C7 as stated fails: when the fetch of the exporter answers NotFound, that call fails with
an error that is not a NotFound of a child fetch, and yet the pass returns no error. -/
theorem first_failure_counterexample :
    (Reconcile sampleApi clusterClient sampleRequest {}).calls
      = [Event.get Kind.SolrPrometheusExporter sampleRequest (.error { Reason := "NotFound" })] ∧
    (Reconcile sampleApi clusterClient sampleRequest {}).ret = Halt.returned {} none :=
  ⟨rfl, rfl⟩

/-! ## Failures end the pass -/

/-- Two stretches without a failure make a stretch without a failure. -/
theorem Quiet.append {a b : List Event} (ha : Quiet a) (hb : Quiet b) : Quiet (a ++ b) := by
  intro ev hev
  rcases List.mem_append.mp hev with h | h
  · exact ha ev h
  · exact hb ev h

/-- A stretch without a failure before a stretch ended by a failure. -/
theorem EndedBy.after_quiet {a b : List Event} {err : Err} (ha : Quiet a) (hb : EndedBy b err) :
    EndedBy (a ++ b) err := by
  obtain ⟨pre, ev, rfl, hpre, hfail⟩ := hb
  exact ⟨a ++ pre, ev, by simp, ha.append hpre, hfail⟩

/-- The empty stretch has no failure. -/
theorem Quiet.nil : Quiet [] := by
  intro ev hev
  cases hev

/-- No call of a stretch without a failure is a failure. -/
theorem Quiet.no_stop {l : List Event} (h : Quiet l) (pre post : List Event) (ev : Event)
    (hl : l = pre ++ ev :: post) : ev.stops = false := by
  apply h
  rw [hl]
  simp

/-- In a stretch ended by a failure, the only failure is the last call. -/
theorem EndedBy.last_stop {l : List Event} {err : Err} (h : EndedBy l err)
    (pre post : List Event) (ev : Event) (hl : l = pre ++ ev :: post) (hstop : ev.stops = true) :
    post = [] ∧ ev.failure = some err := by
  obtain ⟨pre0, ev0, rfl, hq, hfail⟩ := h
  induction pre0 generalizing pre with
  | nil =>
    cases pre with
    | nil =>
      simp at hl
      obtain ⟨rfl, rfl⟩ := hl
      exact ⟨rfl, hfail⟩
    | cons p rest =>
      simp at hl
  | cons a t ih =>
    cases pre with
    | nil =>
      simp at hl
      obtain ⟨rfl, _⟩ := hl
      have := hq a (List.mem_cons_self _ _)
      rw [this] at hstop
      cases hstop
    | cons p rest =>
      simp at hl
      obtain ⟨_, hrest⟩ := hl
      exact ih rest hrest (fun x hx => hq x (List.mem_cons_of_mem _ hx))

/-- A convergence step of a child that does not end the pass has no failure. -/
theorem ChildRun.childQuiet {api : Api} {generated : Obj} {l : List Event} {ready : Bool}
    (hk : generated.kind ≠ Kind.SolrCloud) (run : ChildRun api generated l none ready) :
    Quiet l := by
  generalize hnone : (none : Option Err) = e0 at run
  cases run with
  | ownerFailed err => cases hnone
  | fetchFailed desired key err hkind hnf => cases hnone
  | created desired key err answer hkind hnf =>
    subst hnone
    intro ev hev
    simp at hev
    rcases hev with rfl | rfl | rfl <;>
      simp [Event.stops, Event.failure, Event.isBenignNotFound, hnf, hk]
  | updated desired key observed answer hkind hobs hchanged =>
    subst hnone
    intro ev hev
    simp at hev
    rcases hev with rfl | rfl | rfl <;>
      simp [Event.stops, Event.failure, Event.isBenignNotFound]
  | unchanged desired key observed hkind hobs hchanged =>
    intro ev hev
    simp at hev
    rcases hev with rfl | rfl <;>
      simp [Event.stops, Event.failure, Event.isBenignNotFound]

/-- A convergence step of a child that ends the pass is ended by the failure it returns. -/
theorem ChildRun.childEnded {api : Api} {generated : Obj} {l : List Event} {ready : Bool} {x : Err}
    (hk : generated.kind ≠ Kind.SolrCloud) (run : ChildRun api generated l (some x) ready) :
    EndedBy l x := by
  generalize hsome : some x = e0 at run
  cases run with
  | ownerFailed err =>
    cases hsome
    exact ⟨[], _, rfl, Quiet.nil, rfl⟩
  | fetchFailed desired key err hkind hnf =>
    cases hsome
    refine ⟨[Event.setControllerReference generated (.ok desired)], _, rfl, ?_, rfl⟩
    intro ev hev
    simp at hev
    subst hev
    simp [Event.stops, Event.failure]
  | created desired key err answer hkind hnf =>
    subst hsome
    refine ⟨[Event.setControllerReference generated (.ok desired),
      Event.get generated.kind key (.error err)], _, rfl, ?_, rfl⟩
    intro ev hev
    simp at hev
    rcases hev with rfl | rfl <;>
      simp [Event.stops, Event.failure, Event.isBenignNotFound, hnf, hk]
  | updated desired key observed answer hkind hobs hchanged =>
    subst hsome
    refine ⟨[Event.setControllerReference generated (.ok desired),
      Event.get generated.kind key (.ok observed)], _, rfl, ?_, rfl⟩
    intro ev hev
    simp at hev
    rcases hev with rfl | rfl <;>
      simp [Event.stops, Event.failure, Event.isBenignNotFound]
  | unchanged desired key observed hkind hobs hchanged => cases hsome

/-- A run of `getSolrConnectionInfo` that returns no error has no failure. -/
theorem LookupRun.lookupQuiet {e : SolrPrometheusExporter} {l : List Event}
    {info : SolrConnectionInfo} (run : LookupRun e l info none) : Quiet l := by
  generalize hnone : (none : Option Err) = e0 at run
  cases run with
  | noCloud _ => exact Quiet.nil
  | inline _ _ _ _ => exact Quiet.nil
  | unnamed _ _ _ _ => exact Quiet.nil
  | found cloudRef solrCloud _ _ _ =>
    intro ev hev
    simp at hev
    subst hev
    simp [Event.stops, Event.failure]
  | failed _ _ _ _ _ => cases hnone

/-- A run of `getSolrConnectionInfo` that returns an error is ended by that failure. -/
theorem LookupRun.lookupEnded {e : SolrPrometheusExporter} {l : List Event}
    {info : SolrConnectionInfo} {x : Err} (run : LookupRun e l info (some x)) :
    EndedBy l x := by
  generalize hsome : some x = e0 at run
  cases run with
  | noCloud _ => cases hsome
  | inline _ _ _ _ => cases hsome
  | unnamed _ _ _ _ => cases hsome
  | found _ _ _ _ _ => cases hsome
  | failed cloudRef err _ _ _ =>
    cases hsome
    exact ⟨[], _, rfl, Quiet.nil, rfl⟩

/-- A run of lines 81-103 that does not end the pass has no failure. -/
theorem ConfigRun.configQuiet {api : Api} {e : SolrPrometheusExporter} {l : List Event}
    (run : ConfigRun api e l) : Quiet l := by
  cases run with
  | skipped _ => exact Quiet.nil
  | converged _ _ _ run => exact run.childQuiet (by simp [Obj.kind])

/-- Lines 81-155: when they end the pass by a return, the last call of theirs failed with the
error returned and no call before it failed; otherwise no call failed. Benign NotFound answers
apart. -/
theorem ConvergeRun.convergeDiscipline {api : Api} {e : SolrPrometheusExporter} {l : List Event}
    {v : Except Halt Bool} (run : ConvergeRun api e l v) :
    (∃ x, EndedBy l x ∧ v = .error (Halt.returned {} (some x))) ∨
      (Quiet l ∧ ∀ res x, v ≠ .error (Halt.returned res x)) := by
  cases run with
  | configMapStopped lc err ready hconfig run =>
    exact Or.inl ⟨err, run.childEnded (by simp [Obj.kind]), rfl⟩
  | serviceStopped lc ls err ready hc run =>
    exact Or.inl ⟨err, EndedBy.after_quiet hc.configQuiet (run.childEnded (by simp [Obj.kind])), rfl⟩
  | lookupFailed lc ls ll ready info err hc hs hl =>
    exact Or.inl ⟨err, EndedBy.after_quiet (hc.configQuiet.append (hs.childQuiet (by simp [Obj.kind])))
      hl.lookupEnded, rfl⟩
  | generatorPanicked lc ls ll ready info p hc hs hl hg =>
    exact Or.inr ⟨(hc.configQuiet.append (hs.childQuiet (by simp [Obj.kind]))).append hl.lookupQuiet,
      by intro res x h; cases h⟩
  | deploymentStopped lc ls ll ld ready info d err ready2 hc hs hl hg hd =>
    exact Or.inl ⟨err, EndedBy.after_quiet
      ((hc.configQuiet.append (hs.childQuiet (by simp [Obj.kind]))).append hl.lookupQuiet)
      (hd.childEnded (by simp [Obj.kind])), rfl⟩
  | converged lc ls ll ld ready info d ready2 hc hs hl hg hd =>
    exact Or.inr ⟨((hc.configQuiet.append (hs.childQuiet (by simp [Obj.kind]))).append hl.lookupQuiet).append
      (hd.childQuiet (by simp [Obj.kind])), by intro res x h; cases h⟩

/-- Every pass: either its last call failed with the error the pass returns and no call before
it failed, or no call failed. Benign NotFound answers apart. -/
theorem ReconcileRun.reconcileDiscipline {api : Api} {req : NamespacedName} {l : List Event} {ret : Halt}
    (run : ReconcileRun api req l ret) :
    (∃ x, EndedBy l x ∧ ret = Halt.returned {} (some x)) ∨ Quiet l := by
  have hq : ∀ fetched : SolrPrometheusExporter,
      Quiet [Event.get Kind.SolrPrometheusExporter req (.ok (Obj.exporter fetched))] := by
    intro fetched ev hev
    simp at hev
    subst hev
    simp [Event.stops, Event.failure]
  cases run with
  | parentNotFound err hnf =>
    right
    intro ev hev
    simp at hev
    subst hev
    simp [Event.stops, Event.failure, Event.isBenignNotFound, hnf]
  | parentFailed err hnf =>
    exact Or.inl ⟨err, ⟨[], _, rfl, Quiet.nil, rfl⟩, rfl⟩
  | defaultsFailed fetched err hchanged =>
    exact Or.inl ⟨err, ⟨[_], _, rfl, hq fetched, rfl⟩, rfl⟩
  | defaulted fetched hchanged =>
    right
    intro ev hev
    simp at hev
    rcases hev with rfl | rfl <;> simp [Event.stops, Event.failure]
  | stopped fetched calls h hchanged run =>
    rcases run.convergeDiscipline with ⟨x, hended, hv⟩ | ⟨hquiet, _⟩
    · cases hv
      exact Or.inl ⟨x, EndedBy.after_quiet (hq fetched) hended, rfl⟩
    · exact Or.inr ((hq fetched).append hquiet)
  | statusKept fetched calls ready hchanged run hsame =>
    rcases run.convergeDiscipline with ⟨x, _, hv⟩ | ⟨hquiet, _⟩
    · cases hv
    · exact Or.inr ((hq fetched).append hquiet)
  | statusWritten fetched calls ready answer hchanged run hdiffers =>
    rcases run.convergeDiscipline with ⟨x, _, hv⟩ | ⟨hquiet, _⟩
    · cases hv
    · have hpre : Quiet (Event.get Kind.SolrPrometheusExporter req
          (.ok (Obj.exporter fetched)) :: calls) := (hq fetched).append hquiet
      cases answer with
      | none =>
        right
        refine hpre.append ?_
        intro ev hev
        simp at hev
        subst hev
        simp [Event.stops, Event.failure]
      | some x =>
        exact Or.inl ⟨x, ⟨_, _, rfl, hpre, rfl⟩, rfl⟩

section
variable {σ : Type}

/-- C7, amended: in every pass, a call that fails with an error other than a NotFound from the
fetch of a child or of the exporter itself is the last call of the pass, and the pass returns
exactly that error. -/
theorem failure_ends_pass (api : Api) (c : Client σ) (req : NamespacedName) (s : σ)
    (pre post : List Event) (ev : Event) (err : Err)
    (hcalls : (Reconcile api c req s).calls = pre ++ ev :: post)
    (hfail : ev.failure = some err) (hbenign : ev.isBenignNotFound = false) :
    post = [] ∧ (Reconcile api c req s).ret = Halt.returned {} (some err) := by
  have hstop : ev.stops = true := by simp [Event.stops, hfail, hbenign]
  rcases (Reconcile_run api c req s).reconcileDiscipline with ⟨x, hended, hret⟩ | hquiet
  · obtain ⟨hpost, hx⟩ := hended.last_stop pre post ev hcalls hstop
    rw [hfail] at hx
    cases hx
    exact ⟨hpost, hret⟩
  · have := hquiet.no_stop pre post ev hcalls
    rw [this] at hstop
    cases hstop

/-- C7, amended, on the cluster without the SolrCloud the exporter names: the lookup is the
fifth and last call and its error is returned. -/
theorem failure_ends_pass_witness :
    ([] : List Event) = [] ∧
      (Reconcile sampleApi clusterClient sampleRequest cloudlessCluster).ret
        = Halt.returned {} (some { Reason := "NotFound" }) :=
  failure_ends_pass sampleApi clusterClient sampleRequest cloudlessCluster
    ((Reconcile sampleApi clusterClient sampleRequest cloudlessCluster).calls.take 4) []
    (Event.get Kind.SolrCloud { Namespace := "default", Name := "cloud1" }
      (.error { Reason := "NotFound" }))
    { Reason := "NotFound" } rfl rfl rfl

/-- A failed sibling lookup inside a run of `getSolrConnectionInfo`. -/
theorem LookupRun.mem_error {e : SolrPrometheusExporter} {l : List Event}
    {info : SolrConnectionInfo} {lerr : Option Err} (run : LookupRun e l info lerr)
    (key : NamespacedName) (err : Err)
    (hget : Event.get Kind.SolrCloud key (.error err) ∈ l) :
    lerr = some err ∧ l = [Event.get Kind.SolrCloud key (.error err)] ∧
      ∃ cloudRef, e.Spec.SolrReference.Cloud = some cloudRef ∧
        cloudRef.ZookeeperConnectionInfo = none ∧ cloudRef.Name ≠ "" ∧
        key = { Name := cloudRef.Name, Namespace := cloudRef.Namespace } := by
  cases run with
  | noCloud _ => cases hget
  | inline _ _ _ _ => cases hget
  | unnamed _ _ _ _ => cases hget
  | found cloudRef solrCloud _ _ _ => simp at hget
  | failed cloudRef err2 hcloud hzk hname =>
    simp at hget
    obtain ⟨rfl, rfl⟩ := hget
    exact ⟨rfl, rfl, cloudRef, hcloud, hzk, hname, rfl⟩

/-- A failed sibling lookup inside lines 81-155: it is their last call, they end the pass with
its error and they issue no call about the Deployment. -/
theorem ConvergeRun.lookup_failed {api : Api} {e : SolrPrometheusExporter} {l : List Event}
    {v : Except Halt Bool} (run : ConvergeRun api e l v) (key : NamespacedName) (err : Err)
    (hget : Event.get Kind.SolrCloud key (.error err) ∈ l) :
    v = .error (Halt.returned {} (some err)) ∧
      (∃ pre, l = pre ++ [Event.get Kind.SolrCloud key (.error err)]) ∧
      (∀ ev ∈ l, ev.kind ≠ Kind.Deployment) ∧
      ∃ cloudRef, e.Spec.SolrReference.Cloud = some cloudRef ∧
        cloudRef.ZookeeperConnectionInfo = none ∧ cloudRef.Name ≠ "" ∧
        key = { Name := cloudRef.Name, Namespace := cloudRef.Namespace } := by
  have notin : ∀ (generated : Obj) (seg : List Event) (x : Option Err) (r : Bool),
      ChildRun api generated seg x r → generated.kind ≠ Kind.SolrCloud →
      Event.get Kind.SolrCloud key (.error err) ∈ seg → False := by
    intro generated seg x r hrun hk hmem
    exact hk (hrun.childKind _ hmem).symm
  have notinc : ∀ seg, ConfigRun api e seg →
      Event.get Kind.SolrCloud key (.error err) ∈ seg → False := by
    intro seg hc hmem
    have := hc.configKind _ hmem
    cases this
  cases run with
  | configMapStopped lc x ready hconfig run =>
    exact (notin _ _ _ _ run (by simp [Obj.kind]) hget).elim
  | serviceStopped lc ls x ready hc run =>
    rcases List.mem_append.mp hget with h | h
    · exact (notinc _ hc h).elim
    · exact (notin _ _ _ _ run (by simp [Obj.kind]) h).elim
  | lookupFailed lc ls ll ready info x hc hs hl =>
    rcases List.mem_append.mp hget with h | h
    · rcases List.mem_append.mp h with h | h
      · exact (notinc _ hc h).elim
      · exact (notin _ _ _ _ hs (by simp [Obj.kind]) h).elim
    · obtain ⟨hx, hll, href⟩ := hl.mem_error key err h
      cases hx
      refine ⟨rfl, ⟨lc ++ ls, by rw [hll]⟩, ?_, href⟩
      intro ev hev
      rcases List.mem_append.mp hev with h2 | h2
      · rcases List.mem_append.mp h2 with h2 | h2
        · rw [hc.configKind ev h2]; decide
        · rw [hs.childKind ev h2]; simp [Obj.kind]
      · rw [hl.lookupKind ev h2]; decide
  | generatorPanicked lc ls ll ready info p hc hs hl hg =>
    rcases List.mem_append.mp hget with h | h
    · rcases List.mem_append.mp h with h | h
      · exact (notinc _ hc h).elim
      · exact (notin _ _ _ _ hs (by simp [Obj.kind]) h).elim
    · obtain ⟨hx, _, _⟩ := hl.mem_error key err h
      cases hx
  | deploymentStopped lc ls ll ld ready info d x ready2 hc hs hl hg hd =>
    rcases List.mem_append.mp hget with h | h
    · rcases List.mem_append.mp h with h | h
      · rcases List.mem_append.mp h with h | h
        · exact (notinc _ hc h).elim
        · exact (notin _ _ _ _ hs (by simp [Obj.kind]) h).elim
      · obtain ⟨hx, _, _⟩ := hl.mem_error key err h
        cases hx
    · exact (notin _ _ _ _ hd (by simp [Obj.kind]) h).elim
  | converged lc ls ll ld ready info d ready2 hc hs hl hg hd =>
    rcases List.mem_append.mp hget with h | h
    · rcases List.mem_append.mp h with h | h
      · rcases List.mem_append.mp h with h | h
        · exact (notinc _ hc h).elim
        · exact (notin _ _ _ _ hs (by simp [Obj.kind]) h).elim
      · obtain ⟨hx, _, _⟩ := hl.mem_error key err h
        cases hx
    · exact (notin _ _ _ _ hd (by simp [Obj.kind]) h).elim

/-- C2, amended: when the lookup of the sibling SolrCloud that the exporter names by name and
namespace, with no inline descriptor, answers NotFound, the pass returns that error, the lookup
is its last call, and the pass issues no call about the Deployment (no fetch, create or update)
and no status write. The steps of the ConfigMap and of the Service come before the lookup and
are not held back by it. -/
theorem lookup_not_found_ends_pass (api : Api) (c : Client σ) (req : NamespacedName) (s : σ)
    (key : NamespacedName) (err : Err)
    (hget : Event.get Kind.SolrCloud key (.error err) ∈ (Reconcile api c req s).calls)
    (_hnf : IsNotFound err = true) :
    (Reconcile api c req s).ret = Halt.returned {} (some err) ∧
      (∃ pre, (Reconcile api c req s).calls
        = pre ++ [Event.get Kind.SolrCloud key (.error err)]) ∧
      (∀ ev ∈ (Reconcile api c req s).calls, ev.kind ≠ Kind.Deployment) ∧
      statusWrites (Reconcile api c req s).calls = [] ∧
      ∃ fetched cloudRef,
        Event.get Kind.SolrPrometheusExporter req (.ok (Obj.exporter fetched))
          ∈ (Reconcile api c req s).calls ∧
        (api.WithDefaults fetched).1.Spec.SolrReference.Cloud = some cloudRef ∧
        cloudRef.ZookeeperConnectionInfo = none ∧ cloudRef.Name ≠ "" ∧
        key = { Name := cloudRef.Name, Namespace := cloudRef.Namespace } := by
  have hrun := Reconcile_run api c req s
  revert hget
  generalize (Reconcile api c req s).calls = calls at hrun ⊢
  generalize (Reconcile api c req s).ret = ret at hrun ⊢
  intro hget
  have conv : ∀ (fetched : SolrPrometheusExporter) (l : List Event) (v : Except Halt Bool),
      ConvergeRun api (api.WithDefaults fetched).1 l v →
      Event.get Kind.SolrCloud key (.error err) ∈
        Event.get Kind.SolrPrometheusExporter req (.ok (Obj.exporter fetched)) :: l →
      Event.get Kind.SolrCloud key (.error err) ∈ l := by
    intro fetched l v _ hmem
    rcases List.mem_cons.mp hmem with h | h
    · cases h
    · exact h
  cases hrun with
  | parentNotFound e2 _ => simp at hget
  | parentFailed e2 _ => simp at hget
  | defaultsFailed fetched e2 _ => simp at hget
  | defaulted fetched _ => simp at hget
  | stopped fetched l h hchanged run =>
    obtain ⟨hv, ⟨pre, hpre⟩, hkind, href⟩ :=
      run.lookup_failed key err (conv fetched l _ run hget)
    cases hv
    obtain ⟨_, hsw⟩ := run.no_parent_call
    refine ⟨rfl, ⟨_ :: pre, by rw [hpre]; rfl⟩, ?_, ?_, ?_⟩
    · intro ev hev
      rcases List.mem_cons.mp hev with h2 | h2
      · subst h2
        simp [Event.kind]
      · exact hkind ev h2
    · simpa [statusWrites] using hsw
    · obtain ⟨cloudRef, h1, h2, h3, h4⟩ := href
      exact ⟨fetched, cloudRef, List.mem_cons_self _ _, h1, h2, h3, h4⟩
  | statusKept fetched l ready hchanged run hsame =>
    obtain ⟨hv, _⟩ := run.lookup_failed key err (conv fetched l _ run hget)
    cases hv
  | statusWritten fetched l ready answer hchanged run hdiffers =>
    have hmem : Event.get Kind.SolrCloud key (.error err) ∈ l := by
      simpa using hget
    obtain ⟨hv, _⟩ := run.lookup_failed key err hmem
    cases hv

/-- C2, amended, on the cluster without the SolrCloud the exporter names. -/
theorem lookup_not_found_ends_pass_witness :
    (Reconcile sampleApi clusterClient sampleRequest cloudlessCluster).ret
        = Halt.returned {} (some { Reason := "NotFound" }) ∧
      (∃ pre, (Reconcile sampleApi clusterClient sampleRequest cloudlessCluster).calls
        = pre ++ [Event.get Kind.SolrCloud { Namespace := "default", Name := "cloud1" }
            (.error { Reason := "NotFound" })]) ∧
      (∀ ev ∈ (Reconcile sampleApi clusterClient sampleRequest cloudlessCluster).calls,
        ev.kind ≠ Kind.Deployment) ∧
      statusWrites (Reconcile sampleApi clusterClient sampleRequest cloudlessCluster).calls = [] ∧
      ∃ fetched cloudRef,
        Event.get Kind.SolrPrometheusExporter sampleRequest (.ok (Obj.exporter fetched))
          ∈ (Reconcile sampleApi clusterClient sampleRequest cloudlessCluster).calls ∧
        (sampleApi.WithDefaults fetched).1.Spec.SolrReference.Cloud = some cloudRef ∧
        cloudRef.ZookeeperConnectionInfo = none ∧ cloudRef.Name ≠ "" ∧
        ({ Namespace := "default", Name := "cloud1" } : NamespacedName)
          = { Name := cloudRef.Name, Namespace := cloudRef.Namespace } :=
  lookup_not_found_ends_pass sampleApi clusterClient sampleRequest cloudlessCluster
    { Namespace := "default", Name := "cloud1" } { Reason := "NotFound" }
    (List.mem_cons_of_mem _ (List.mem_cons_of_mem _ (List.mem_cons_of_mem _
      (List.mem_cons_of_mem _ (List.mem_cons_self _ _))))) rfl
end

/-! ## The connection resolver -/

section
variable {σ : Type}

/-- C13: for an exporter that names a standalone target and no cloud target,
`getSolrConnectionInfo` issues no call, leaves the cluster state alone and returns, with no
error, connection info whose standalone address is the address of the spec and whose cloud
descriptor is unset. -/
theorem getSolrConnectionInfo_standalone (c : Client σ) (e : SolrPrometheusExporter) (s : σ)
    (standalone : StandaloneSolrReference)
    (hstandalone : e.Spec.SolrReference.Standalone = some standalone)
    (hcloud : e.Spec.SolrReference.Cloud = none) :
    (getSolrConnectionInfo c e s).val =
        .ok ({ CloudZkConnnectionInfo := none, StandaloneAddress := standalone.Address }, none) ∧
      (getSolrConnectionInfo c e s).calls = [] ∧
      (getSolrConnectionInfo c e s).state = s := by
  simp only [getSolrConnectionInfo, hstandalone, hcloud, pure, Pass.pure, and_self]
end

/-- C13 on the sample exporter, whose standalone address is `10.0.0.5:2181`. -/
theorem getSolrConnectionInfo_standalone_witness :
    (getSolrConnectionInfo clusterClient sampleExporter sampleCluster).val =
        .ok ({ CloudZkConnnectionInfo := none, StandaloneAddress := "10.0.0.5:2181" }, none) ∧
      (getSolrConnectionInfo clusterClient sampleExporter sampleCluster).calls = [] ∧
      (getSolrConnectionInfo clusterClient sampleExporter sampleCluster).state = sampleCluster :=
  getSolrConnectionInfo_standalone clusterClient sampleExporter sampleCluster
    { Address := "10.0.0.5:2181" } rfl rfl

section
variable {σ : Type}

/-- C14: for an exporter whose cloud reference has no inline descriptor and a name,
`getSolrConnectionInfo` issues exactly one call, the fetch of the SolrCloud of that name and
namespace; when the fetch succeeds the cloud descriptor returned is the connection descriptor of
the status of the SolrCloud fetched and the error is nil; when the fetch fails its error is
returned as it is and the cloud descriptor is unset. -/
theorem getSolrConnectionInfo_by_reference (c : Client σ) (e : SolrPrometheusExporter) (s : σ)
    (cloudRef : SolrCloudReference)
    (hcloud : e.Spec.SolrReference.Cloud = some cloudRef)
    (hinline : cloudRef.ZookeeperConnectionInfo = none)
    (hname : cloudRef.Name ≠ "") :
    (getSolrConnectionInfo c e s).calls =
        [Event.get Kind.SolrCloud { Name := cloudRef.Name, Namespace := cloudRef.Namespace }
          ((c.getSolrCloud { Name := cloudRef.Name, Namespace := cloudRef.Namespace } s).1.map
            Obj.solrCloud)] ∧
      (∀ solrCloud,
        (c.getSolrCloud { Name := cloudRef.Name, Namespace := cloudRef.Namespace } s).1
          = .ok solrCloud →
        ∃ info, (getSolrConnectionInfo c e s).val = .ok (info, none) ∧
          info.CloudZkConnnectionInfo = some solrCloud.Status.ZookeeperConnectionInfo) ∧
      (∀ err,
        (c.getSolrCloud { Name := cloudRef.Name, Namespace := cloudRef.Namespace } s).1
          = .error err →
        ∃ info, (getSolrConnectionInfo c e s).val = .ok (info, some err) ∧
          info.CloudZkConnnectionInfo = none) := by
  simp only [getSolrConnectionInfo, hcloud, hinline, bind, Pass.bind, Pass.call, pure,
    Pass.pure, hname, ne_eq, not_false_eq_true, if_true]
  refine ⟨?_, ?_, ?_⟩
  · cases (c.getSolrCloud { Namespace := cloudRef.Namespace, Name := cloudRef.Name } s).1 <;>
      simp [Pass.pure]
  · intro solrCloud hget
    rw [hget]
    exact ⟨_, rfl, rfl⟩
  · intro err hget
    rw [hget]
    refine ⟨_, rfl, ?_⟩
    cases e.Spec.SolrReference.Standalone <;> rfl
end

/-- C14 on an in-memory cluster that holds the SolrCloud the exporter names. -/
theorem getSolrConnectionInfo_by_reference_witness :
    (getSolrConnectionInfo clusterClient cloudExporter cloudCluster).calls =
        [Event.get Kind.SolrCloud { Name := "cloud1", Namespace := "default" }
          ((clusterClient.getSolrCloud { Name := "cloud1", Namespace := "default" }
            cloudCluster).1.map Obj.solrCloud)] ∧
      (∀ solrCloud,
        (clusterClient.getSolrCloud { Name := "cloud1", Namespace := "default" } cloudCluster).1
          = .ok solrCloud →
        ∃ info, (getSolrConnectionInfo clusterClient cloudExporter cloudCluster).val
            = .ok (info, none) ∧
          info.CloudZkConnnectionInfo = some solrCloud.Status.ZookeeperConnectionInfo) ∧
      (∀ err,
        (clusterClient.getSolrCloud { Name := "cloud1", Namespace := "default" } cloudCluster).1
          = .error err →
        ∃ info, (getSolrConnectionInfo clusterClient cloudExporter cloudCluster).val
            = .ok (info, some err) ∧
          info.CloudZkConnnectionInfo = none) :=
  getSolrConnectionInfo_by_reference clusterClient cloudExporter cloudCluster
    { Name := "cloud1", Namespace := "default" } rfl rfl (by decide)

section
variable {σ : Type}

/-- C15: for an exporter whose cloud reference carries an inline connection descriptor,
whatever name the reference carries besides, `getSolrConnectionInfo` issues no call, leaves the
cluster state alone and returns that descriptor as the cloud descriptor, with no error. -/
theorem getSolrConnectionInfo_inline (c : Client σ) (e : SolrPrometheusExporter) (s : σ)
    (cloudRef : SolrCloudReference) (zk : ZookeeperConnectionInfo)
    (hcloud : e.Spec.SolrReference.Cloud = some cloudRef)
    (hinline : cloudRef.ZookeeperConnectionInfo = some zk) :
    (∃ info, (getSolrConnectionInfo c e s).val = .ok (info, none) ∧
        info.CloudZkConnnectionInfo = some zk) ∧
      (getSolrConnectionInfo c e s).calls = [] ∧
      (getSolrConnectionInfo c e s).state = s := by
  simp only [getSolrConnectionInfo, hcloud, hinline, pure, Pass.pure, and_self, and_true]
  exact ⟨_, rfl, rfl⟩
end

/-- C15 on an exporter whose cloud reference carries a name besides the inline descriptor. -/
theorem getSolrConnectionInfo_inline_witness :
    (∃ info, (getSolrConnectionInfo clusterClient inlineCloudExporter cloudCluster).val
          = .ok (info, none) ∧
        info.CloudZkConnnectionInfo = some sampleZookeeper) ∧
      (getSolrConnectionInfo clusterClient inlineCloudExporter cloudCluster).calls = [] ∧
      (getSolrConnectionInfo clusterClient inlineCloudExporter cloudCluster).state
        = cloudCluster :=
  getSolrConnectionInfo_inline clusterClient inlineCloudExporter cloudCluster
    { Name := "cloud1", Namespace := "default", ZookeeperConnectionInfo := some sampleZookeeper }
    sampleZookeeper rfl rfl

/-! ## More on the generators -/

/-- The metrics port of the Service as the generator prints it. -/
theorem Itoa_ExtSolrMetricsPort : Itoa ExtSolrMetricsPort = "80" := by decide

/-- The character of a decimal digit is a digit. -/
theorem digitChar_isDigit (m : Nat) (h : m < 10) : (Nat.digitChar m).isDigit = true := by
  interval_cases m <;> decide

/-- The decimal digits of a number are digits. -/
theorem toDigitsCore_isDigit (fuel n : Nat) (ds : List Char)
    (h : ∀ c ∈ ds, c.isDigit = true) :
    ∀ c ∈ Nat.toDigitsCore 10 fuel n ds, c.isDigit = true := by
  induction fuel generalizing n ds with
  | zero => simpa [Nat.toDigitsCore] using h
  | succ fuel ih =>
    have hd : (Nat.digitChar (n % 10)).isDigit = true :=
      digitChar_isDigit _ (Nat.mod_lt _ (by decide))
    have hcons : ∀ c ∈ Nat.digitChar (n % 10) :: ds, c.isDigit = true := by
      intro c hc
      rcases List.mem_cons.mp hc with rfl | hc
      · exact hd
      · exact h c hc
    simp only [Nat.toDigitsCore]
    split
    · exact hcons
    · exact ih _ _ hcons

/-- `strconv.Itoa` prints digits, after a minus sign for a negative number. -/
theorem Itoa_chars (n : Int) : ∀ c ∈ (Itoa n).data, c = '-' ∨ c.isDigit = true := by
  have hnat : ∀ m : Nat, ∀ c ∈ (Nat.repr m).data, c.isDigit = true := by
    intro m
    simp only [Nat.repr, Nat.toDigits, List.asString]
    exact toDigitsCore_isDigit _ _ _ (by simp)
  cases n with
  | ofNat m =>
    intro c hc
    exact Or.inr (hnat m c hc)
  | negSucc m =>
    intro c hc
    have hs : Itoa (Int.negSucc m) = "-" ++ Nat.repr (m + 1) := rfl
    rw [hs] at hc
    simp only [String.data_append, List.mem_append] at hc
    rcases hc with hc | hc
    · left; simpa using hc
    · exact Or.inr (hnat _ c hc)

/-- `strconv.Itoa` never prints a flag of the exporter. -/
theorem Itoa_ne_flag (n : Int) : Itoa n ≠ "-z" ∧ Itoa n ≠ "-b" := by
  constructor
  · intro h
    have := Itoa_chars n 'z' (by rw [h]; decide)
    revert this; decide
  · intro h
    have := Itoa_chars n 'b' (by rw [h]; decide)
    revert this; decide

/-- What the loop of lines 142-154 returns when it does not panic. -/
theorem addCustomVolumes_eq (volumes : List AdditionalVolume) (volumeMounts : List VolumeMount)
    (solrVolumes : List Volume) (r : List VolumeMount × List Volume)
    (h : addCustomVolumes volumes volumeMounts solrVolumes = .ok r) :
    r = (volumeMounts ++ volumes.filterMap
          (fun volume =>
            volume.DefaultContainerMount.map (fun m => { m with Name := volume.Name })),
         solrVolumes ++ volumes.map
          (fun volume => { Name := volume.Name, VolumeSource := volume.Source })) := by
  induction volumes generalizing volumeMounts solrVolumes with
  | nil =>
    simp only [addCustomVolumes] at h
    cases h
    simp
  | cons v rest ih =>
    cases hm : v.DefaultContainerMount with
    | none =>
      simp only [addCustomVolumes, setDefaultContainerMountName, hm] at h
      cases h
    | some m =>
      simp only [addCustomVolumes, setDefaultContainerMountName, hm] at h
      rw [ih _ _ h]
      simp [List.filterMap_cons, hm]

/-- The locals `volumeMounts` and `solrVolumes` at line 156, when the loop does not panic: the
config mount and volume, if any, followed by the custom ones. -/
theorem podVolumes_eq (api : Api) (e : SolrPrometheusExporter)
    (r : List VolumeMount × List Volume) (h : podVolumes api e = .ok r) :
    r = (configVolumeMounts e ++ customVolumeMounts e,
         configVolumes api e ++ customVolumes e) := by
  unfold podVolumes at h
  unfold customVolumeMounts customVolumes
  cases hopt : e.Spec.CustomKubeOptions.PodOptions with
  | none =>
    rw [hopt] at h
    cases h
    simp
  | some o =>
    rw [hopt] at h
    exact addCustomVolumes_eq _ _ _ _ h

/-- The pod selector of a generated Deployment (lines 56-59 and 212-214). -/
theorem deployment_selector (api : Api) (e : SolrPrometheusExporter) (info : SolrConnectionInfo)
    (d : Deployment) (hd : GenerateSolrPrometheusExporterDeployment api e info = .ok d) :
    d.Spec.Selector = some
      { MatchLabels :=
          (api.SharedLabels e).set "technology" api.SolrPrometheusExporterTechnologyLabel } := by
  unfold GenerateSolrPrometheusExporterDeployment at hd
  dsimp only at hd
  split at hd
  · cases hd
  · cases hd
    rfl

/-- C16, the generator half, in general: for connection info with neither field populated the
argument list is `-p 8080`, `-n` with the thread count, `-s` with the scrape interval when it
is positive, and `-f` with the config path, and holds neither `-z` nor `-b`. -/
theorem exporterArgs_without_target (api : Api) (e : SolrPrometheusExporter) :
    exporterArgs api e {} =
        ["-p", "8080", "-n", Itoa e.Spec.NumThreads] ++
          (if e.Spec.ScrapeInterval > 0 then ["-s", Itoa e.Spec.ScrapeInterval] else []) ++
          (if e.Spec.Config ≠ "" then ["-f", "/opt/solr-exporter/solr-prometheus-exporter.xml"]
           else ["-f", "/opt/solr/contrib/prometheus-exporter/conf/solr-exporter-config.xml"]) ∧
      "-z" ∉ exporterArgs api e {} ∧ "-b" ∉ exporterArgs api e {} := by
  have ht := Itoa_ne_flag e.Spec.NumThreads
  have hs := Itoa_ne_flag e.Spec.ScrapeInterval
  unfold exporterArgs
  rw [Itoa_SolrMetricsPort]
  dsimp only
  have hempty : ¬ ("" : String) ≠ "" := by decide
  simp only [hempty, if_false]
  refine ⟨?_, ?_, ?_⟩
  · split_ifs <;> simp
  · split_ifs <;> simp [ht.1.symm, hs.1.symm]
  · split_ifs <;> simp [ht.2.symm, hs.2.symm]

section
variable {σ : Type}

/-- C16: for an exporter that names neither a standalone nor a cloud target,
`getSolrConnectionInfo` issues no call and returns, with no error, connection info with both
fields unset; and the argument list of the exporter container of the Deployment generated from
that exporter and that info holds neither `-z` nor `-b`: it is `-p 8080`, `-n` with the thread
count, `-s` with the scrape interval when positive, and `-f` with the config path. -/
theorem no_target_no_connection_argument (api : Api) (c : Client σ)
    (e : SolrPrometheusExporter) (s : σ)
    (hstandalone : e.Spec.SolrReference.Standalone = none)
    (hcloud : e.Spec.SolrReference.Cloud = none) :
    (getSolrConnectionInfo c e s).val
        = .ok ({ CloudZkConnnectionInfo := none, StandaloneAddress := "" }, none) ∧
      (getSolrConnectionInfo c e s).calls = [] ∧
      ∀ d, GenerateSolrPrometheusExporterDeployment api e {} = .ok d →
        ∃ args, (exporterContainer d).map Container.Args = some args ∧
          "-z" ∉ args ∧ "-b" ∉ args ∧
          args = ["-p", "8080", "-n", Itoa e.Spec.NumThreads] ++
            (if e.Spec.ScrapeInterval > 0 then ["-s", Itoa e.Spec.ScrapeInterval] else []) ++
            (if e.Spec.Config ≠ "" then ["-f", "/opt/solr-exporter/solr-prometheus-exporter.xml"]
             else
              ["-f", "/opt/solr/contrib/prometheus-exporter/conf/solr-exporter-config.xml"]) := by
  refine ⟨?_, ?_, ?_⟩
  · simp only [getSolrConnectionInfo, hstandalone, hcloud, pure, Pass.pure]
  · simp only [getSolrConnectionInfo, hstandalone, hcloud, pure, Pass.pure]
  · intro d hd
    obtain ⟨_, _, _, _, _, hargs, _⟩ := generated_exporterContainer api e {} d hd
    obtain ⟨heq, hz, hb⟩ := exporterArgs_without_target api e
    exact ⟨_, hargs, hz, hb, heq⟩
end

/-- C16 on the sample exporter that names no target. -/
theorem no_target_no_connection_argument_witness :
    (getSolrConnectionInfo clusterClient noTargetExporter sampleCluster).val
        = .ok ({ CloudZkConnnectionInfo := none, StandaloneAddress := "" }, none) ∧
      (getSolrConnectionInfo clusterClient noTargetExporter sampleCluster).calls = [] ∧
      ∀ d, GenerateSolrPrometheusExporterDeployment sampleApi noTargetExporter {} = .ok d →
        ∃ args, (exporterContainer d).map Container.Args = some args ∧
          "-z" ∉ args ∧ "-b" ∉ args ∧
          args = ["-p", "8080", "-n", Itoa noTargetExporter.Spec.NumThreads] ++
            (if noTargetExporter.Spec.ScrapeInterval > 0 then
              ["-s", Itoa noTargetExporter.Spec.ScrapeInterval] else []) ++
            (if noTargetExporter.Spec.Config ≠ "" then
              ["-f", "/opt/solr-exporter/solr-prometheus-exporter.xml"]
             else
              ["-f", "/opt/solr/contrib/prometheus-exporter/conf/solr-exporter-config.xml"]) :=
  no_target_no_connection_argument sampleApi clusterClient noTargetExporter sampleCluster rfl rfl

/-- C17: the environment of the exporter container of a generated Deployment is, when the
resolved cloud descriptor carries access-control credentials, the credential entries, then the
custom environment variables of the pod options, then one `JAVA_OPTS` entry with the value
`$(SOLR_ZK_CREDS_AND_ACLS)`, which is thus the last entry; and when the descriptor carries no
credentials or no cloud descriptor is resolved, the custom environment variables alone. -/
theorem exporter_env (api : Api) (e : SolrPrometheusExporter) (info : SolrConnectionInfo)
    (d : Deployment) (hd : GenerateSolrPrometheusExporterDeployment api e info = .ok d) :
    (∀ zk, info.CloudZkConnnectionInfo = some zk → (api.AddACLsToEnv zk).1 = true →
        (exporterContainer d).map Container.Env = some
          ((api.AddACLsToEnv zk).2 ++ customEnvVariables e ++
            [{ Name := "JAVA_OPTS", Value := "$(SOLR_ZK_CREDS_AND_ACLS)" }]) ∧
        ((exporterContainer d).map Container.Env).bind List.getLast?
          = some { Name := "JAVA_OPTS", Value := "$(SOLR_ZK_CREDS_AND_ACLS)" }) ∧
      (∀ zk, info.CloudZkConnnectionInfo = some zk → (api.AddACLsToEnv zk).1 = false →
        (exporterContainer d).map Container.Env = some (customEnvVariables e)) ∧
      (info.CloudZkConnnectionInfo = none →
        (exporterContainer d).map Container.Env = some (customEnvVariables e)) := by
  obtain ⟨_, _, _, _, _, _, henv⟩ := generated_exporterContainer api e info d hd
  rw [henv]
  unfold envVars customEnvVariables
  refine ⟨?_, ?_, ?_⟩
  · intro zk hzk hacl
    rw [hzk]
    have hjoin : " ".intercalate ["$(SOLR_ZK_CREDS_AND_ACLS)"] = "$(SOLR_ZK_CREDS_AND_ACLS)" := by
      decide
    cases e.Spec.CustomKubeOptions.PodOptions <;> simp [hacl, hjoin]
  · intro zk hzk hacl
    rw [hzk]
    cases e.Spec.CustomKubeOptions.PodOptions <;> simp [hacl]
  · intro hnone
    rw [hnone]
    cases e.Spec.CustomKubeOptions.PodOptions <;> simp

/-- C17 on a sample exporter with a custom environment variable and a descriptor that carries
credentials. -/
theorem exporter_env_witness :
    (∀ zk, (some guardedZookeeper) = some zk → (sampleApi.AddACLsToEnv zk).1 = true →
        (exporterContainer (generatedOrEmpty (GenerateSolrPrometheusExporterDeployment sampleApi
            customEnvExporter { CloudZkConnnectionInfo := some guardedZookeeper }))).map
          Container.Env = some
            ((sampleApi.AddACLsToEnv zk).2 ++ customEnvVariables customEnvExporter ++
              [{ Name := "JAVA_OPTS", Value := "$(SOLR_ZK_CREDS_AND_ACLS)" }]) ∧
        ((exporterContainer (generatedOrEmpty (GenerateSolrPrometheusExporterDeployment sampleApi
            customEnvExporter { CloudZkConnnectionInfo := some guardedZookeeper }))).map
          Container.Env).bind List.getLast?
          = some { Name := "JAVA_OPTS", Value := "$(SOLR_ZK_CREDS_AND_ACLS)" }) ∧
      (∀ zk, (some guardedZookeeper) = some zk → (sampleApi.AddACLsToEnv zk).1 = false →
        (exporterContainer (generatedOrEmpty (GenerateSolrPrometheusExporterDeployment sampleApi
            customEnvExporter { CloudZkConnnectionInfo := some guardedZookeeper }))).map
          Container.Env = some (customEnvVariables customEnvExporter)) ∧
      ((some guardedZookeeper) = none →
        (exporterContainer (generatedOrEmpty (GenerateSolrPrometheusExporterDeployment sampleApi
            customEnvExporter { CloudZkConnnectionInfo := some guardedZookeeper }))).map
          Container.Env = some (customEnvVariables customEnvExporter)) :=
  exporter_env sampleApi customEnvExporter { CloudZkConnnectionInfo := some guardedZookeeper } _
    rfl

/-- C18: the annotations of the generated Service are the four fixed scrape hints merged with
the annotations of the service options, so that a key reads the value of the service options
when they give it one and the fixed hint otherwise; without service options they are the four
hints; and the Service has one port mapping, from port 80 to target port 8080. -/
theorem service_annotations_and_port (api : Api) (e : SolrPrometheusExporter) :
    (GenerateSolrMetricsService api e).ObjectMeta.Annotations
        = (match e.Spec.CustomKubeOptions.ServiceOptions with
           | some o => MergeLabelsOrAnnotations scrapeHints o.Annotations
           | none => scrapeHints) ∧
      (∀ k, (GenerateSolrMetricsService api e).ObjectMeta.Annotations.get k
        = match (customServiceAnnotations e).get k with
          | some v => some v
          | none => scrapeHints.get k) ∧
      (e.Spec.CustomKubeOptions.ServiceOptions = none →
        (GenerateSolrMetricsService api e).ObjectMeta.Annotations = scrapeHints) ∧
      (GenerateSolrMetricsService api e).Spec.Ports
        = [{ Name := "solr-metrics", Port := 80, Protocol := "TCP", TargetPort := 8080 }] := by
  have hann : (GenerateSolrMetricsService api e).ObjectMeta.Annotations
      = (match e.Spec.CustomKubeOptions.ServiceOptions with
         | some o => MergeLabelsOrAnnotations scrapeHints o.Annotations
         | none => scrapeHints) := by
    unfold GenerateSolrMetricsService scrapeHints
    rw [Itoa_ExtSolrMetricsPort]
  refine ⟨hann, ?_, ?_, rfl⟩
  · intro k
    rw [hann]
    unfold customServiceAnnotations
    cases e.Spec.CustomKubeOptions.ServiceOptions with
    | none => rfl
    | some o => exact get_MergeLabelsOrAnnotations _ _ k
  · intro hnone
    rw [hann, hnone]

/-- C18 on the sample exporter, which has no service options. -/
theorem service_annotations_and_port_witness :
    (GenerateSolrMetricsService sampleApi sampleExporter).ObjectMeta.Annotations = scrapeHints :=
  (service_annotations_and_port sampleApi sampleExporter).2.2.1 rfl

/-- C19: when the shared labels do not read the custom options, replacing the custom options of
an exporter changes neither the selector of the generated Service nor the pod selector of the
generated Deployment, and for one exporter the two selectors are the same: the shared labels
with the technology label. -/
theorem selectors_ignore_overrides (api : Api) (e : SolrPrometheusExporter)
    (options : CustomExporterKubeOptions) (info1 info2 : SolrConnectionInfo) (d1 d2 : Deployment)
    (hshared : api.SharedLabels (withCustomKubeOptions e options) = api.SharedLabels e)
    (hd1 : GenerateSolrPrometheusExporterDeployment api e info1 = .ok d1)
    (hd2 : GenerateSolrPrometheusExporterDeployment api (withCustomKubeOptions e options) info2
      = .ok d2) :
    (GenerateSolrMetricsService api (withCustomKubeOptions e options)).Spec.Selector
        = (GenerateSolrMetricsService api e).Spec.Selector ∧
      d2.Spec.Selector = d1.Spec.Selector ∧
      d1.Spec.Selector = some { MatchLabels := (GenerateSolrMetricsService api e).Spec.Selector } ∧
      (GenerateSolrMetricsService api e).Spec.Selector
        = (api.SharedLabels e).set "technology" api.SolrPrometheusExporterTechnologyLabel := by
  rw [deployment_selector api e info1 d1 hd1, deployment_selector api _ info2 d2 hd2,
    service_selector, service_selector, hshared]
  exact ⟨rfl, rfl, rfl, rfl⟩

/-- C19 on the sample exporter and, as the other custom options, a pod label override of the
`technology` key. -/
theorem selectors_ignore_overrides_witness :
    (GenerateSolrMetricsService sampleApi (withCustomKubeOptions sampleExporter
        technologyOverrideExporter.Spec.CustomKubeOptions)).Spec.Selector
        = (GenerateSolrMetricsService sampleApi sampleExporter).Spec.Selector ∧
      (generatedOrEmpty (GenerateSolrPrometheusExporterDeployment sampleApi
        (withCustomKubeOptions sampleExporter technologyOverrideExporter.Spec.CustomKubeOptions)
        {})).Spec.Selector
        = (generatedOrEmpty (GenerateSolrPrometheusExporterDeployment sampleApi sampleExporter
            { StandaloneAddress := "10.0.0.5:2181" })).Spec.Selector ∧
      (generatedOrEmpty (GenerateSolrPrometheusExporterDeployment sampleApi sampleExporter
          { StandaloneAddress := "10.0.0.5:2181" })).Spec.Selector
        = some { MatchLabels := (GenerateSolrMetricsService sampleApi sampleExporter).Spec.Selector } ∧
      (GenerateSolrMetricsService sampleApi sampleExporter).Spec.Selector
        = (sampleApi.SharedLabels sampleExporter).set "technology"
            sampleApi.SolrPrometheusExporterTechnologyLabel :=
  selectors_ignore_overrides sampleApi sampleExporter
    technologyOverrideExporter.Spec.CustomKubeOptions { StandaloneAddress := "10.0.0.5:2181" } {}
    _ _ rfl rfl rfl

/-! ## The pass without config document -/

/-- The four stretches of lines 81-155 with what each of them ran: the step of the ConfigMap
exactly when the exporter has a config document, the step of the Service, the sibling lookup
and, after a lookup without error, the step of the Deployment generated for the connection
info that the lookup returned. -/
theorem ConvergeRun.phases {api : Api} {e : SolrPrometheusExporter} {l : List Event}
    {v : Except Halt Bool} (run : ConvergeRun api e l v) :
    ∃ lc ls ll ld, l = lc ++ ls ++ ll ++ ld ∧
      ((e.Spec.Config = "" ∧ lc = []) ∨
        (e.Spec.Config ≠ "" ∧ ∃ err r,
          ChildRun api (Obj.configMap (GenerateMetricsConfigMap api e)) lc err r)) ∧
      (ls = [] ∨ ∃ err r, ChildRun api (Obj.service (GenerateSolrMetricsService api e)) ls err r) ∧
      ((ll = [] ∧ ld = []) ∨ ∃ info err, LookupRun e ll info err ∧
        (ld = [] ∨ (err = none ∧ ∃ d err2 r,
          GenerateSolrPrometheusExporterDeployment api e info = .ok d ∧
          ChildRun api (Obj.deployment d) ld err2 r))) := by
  have hcfg : ∀ lc, ConfigRun api e lc →
      ((e.Spec.Config = "" ∧ lc = []) ∨
        (e.Spec.Config ≠ "" ∧ ∃ err r,
          ChildRun api (Obj.configMap (GenerateMetricsConfigMap api e)) lc err r)) := by
    intro lc hc
    cases hc with
    | skipped h => exact Or.inl ⟨h, rfl⟩
    | converged _ r h run => exact Or.inr ⟨h, _, r, run⟩
  cases run with
  | configMapStopped lc err ready hconfig run =>
    exact ⟨l, [], [], [], by simp, Or.inr ⟨hconfig, _, _, run⟩, Or.inl rfl, Or.inl ⟨rfl, rfl⟩⟩
  | serviceStopped lc ls err ready hc run =>
    exact ⟨lc, ls, [], [], by simp, hcfg lc hc, Or.inr ⟨_, _, run⟩, Or.inl ⟨rfl, rfl⟩⟩
  | lookupFailed lc ls ll ready info err hc hs hl =>
    exact ⟨lc, ls, ll, [], by simp, hcfg lc hc, Or.inr ⟨_, _, hs⟩,
      Or.inr ⟨info, _, hl, Or.inl rfl⟩⟩
  | generatorPanicked lc ls ll ready info p hc hs hl hg =>
    exact ⟨lc, ls, ll, [], by simp, hcfg lc hc, Or.inr ⟨_, _, hs⟩,
      Or.inr ⟨info, _, hl, Or.inl rfl⟩⟩
  | deploymentStopped lc ls ll ld ready info d err ready2 hc hs hl hg hd =>
    exact ⟨lc, ls, ll, ld, rfl, hcfg lc hc, Or.inr ⟨_, _, hs⟩,
      Or.inr ⟨info, _, hl, Or.inr ⟨rfl, d, _, _, hg, hd⟩⟩⟩
  | converged lc ls ll ld ready info d ready2 hc hs hl hg hd =>
    exact ⟨lc, ls, ll, ld, rfl, hcfg lc hc, Or.inr ⟨_, _, hs⟩,
      Or.inr ⟨info, _, hl, Or.inr ⟨rfl, d, _, _, hg, hd⟩⟩⟩

/-- A run of lines 81-155 for an exporter without config document issues no call about the
ConfigMap. -/
theorem ConvergeRun.no_configMap_call {api : Api} {e : SolrPrometheusExporter} {l : List Event}
    {v : Except Halt Bool} (run : ConvergeRun api e l v) (hconfig : e.Spec.Config = "") :
    ∀ ev ∈ l, ev.kind ≠ Kind.ConfigMap := by
  obtain ⟨lc, ls, ll, ld, rfl, hc, hs, hl⟩ := run.phases
  have hlc : lc = [] := by
    rcases hc with ⟨_, h⟩ | ⟨h, _⟩
    · exact h
    · exact absurd hconfig h
  subst hlc
  have ks : ∀ ev ∈ ls, ev.kind = Kind.Service := by
    rcases hs with rfl | ⟨_, _, run⟩
    · simp
    · exact run.childKind
  have kl : ∀ ev ∈ ll, ev.kind = Kind.SolrCloud := by
    rcases hl with ⟨rfl, _⟩ | ⟨_, _, run, _⟩
    · simp
    · exact run.lookupKind
  have kd : ∀ ev ∈ ld, ev.kind = Kind.Deployment := by
    rcases hl with ⟨_, rfl⟩ | ⟨_, _, _, rfl | ⟨_, _, _, _, _, run⟩⟩
    · simp
    · simp
    · exact run.childKind
  intro ev hev
  simp only [List.nil_append, List.mem_append] at hev
  rcases hev with (h | h) | h
  · rw [ks ev h]; decide
  · rw [kl ev h]; decide
  · rw [kd ev h]; decide

section
variable {σ : Type}

/-- C12: when the exporter a pass holds, after the defaults check, has an empty config
document, the pass issues no call about the ConfigMap: no owner reference attachment, fetch,
create or update; and every Deployment generated for such an exporter ends its argument list
with `-f` and the default config path, and has no other volumes and container mounts than
those of the extra volumes of the pod options. -/
theorem config_optional (api : Api) (c : Client σ) (req : NamespacedName) (s : σ)
    (fetched : SolrPrometheusExporter)
    (hget : (c.getSolrPrometheusExporter req s).1 = .ok fetched)
    (hconfig : (api.WithDefaults fetched).1.Spec.Config = "") :
    (∀ ev ∈ (Reconcile api c req s).calls, ev.kind ≠ Kind.ConfigMap) ∧
      ∀ info d,
        GenerateSolrPrometheusExporterDeployment api (api.WithDefaults fetched).1 info = .ok d →
        (∃ args, (exporterContainer d).map Container.Args = some
          (args ++
            ["-f", "/opt/solr/contrib/prometheus-exporter/conf/solr-exporter-config.xml"])) ∧
        d.Spec.Template.Spec.Volumes = customVolumes (api.WithDefaults fetched).1 ∧
        (exporterContainer d).map Container.VolumeMounts
          = some (customVolumeMounts (api.WithDefaults fetched).1) := by
  constructor
  · cases hchanged : (api.WithDefaults fetched).2 with
    | true =>
      obtain ⟨hc, _⟩ := Reconcile_defaulted api c req s fetched hget hchanged
      rw [hc]
      intro ev hev
      simp only [List.mem_cons, List.mem_singleton, List.not_mem_nil, or_false] at hev
      rcases hev with rfl | rfl <;> simp [Event.kind, Obj.kind]
    | false =>
      have hrun := convergeChildren_run api c (api.WithDefaults fetched).1
        (c.getSolrPrometheusExporter req s).2
      have hno := hrun.no_configMap_call hconfig
      cases hconv : (convergeChildren api c (api.WithDefaults fetched).1
        (c.getSolrPrometheusExporter req s).2).val with
      | error h =>
        obtain ⟨hc, _⟩ := Reconcile_stopped api c req s fetched h hget hchanged hconv
        rw [hc]
        intro ev hev
        rcases List.mem_cons.mp hev with rfl | hev
        · simp [Event.kind]
        · exact hno ev hev
      | ok ready =>
        obtain ⟨hc, _⟩ := Reconcile_status api c req s fetched ready hget hchanged hconv
        rw [hc]
        intro ev hev
        simp only [List.cons_append, List.mem_cons, List.mem_append] at hev
        rcases hev with rfl | hev | hev
        · simp [Event.kind]
        · exact hno ev hev
        · split_ifs at hev
          · simp only [List.mem_singleton] at hev
            subst hev
            simp [Event.kind, Obj.kind]
          · cases hev
  · intro info d hd
    obtain ⟨vm, sv, hp, hvol, hmounts, hargs, _⟩ :=
      generated_exporterContainer api (api.WithDefaults fetched).1 info d hd
    have hpv := podVolumes_eq api _ _ hp
    have hcv : configVolumes api (api.WithDefaults fetched).1 = [] := by
      simp [configVolumes, hconfig]
    have hcm : configVolumeMounts (api.WithDefaults fetched).1 = [] := by
      simp [configVolumeMounts, hconfig]
    rw [hcv, hcm] at hpv
    simp only [List.nil_append, Prod.mk.injEq] at hpv
    refine ⟨?_, ?_, ?_⟩
    · rw [hargs]
      unfold exporterArgs
      simp only [hconfig, ne_eq, not_true_eq_false, if_false]
      exact ⟨_, rfl⟩
    · rw [hvol, hpv.2]
    · rw [hmounts, hpv.1]
end

/-- C12 on the sample cluster: the sample exporter has no config document. -/
theorem config_optional_witness :
    (∀ ev ∈ (Reconcile sampleApi clusterClient sampleRequest sampleCluster).calls,
        ev.kind ≠ Kind.ConfigMap) ∧
      ∀ info d,
        GenerateSolrPrometheusExporterDeployment sampleApi
          (sampleApi.WithDefaults sampleExporter).1 info = .ok d →
        (∃ args, (exporterContainer d).map Container.Args = some
          (args ++
            ["-f", "/opt/solr/contrib/prometheus-exporter/conf/solr-exporter-config.xml"])) ∧
        d.Spec.Template.Spec.Volumes = customVolumes (sampleApi.WithDefaults sampleExporter).1 ∧
        (exporterContainer d).map Container.VolumeMounts
          = some (customVolumeMounts (sampleApi.WithDefaults sampleExporter).1) :=
  config_optional sampleApi clusterClient sampleRequest sampleCluster sampleExporter rfl rfl

/-! ## Owner references and fetches, call by call -/

section
variable {σ : Type}

/-- The owner reference attachment keeps the kind of the object. -/
theorem attach_kind (c : Client σ) (owner : SolrPrometheusExporter) (g d : Obj)
    (h : attach c owner g = .ok d) : d.kind = g.kind := by
  cases g with
  | configMap o =>
    simp only [attach] at h
    cases hm : c.SetControllerReference owner o.ObjectMeta with
    | error err => rw [hm] at h; cases h
    | ok m => rw [hm] at h; cases h; rfl
  | service o =>
    simp only [attach] at h
    cases hm : c.SetControllerReference owner o.ObjectMeta with
    | error err => rw [hm] at h; cases h
    | ok m => rw [hm] at h; cases h; rfl
  | deployment o =>
    simp only [attach] at h
    cases hm : c.SetControllerReference (withDefaultContainerMountNames owner) o.ObjectMeta with
    | error err => rw [hm] at h; cases h
    | ok m => rw [hm] at h; cases h; rfl
  | exporter o => cases h; rfl
  | solrCloud o => cases h; rfl

theorem Tied.empty (c : Client σ) (owner : SolrPrometheusExporter) : Tied c owner [] := by
  constructor
  · intro g a h
    cases h
  · intro k key answer h
    cases h

theorem Tied.concat {c : Client σ} {owner : SolrPrometheusExporter} {a b : List Event}
    (ha : Tied c owner a) (hb : Tied c owner b) : Tied c owner (a ++ b) := by
  constructor
  · intro g x h
    rcases List.mem_append.mp h with h | h
    · exact ha.1 g x h
    · exact hb.1 g x h
  · intro k key answer h hk
    rcases List.mem_append.mp h with h | h
    · obtain ⟨g, d, hm, hd, hkey⟩ := ha.2 k key answer h hk
      exact ⟨g, d, List.mem_append_left _ hm, hd, hkey⟩
    · obtain ⟨g, d, hm, hd, hkey⟩ := hb.2 k key answer h hk
      exact ⟨g, d, List.mem_append_right _ hm, hd, hkey⟩

/-- A stretch without owner reference attachment and without fetch of a child. -/
theorem Tied.of_plain (c : Client σ) (owner : SolrPrometheusExporter) (l : List Event)
    (h : ∀ ev ∈ l, ev.isWrite = true ∨ ∃ k key answer, ev = Event.get k key answer ∧
      k.isChild = false) : Tied c owner l := by
  constructor
  · intro g a hm
    rcases h _ hm with hw | ⟨_, _, _, he, _⟩
    · cases hw
    · cases he
  · intro k key answer hm hk
    rcases h _ hm with hw | ⟨_, _, _, he, hc⟩
    · cases hw
    · cases he
      rw [hk] at hc
      cases hc

/-- The convergence step of a child whose owner reference attachment failed. -/
theorem Tied.of_failed (c : Client σ) (owner : SolrPrometheusExporter) (g : Obj) (err : Err)
    (h : attach c owner g = .error err) :
    Tied c owner [Event.setControllerReference g (.error err)] := by
  constructor
  · intro g2 a hm
    simp only [List.mem_singleton, Event.setControllerReference.injEq] at hm
    obtain ⟨rfl, rfl⟩ := hm
    exact h.symm
  · intro k key answer hm
    simp at hm

/-- The convergence step of a child after its owner reference was attached: the fetch under the
name and namespace of the object returned, and then writes only. -/
theorem Tied.of_attached (c : Client σ) (owner : SolrPrometheusExporter) (g d : Obj) (k : Kind)
    (answer : Except Err Obj) (tail : List Event)
    (h : attach c owner g = .ok d) (hk : d.kind = k) (htail : ∀ ev ∈ tail, ev.isWrite = true) :
    Tied c owner
      (Event.setControllerReference g (.ok d) :: Event.get k d.key answer :: tail) := by
  constructor
  · intro g2 a hm
    simp only [List.mem_cons, Event.setControllerReference.injEq, reduceCtorEq, false_or] at hm
    rcases hm with ⟨rfl, rfl⟩ | hm
    · exact h.symm
    · cases htail _ hm
  · intro k2 key2 answer2 hm _
    simp only [List.mem_cons, reduceCtorEq, Event.get.injEq, false_or] at hm
    rcases hm with ⟨rfl, rfl, _⟩ | hm
    · exact ⟨g, d, List.mem_cons_self _ _, hk, rfl⟩
    · cases htail _ hm

/-- Sequencing keeps what holds of the calls of both stretches and of their concatenation. -/
theorem Pass.bind_calls {α β : Type} (P : List Event → Prop)
    (happ : ∀ a b, P a → P b → P (a ++ b)) (m : Pass σ α) (f : α → Pass σ β) (s : σ)
    (hm : P (m s).calls) (hf : ∀ a s2, P (f a s2).calls) : P (Pass.bind m f s).calls := by
  unfold Pass.bind
  cases (m s).val with
  | error h => exact hm
  | ok a => exact happ _ _ hm (hf a _)
end

section
variable {σ : Type}

/-- The calls of lines 83-102 hang together. -/
theorem configMapPhase_tied (api : Api) (c : Client σ) (e : SolrPrometheusExporter) (s : σ) :
    Tied c e (configMapPhase api c e s).calls := by
  simp only [configMapPhase, bind, Pass.bind, Pass.call, Pass.ret, Pass.halt, pure, Pass.pure,
    setControllerReference]
  cases hown : c.SetControllerReference e (GenerateMetricsConfigMap api e).ObjectMeta with
  | error err =>
    exact Tied.of_failed c e (Obj.configMap (GenerateMetricsConfigMap api e)) err
      (by simp only [attach, hown, Except.map])
  | ok m =>
    have hatt : attach c e (Obj.configMap (GenerateMetricsConfigMap api e))
        = .ok (Obj.configMap { GenerateMetricsConfigMap api e with ObjectMeta := m }) := by
      simp only [attach, hown, Except.map]
    simp only [Except.map, Pass.bind, Pass.call]
    cases hget : (c.getConfigMap { Namespace := m.Namespace, Name := m.Name } s).1 with
    | error err =>
      cases hnf : IsNotFound err with
      | false =>
        simp only [hnf, Pass.bind, Pass.pure, Pass.halt]
        exact Tied.of_attached c e _ _ _ _ [] hatt rfl (by simp)
      | true =>
        simp only [hnf, Pass.bind, Pass.pure, Pass.halt, Pass.call, if_true]
        cases hcreate : (c.createConfigMap
            { ObjectMeta := m, Data := (GenerateMetricsConfigMap api e).Data }
            (c.getConfigMap { Namespace := m.Namespace, Name := m.Name } s).2).1 with
        | none => exact Tied.of_attached c e _ _ _ _ [_] hatt rfl (by simp [Event.isWrite])
        | some err2 => exact Tied.of_attached c e _ _ _ _ [_] hatt rfl (by simp [Event.isWrite])
    | ok found =>
      cases hch : (api.CopyConfigMapFields
          { ObjectMeta := m, Data := (GenerateMetricsConfigMap api e).Data } found).2 with
      | false =>
        simp only [hch, Pass.bind, Pass.pure, Pass.halt]
        exact Tied.of_attached c e _ _ _ _ [] hatt rfl (by simp)
      | true =>
        simp only [hch, Pass.bind, Pass.pure, Pass.halt, Pass.call, if_true]
        cases hupd : (c.updateConfigMap
            (api.CopyConfigMapFields
              { ObjectMeta := m, Data := (GenerateMetricsConfigMap api e).Data } found).1
            (c.getConfigMap { Namespace := m.Namespace, Name := m.Name } s).2).1 with
        | none => exact Tied.of_attached c e _ _ _ _ [_] hatt rfl (by simp [Event.isWrite])
        | some err2 => exact Tied.of_attached c e _ _ _ _ [_] hatt rfl (by simp [Event.isWrite])

/-- The calls of lines 106-125 hang together. -/
theorem servicePhase_tied (api : Api) (c : Client σ) (e : SolrPrometheusExporter) (s : σ) :
    Tied c e (servicePhase api c e s).calls := by
  simp only [servicePhase, bind, Pass.bind, Pass.call, Pass.ret, Pass.halt, pure, Pass.pure,
    setControllerReference]
  cases hown : c.SetControllerReference e (GenerateSolrMetricsService api e).ObjectMeta with
  | error err =>
    exact Tied.of_failed c e (Obj.service (GenerateSolrMetricsService api e)) err
      (by simp only [attach, hown, Except.map])
  | ok m =>
    have hatt : attach c e (Obj.service (GenerateSolrMetricsService api e))
        = .ok (Obj.service { GenerateSolrMetricsService api e with ObjectMeta := m }) := by
      simp only [attach, hown, Except.map]
    simp only [Except.map, Pass.bind, Pass.call]
    cases hget : (c.getService { Namespace := m.Namespace, Name := m.Name } s).1 with
    | error err =>
      cases hnf : IsNotFound err with
      | false =>
        simp only [hnf, Pass.bind, Pass.pure, Pass.halt]
        exact Tied.of_attached c e _ _ _ _ [] hatt rfl (by simp)
      | true =>
        simp only [hnf, Pass.bind, Pass.pure, Pass.halt, Pass.call, if_true]
        cases hcreate : (c.createService
            { ObjectMeta := m, Spec := (GenerateSolrMetricsService api e).Spec }
            (c.getService { Namespace := m.Namespace, Name := m.Name } s).2).1 with
        | none => exact Tied.of_attached c e _ _ _ _ [_] hatt rfl (by simp [Event.isWrite])
        | some err2 => exact Tied.of_attached c e _ _ _ _ [_] hatt rfl (by simp [Event.isWrite])
    | ok found =>
      cases hch : (api.CopyServiceFields
          { ObjectMeta := m, Spec := (GenerateSolrMetricsService api e).Spec } found).2 with
      | false =>
        simp only [hch, Pass.bind, Pass.pure, Pass.halt]
        exact Tied.of_attached c e _ _ _ _ [] hatt rfl (by simp)
      | true =>
        simp only [hch, Pass.bind, Pass.pure, Pass.halt, Pass.call, if_true]
        cases hupd : (c.updateService
            (api.CopyServiceFields
              { ObjectMeta := m, Spec := (GenerateSolrMetricsService api e).Spec } found).1
            (c.getService { Namespace := m.Namespace, Name := m.Name } s).2).1 with
        | none => exact Tied.of_attached c e _ _ _ _ [_] hatt rfl (by simp [Event.isWrite])
        | some err2 => exact Tied.of_attached c e _ _ _ _ [_] hatt rfl (by simp [Event.isWrite])

/-- The calls of lines 133-155 hang together. -/
theorem deploymentPhase_tied (api : Api) (c : Client σ) (e : SolrPrometheusExporter)
    (info : SolrConnectionInfo) (s : σ) :
    Tied c e (deploymentPhase api c e info s).calls := by
  cases hg : GenerateSolrPrometheusExporterDeployment api e info with
  | error p =>
    rw [(deploymentPhase_panic api c e info p s hg).1]
    exact Tied.empty c e
  | ok d =>
    simp only [deploymentPhase, hg, bind, Pass.bind, Pass.call, Pass.ret, Pass.halt, pure,
      Pass.pure, setControllerReference]
    cases hown : c.SetControllerReference (withDefaultContainerMountNames e) d.ObjectMeta with
    | error err =>
      exact Tied.of_failed c e (Obj.deployment d) err (by simp only [attach, hown, Except.map])
    | ok m =>
      have hatt : attach c e (Obj.deployment d)
          = .ok (Obj.deployment { d with ObjectMeta := m }) := by
        simp only [attach, hown, Except.map]
      simp only [Except.map, Pass.bind, Pass.call]
      cases hget : (c.getDeployment { Namespace := m.Namespace, Name := m.Name } s).1 with
      | error err =>
        cases hnf : IsNotFound err with
        | false =>
          simp only [hnf, Pass.bind, Pass.pure, Pass.halt]
          exact Tied.of_attached c e _ _ _ _ [] hatt rfl (by simp)
        | true =>
          simp only [hnf, Pass.bind, Pass.pure, Pass.halt, Pass.call, if_true]
          cases hcreate : (c.createDeployment { d with ObjectMeta := m }
              (c.getDeployment { Namespace := m.Namespace, Name := m.Name } s).2).1 with
          | none => exact Tied.of_attached c e _ _ _ _ [_] hatt rfl (by simp [Event.isWrite])
          | some err2 =>
            exact Tied.of_attached c e _ _ _ _ [_] hatt rfl (by simp [Event.isWrite])
      | ok found =>
        cases hch : (api.CopyDeploymentFields { d with ObjectMeta := m } found).2 with
        | false =>
          simp only [hch, Pass.bind, Pass.pure, Pass.halt]
          exact Tied.of_attached c e _ _ _ _ [] hatt rfl (by simp)
        | true =>
          simp only [hch, Pass.bind, Pass.pure, Pass.halt, Pass.call, if_true]
          cases hupd : (c.updateDeployment (api.CopyDeploymentFields { d with ObjectMeta := m }
              found).1 (c.getDeployment { Namespace := m.Namespace, Name := m.Name } s).2).1 with
          | none => exact Tied.of_attached c e _ _ _ _ [_] hatt rfl (by simp [Event.isWrite])
          | some err2 =>
            exact Tied.of_attached c e _ _ _ _ [_] hatt rfl (by simp [Event.isWrite])

/-- `getSolrConnectionInfo` attaches no owner reference and fetches no child. -/
theorem getSolrConnectionInfo_tied (c : Client σ) (e owner : SolrPrometheusExporter) (s : σ) :
    Tied c owner (getSolrConnectionInfo c e s).calls := by
  obtain ⟨info, err, hrun, _⟩ := getSolrConnectionInfo_run c e s
  apply Tied.of_plain
  intro ev hev
  right
  generalize (getSolrConnectionInfo c e s).calls = l at hrun hev
  cases hrun with
  | noCloud _ => cases hev
  | inline _ _ _ _ => cases hev
  | unnamed _ _ _ _ => cases hev
  | found cloudRef solrCloud _ _ _ =>
    simp only [List.mem_singleton] at hev
    exact ⟨_, _, _, hev, rfl⟩
  | failed cloudRef err _ _ _ =>
    simp only [List.mem_singleton] at hev
    exact ⟨_, _, _, hev, rfl⟩
end

section
variable {σ : Type}

/-- The calls of lines 81-155 hang together. -/
theorem convergeChildren_tied (api : Api) (c : Client σ) (e : SolrPrometheusExporter) (s : σ) :
    Tied c e (convergeChildren api c e s).calls := by
  simp only [convergeChildren, bind, pure]
  have hrest : ∀ s1, Tied c e
      (Pass.bind (servicePhase api c e) (fun _ =>
        Pass.bind (getSolrConnectionInfo c e) (fun r =>
          match r.2 with
          | some err => Pass.ret {} (some err)
          | none => deploymentPhase api c e r.1)) s1).calls := by
    intro s1
    apply Pass.bind_calls (Tied c e) (fun _ _ => Tied.concat)
    · exact servicePhase_tied api c e s1
    · intro _ s2
      apply Pass.bind_calls (Tied c e) (fun _ _ => Tied.concat)
      · exact getSolrConnectionInfo_tied c e e s2
      · intro r s3
        obtain ⟨info, err⟩ := r
        cases err with
        | some x => exact Tied.empty c e
        | none => exact deploymentPhase_tied api c e info s3
  split_ifs
  · apply Pass.bind_calls (Tied c e) (fun _ _ => Tied.concat)
    · exact configMapPhase_tied api c e s
    · intro _ s1
      exact hrest s1
  · apply Pass.bind_calls (Tied c e) (fun _ _ => Tied.concat)
    · exact Tied.empty c e
    · intro _ s1
      exact hrest s1

/-- The calls of a pass hang together, for the exporter the pass holds after the defaults
check. -/
theorem Reconcile_tied (api : Api) (c : Client σ) (req : NamespacedName) (s : σ)
    (fetched : SolrPrometheusExporter)
    (hget : (c.getSolrPrometheusExporter req s).1 = .ok fetched) :
    Tied c (api.WithDefaults fetched).1 (Reconcile api c req s).calls := by
  have hhead : Tied c (api.WithDefaults fetched).1
      [Event.get Kind.SolrPrometheusExporter req (.ok (Obj.exporter fetched))] := by
    apply Tied.of_plain
    intro ev hev
    simp only [List.mem_singleton] at hev
    exact Or.inr ⟨_, _, _, hev, rfl⟩
  cases hchanged : (api.WithDefaults fetched).2 with
  | true =>
    obtain ⟨hc, _⟩ := Reconcile_defaulted api c req s fetched hget hchanged
    rw [hc]
    apply Tied.of_plain
    intro ev hev
    simp only [List.mem_cons, List.mem_singleton, List.not_mem_nil, or_false] at hev
    rcases hev with rfl | rfl
    · exact Or.inr ⟨_, _, _, rfl, rfl⟩
    · exact Or.inl rfl
  | false =>
    have ht := convergeChildren_tied api c (api.WithDefaults fetched).1
      (c.getSolrPrometheusExporter req s).2
    cases hconv : (convergeChildren api c (api.WithDefaults fetched).1
      (c.getSolrPrometheusExporter req s).2).val with
    | error h =>
      obtain ⟨hc, _⟩ := Reconcile_stopped api c req s fetched h hget hchanged hconv
      rw [hc]
      exact Tied.concat hhead ht
    | ok ready =>
      obtain ⟨hc, _⟩ := Reconcile_status api c req s fetched ready hget hchanged hconv
      rw [hc]
      refine Tied.concat (Tied.concat hhead ht) ?_
      apply Tied.of_plain
      intro ev hev
      split_ifs at hev
      · simp only [List.mem_singleton] at hev
        subst hev
        exact Or.inl rfl
      · cases hev
end

/-! ## Owner linkage -/

theorem CreatesOwned.of_no_create (l : List Event)
    (h : ∀ ev ∈ l, ∀ o answer, ev ≠ Event.create o answer) : CreatesOwned l := by
  intro pre post o answer hl
  exact absurd rfl (h (Event.create o answer) (by rw [hl]; simp) o answer)

theorem CreatesOwned.both {a b : List Event} (ha : CreatesOwned a) (hb : CreatesOwned b) :
    CreatesOwned (a ++ b) := by
  intro pre post o answer hl
  rcases List.append_eq_append_iff.mp hl with ⟨m, hpre, hb2⟩ | ⟨m, ha2, hm⟩
  · obtain ⟨g, hg⟩ := hb m post o answer hb2
    exact ⟨g, by rw [hpre]; exact List.mem_append_right _ hg⟩
  · cases m with
    | nil =>
      simp only [List.nil_append] at hm
      obtain ⟨g, hg⟩ := hb [] post o answer hm.symm
      cases hg
    | cons x rest =>
      simp only [List.cons_append, List.cons.injEq] at hm
      obtain ⟨rfl, _⟩ := hm
      exact ha pre rest o answer ha2

/-- In the convergence step of a child the create call, if any, is issued on the object that
the owner reference attachment returned. -/
theorem ChildRun.childCreatesOwned {api : Api} {generated : Obj} {l : List Event} {err : Option Err}
    {ready : Bool} (run : ChildRun api generated l err ready) : CreatesOwned l := by
  cases run with
  | ownerFailed err => exact CreatesOwned.of_no_create _ (by simp)
  | fetchFailed desired key err hkind hnf => exact CreatesOwned.of_no_create _ (by simp)
  | created desired key err answer hkind hnf =>
    intro pre post o answer2 hl
    rcases pre with _ | ⟨p1, _ | ⟨p2, _ | ⟨p3, rest⟩⟩⟩
    · simp at hl
    · simp at hl
    · simp only [List.cons_append, List.nil_append, List.cons.injEq, Event.create.injEq] at hl
      obtain ⟨rfl, rfl, ⟨rfl, _⟩, _⟩ := hl
      exact ⟨generated, by simp⟩
    · simp at hl
  | updated desired key observed answer hkind hobs hchanged =>
    exact CreatesOwned.of_no_create _ (by simp)
  | unchanged desired key observed hkind hobs hchanged =>
    exact CreatesOwned.of_no_create _ (by simp)

/-- `getSolrConnectionInfo` issues fetches only. -/
theorem LookupRun.lookupGets {e : SolrPrometheusExporter} {l : List Event}
    {info : SolrConnectionInfo} {err : Option Err} (run : LookupRun e l info err) :
    ∀ ev ∈ l, ∃ key answer, ev = Event.get Kind.SolrCloud key answer := by
  cases run <;> simp

/-- In lines 81-155 every create call is issued on the object that an earlier owner reference
attachment returned. -/
theorem ConvergeRun.convergeCreatesOwned {api : Api} {e : SolrPrometheusExporter} {l : List Event}
    {v : Except Halt Bool} (run : ConvergeRun api e l v) : CreatesOwned l := by
  obtain ⟨lc, ls, ll, ld, rfl, hc, hs, hl⟩ := run.phases
  have oc : CreatesOwned lc := by
    rcases hc with ⟨_, rfl⟩ | ⟨_, _, _, run⟩
    · exact CreatesOwned.of_no_create _ (by simp)
    · exact run.childCreatesOwned
  have os : CreatesOwned ls := by
    rcases hs with rfl | ⟨_, _, run⟩
    · exact CreatesOwned.of_no_create _ (by simp)
    · exact run.childCreatesOwned
  have ol : CreatesOwned ll := by
    rcases hl with ⟨rfl, _⟩ | ⟨_, _, run, _⟩
    · exact CreatesOwned.of_no_create _ (by simp)
    · apply CreatesOwned.of_no_create
      intro ev hev o answer h
      obtain ⟨_, _, h2⟩ := run.lookupGets ev hev
      rw [h2] at h
      cases h
  have od : CreatesOwned ld := by
    rcases hl with ⟨_, rfl⟩ | ⟨_, _, _, rfl | ⟨_, _, _, _, _, run⟩⟩
    · exact CreatesOwned.of_no_create _ (by simp)
    · exact CreatesOwned.of_no_create _ (by simp)
    · exact run.childCreatesOwned
  exact ((oc.both os).both ol).both od

/-- The only run of the convergence step of a child with a failed owner reference attachment:
that attachment and nothing else, the step ending the pass with the error of the attachment. -/
theorem ChildRun.owner_failed_inv {api : Api} {generated : Obj} {l : List Event}
    {x : Option Err} {ready : Bool} (run : ChildRun api generated l x ready) (g : Obj) (err : Err)
    (h : Event.setControllerReference g (.error err) ∈ l) :
    g = generated ∧ l = [Event.setControllerReference generated (.error err)] ∧ x = some err := by
  cases run with
  | ownerFailed err2 =>
    simp only [List.mem_singleton, Event.setControllerReference.injEq, Except.error.injEq] at h
    obtain ⟨rfl, rfl⟩ := h
    exact ⟨rfl, rfl, rfl⟩
  | fetchFailed desired key err2 hkind hnf => simp at h
  | created desired key err2 answer hkind hnf => simp at h
  | updated desired key observed answer hkind hobs hchanged => simp at h
  | unchanged desired key observed hkind hobs hchanged => simp at h

/-- In lines 81-155 a failed owner reference attachment ends the pass with its error, and it is
the only call about the child it was meant for. -/
theorem ConvergeRun.owner_failed {api : Api} {e : SolrPrometheusExporter} {l : List Event}
    {v : Except Halt Bool} (run : ConvergeRun api e l v) (g : Obj) (err : Err)
    (h : Event.setControllerReference g (.error err) ∈ l) :
    v = .error (Halt.returned {} (some err)) ∧
      ∀ ev ∈ l, ev.kind = g.kind → ev = Event.setControllerReference g (.error err) := by
  have hcfg : ∀ lc, ConfigRun api e lc → Event.setControllerReference g (.error err) ∉ lc := by
    intro lc hc hm
    cases hc with
    | skipped _ => cases hm
    | converged _ _ _ run =>
      have := (run.owner_failed_inv g err hm).2.2
      cases this
  have hlk : ∀ ll info x, LookupRun e ll info x →
      Event.setControllerReference g (.error err) ∉ ll := by
    intro ll info x hl hm
    obtain ⟨_, _, h2⟩ := hl.lookupGets _ hm
    cases h2
  have hnone : ∀ g0 ls r, ChildRun api g0 ls none r →
      Event.setControllerReference g (.error err) ∉ ls := by
    intro g0 ls r run hm
    have := (run.owner_failed_inv g err hm).2.2
    cases this
  cases run with
  | configMapStopped lc x ready hconfig run =>
    obtain ⟨rfl, rfl, hx⟩ := run.owner_failed_inv g err h
    cases hx
    refine ⟨rfl, ?_⟩
    intro ev hev _
    simpa using hev
  | serviceStopped lc ls x ready hc run =>
    rcases List.mem_append.mp h with h | h
    · exact absurd h (hcfg lc hc)
    · obtain ⟨rfl, rfl, hx⟩ := run.owner_failed_inv g err h
      cases hx
      refine ⟨rfl, ?_⟩
      intro ev hev hk
      rcases List.mem_append.mp hev with hev | hev
      · rw [hc.configKind ev hev] at hk
        cases hk
      · simpa using hev
  | lookupFailed lc ls ll ready info x hc hs hl =>
    simp only [List.mem_append] at h
    rcases h with (h | h) | h
    · exact absurd h (hcfg lc hc)
    · exact absurd h (hnone _ ls _ hs)
    · exact absurd h (hlk ll _ _ hl)
  | generatorPanicked lc ls ll ready info p hc hs hl hg =>
    simp only [List.mem_append] at h
    rcases h with (h | h) | h
    · exact absurd h (hcfg lc hc)
    · exact absurd h (hnone _ ls _ hs)
    · exact absurd h (hlk ll _ _ hl)
  | deploymentStopped lc ls ll ld ready info d x ready2 hc hs hl hg hd =>
    simp only [List.mem_append] at h
    rcases h with ((h | h) | h) | h
    · exact absurd h (hcfg lc hc)
    · exact absurd h (hnone _ ls _ hs)
    · exact absurd h (hlk ll _ _ hl)
    · obtain ⟨rfl, rfl, hx⟩ := hd.owner_failed_inv g err h
      cases hx
      refine ⟨rfl, ?_⟩
      intro ev hev hk
      simp only [List.mem_append] at hev
      rcases hev with ((hev | hev) | hev) | hev
      · rw [hc.configKind ev hev] at hk
        cases hk
      · rw [hs.childKind ev hev] at hk
        cases hk
      · rw [hl.lookupKind ev hev] at hk
        cases hk
      · simpa using hev
  | converged lc ls ll ld ready info d ready2 hc hs hl hg hd =>
    simp only [List.mem_append] at h
    rcases h with ((h | h) | h) | h
    · exact absurd h (hcfg lc hc)
    · exact absurd h (hnone _ ls _ hs)
    · exact absurd h (hlk ll _ _ hl)
    · exact absurd h (hnone _ ld _ hd)

section
variable {σ : Type}

/-- C20: in every pass, every create call is issued on a child object that the answer to an
earlier owner reference attachment of the same pass carried, that answer being the one of
`SetControllerReference` for the exporter the pass fetched, after the defaults check; and when
the owner reference attachment of a child fails, the pass returns the error of the attachment
and issues no other call about that child: no fetch, no create, no update. -/
theorem create_follows_owner_reference (api : Api) (c : Client σ) (req : NamespacedName)
    (s : σ) :
    (∀ pre post o answer,
        (Reconcile api c req s).calls = pre ++ Event.create o answer :: post →
        ∃ fetched generated,
          (c.getSolrPrometheusExporter req s).1 = .ok fetched ∧
          Event.setControllerReference generated (.ok o) ∈ pre ∧
          attach c (api.WithDefaults fetched).1 generated = .ok o ∧
          o.kind.isChild = true) ∧
      (∀ generated err,
        Event.setControllerReference generated (.error err) ∈ (Reconcile api c req s).calls →
        (Reconcile api c req s).ret = Halt.returned {} (some err) ∧
        ∀ ev ∈ (Reconcile api c req s).calls, ev.kind = generated.kind →
          ev = Event.setControllerReference generated (.error err)) := by
  cases hget : (c.getSolrPrometheusExporter req s).1 with
  | error x =>
    obtain ⟨hc, _⟩ := Reconcile_parent_error api c req s x hget
    rw [hc]
    constructor
    · intro pre post o answer hl
      have : Event.create o answer ∈
          [Event.get Kind.SolrPrometheusExporter req (.error x)] := by rw [hl]; simp
      simp at this
    · intro generated err hm
      simp at hm
  | ok fetched =>
    have htied := Reconcile_tied api c req s fetched hget
    have hhead : CreatesOwned
        [Event.get Kind.SolrPrometheusExporter req (.ok (Obj.exporter fetched))] :=
      CreatesOwned.of_no_create _ (by simp)
    have finish : CreatesOwned (Reconcile api c req s).calls →
        (∀ ev ∈ (Reconcile api c req s).calls, ∀ o answer, ev = Event.create o answer →
          o.kind.isChild = true) →
        ∀ pre post o answer,
          (Reconcile api c req s).calls = pre ++ Event.create o answer :: post →
          ∃ fetched2 generated,
            (Except.ok fetched : Except Err SolrPrometheusExporter) = Except.ok fetched2 ∧
            Event.setControllerReference generated (.ok o) ∈ pre ∧
            attach c (api.WithDefaults fetched2).1 generated = .ok o ∧
            o.kind.isChild = true := by
      intro howned hchild pre post o answer hl
      obtain ⟨g, hg⟩ := howned pre post o answer hl
      have hmem : Event.setControllerReference g (.ok o) ∈ (Reconcile api c req s).calls := by
        rw [hl]
        exact List.mem_append_left _ hg
      refine ⟨fetched, g, rfl, hg, (htied.1 g _ hmem).symm, ?_⟩
      exact hchild (Event.create o answer) (by rw [hl]; simp) o answer rfl
    cases hchanged : (api.WithDefaults fetched).2 with
    | true =>
      obtain ⟨hc, _⟩ := Reconcile_defaulted api c req s fetched hget hchanged
      constructor
      · apply finish
        · rw [hc]
          exact CreatesOwned.of_no_create _ (by simp)
        · rw [hc]
          intro ev hev o answer he
          subst he
          simp at hev
      · intro generated err hm
        rw [hc] at hm
        simp at hm
    | false =>
      have hrun := convergeChildren_run api c (api.WithDefaults fetched).1
        (c.getSolrPrometheusExporter req s).2
      have hkinds := hrun.no_parent_call.1
      have hchildren : ∀ ev ∈ (convergeChildren api c (api.WithDefaults fetched).1
          (c.getSolrPrometheusExporter req s).2).calls, ∀ o answer,
          ev = Event.create o answer → o.kind.isChild = true := by
        intro ev hev o answer he
        subst he
        obtain ⟨lc, ls, ll, ld, hl, hc, hs, hlk⟩ := hrun.phases
        rw [hl] at hev
        simp only [List.mem_append] at hev
        rcases hev with ((h | h) | h) | h
        · rcases hc with ⟨_, rfl⟩ | ⟨_, _, _, run⟩
          · cases h
          · have := run.childKind _ h
            simp only [Event.kind] at this
            rw [this]
            rfl
        · rcases hs with rfl | ⟨_, _, run⟩
          · cases h
          · have := run.childKind _ h
            simp only [Event.kind] at this
            rw [this]
            rfl
        · rcases hlk with ⟨rfl, _⟩ | ⟨_, _, run, _⟩
          · cases h
          · obtain ⟨_, _, h2⟩ := run.lookupGets _ h
            cases h2
        · rcases hlk with ⟨_, rfl⟩ | ⟨_, _, _, rfl | ⟨_, _, _, _, _, run⟩⟩
          · cases h
          · cases h
          · have := run.childKind _ h
            simp only [Event.kind] at this
            rw [this]
            rfl
      cases hconv : (convergeChildren api c (api.WithDefaults fetched).1
        (c.getSolrPrometheusExporter req s).2).val with
      | error h =>
        obtain ⟨hc, hr⟩ := Reconcile_stopped api c req s fetched h hget hchanged hconv
        constructor
        · apply finish
          · rw [hc]
            exact CreatesOwned.both hhead hrun.convergeCreatesOwned
          · rw [hc]
            intro ev hev o answer he
            rcases List.mem_cons.mp hev with rfl | hev
            · cases he
            · exact hchildren ev hev o answer he
        · intro generated err hm
          rw [hc] at hm ⊢
          rw [hr]
          rcases List.mem_cons.mp hm with hm | hm
          · cases hm
          · obtain ⟨hv, honly⟩ := hrun.owner_failed generated err hm
            rw [hconv] at hv
            cases hv
            refine ⟨rfl, ?_⟩
            intro ev hev hk
            rcases List.mem_cons.mp hev with rfl | hev
            · have := hkinds _ hm
              simp only [Event.kind] at this hk
              exact absurd hk.symm this
            · exact honly ev hev hk
      | ok ready =>
        obtain ⟨hc, hr⟩ := Reconcile_status api c req s fetched ready hget hchanged hconv
        constructor
        · apply finish
          · rw [hc]
            refine CreatesOwned.both (CreatesOwned.both hhead hrun.convergeCreatesOwned) ?_
            apply CreatesOwned.of_no_create
            intro ev hev o answer he
            split_ifs at hev
            · simp only [List.mem_singleton] at hev
              rw [hev] at he
              cases he
            · cases hev
          · rw [hc]
            intro ev hev o answer he
            simp only [List.cons_append, List.mem_cons, List.mem_append] at hev
            rcases hev with rfl | hev | hev
            · cases he
            · exact hchildren ev hev o answer he
            · split_ifs at hev
              · simp only [List.mem_singleton] at hev
                rw [hev] at he
                cases he
              · cases hev
        · intro generated err hm
          rw [hc] at hm
          simp only [List.cons_append, List.mem_cons, List.mem_append] at hm
          rcases hm with hm | hm | hm
          · cases hm
          · have hv := (hrun.owner_failed generated err hm).1
            rw [hconv] at hv
            cases hv
          · split_ifs at hm
            · simp at hm
            · cases hm
end

/-- C20 on the sample cluster: the fourth call of the pass creates the Service, on the object
that the owner reference attachment, the second call, returned. -/
theorem create_follows_owner_reference_witness :
    ∃ fetched generated,
      (clusterClient.getSolrPrometheusExporter sampleRequest sampleCluster).1 = .ok fetched ∧
      Event.setControllerReference generated (.ok (Obj.service sampleOwnedService))
        ∈ (Reconcile sampleApi clusterClient sampleRequest sampleCluster).calls.take 3 ∧
      attach clusterClient (sampleApi.WithDefaults fetched).1 generated
        = .ok (Obj.service sampleOwnedService) ∧
      (Obj.service sampleOwnedService).kind.isChild = true :=
  (create_follows_owner_reference sampleApi clusterClient sampleRequest sampleCluster).1
    ((Reconcile sampleApi clusterClient sampleRequest sampleCluster).calls.take 3)
    ((Reconcile sampleApi clusterClient sampleRequest sampleCluster).calls.drop 4)
    (Obj.service sampleOwnedService) none rfl

/-! ## A second pass -/

/-- The objects written by two stretches, one after the other. -/
theorem writtenOf_append (k : Kind) (a b : List Event) :
    writtenOf k (a ++ b) = writtenOf k a ++ writtenOf k b := by
  induction a with
  | nil => rfl
  | cons ev rest ih =>
    cases ev with
    | create o answer =>
      cases answer <;> simp [writtenOf, ih]
      split_ifs <;> simp
    | update o answer =>
      cases answer <;> simp [writtenOf, ih]
      split_ifs <;> simp
    | get _ _ _ => simp [writtenOf, ih]
    | statusUpdate _ _ => simp [writtenOf, ih]
    | setControllerReference _ _ => simp [writtenOf, ih]

/-- A stretch without create or update call about kind `k` wrote no object of kind `k`. -/
theorem writtenOf_foreign (k : Kind) (l : List Event)
    (h : ∀ ev ∈ l, ev.kind = k → ∀ o answer, ev ≠ Event.create o answer ∧
      ev ≠ Event.update o answer) : writtenOf k l = [] := by
  induction l with
  | nil => rfl
  | cons ev rest ih =>
    have hrest := ih (fun x hx => h x (List.mem_cons_of_mem _ hx))
    have hev := h ev (List.mem_cons_self _ _)
    cases ev with
    | create o answer =>
      have hk : o.kind ≠ k := fun hk => (hev hk o answer).1 rfl
      cases answer <;> simp only [writtenOf, hrest, hk, if_false]
    | update o answer =>
      have hk : o.kind ≠ k := fun hk => (hev hk o answer).2 rfl
      cases answer <;> simp only [writtenOf, hrest, hk, if_false]
    | get _ _ _ => simp only [writtenOf, hrest]
    | statusUpdate _ _ => simp only [writtenOf, hrest]
    | setControllerReference _ _ => simp only [writtenOf, hrest]

/-- A stretch without write issues no create and no update call. -/
theorem no_write_no_create_or_update (k : Kind) (l : List Event)
    (h : ∀ ev ∈ l, ev.isWrite = false ∨ ∃ o answer, ev = Event.statusUpdate o answer) :
    createdOf k l = [] ∧ updatedOf k l = [] := by
  induction l with
  | nil => exact ⟨rfl, rfl⟩
  | cons ev rest ih =>
    obtain ⟨h1, h2⟩ := ih (fun x hx => h x (List.mem_cons_of_mem _ hx))
    have hev := h ev (List.mem_cons_self _ _)
    cases ev with
    | create o answer =>
      rcases hev with hev | ⟨_, _, hev⟩ <;> cases hev
    | update o answer =>
      rcases hev with hev | ⟨_, _, hev⟩ <;> cases hev
    | get _ _ _ => exact ⟨h1, h2⟩
    | statusUpdate _ _ => exact ⟨h1, h2⟩
    | setControllerReference _ _ => exact ⟨h1, h2⟩

/-- In the convergence step of a child every owner reference attachment is the one of the
generated object. -/
theorem ChildRun.attached_on {api : Api} {generated : Obj} {l : List Event} {x : Option Err}
    {ready : Bool} (run : ChildRun api generated l x ready) (g : Obj) (a : Except Err Obj)
    (h : Event.setControllerReference g a ∈ l) : g = generated := by
  cases run <;> simp at h <;> exact h.1

/-- A child that a pass has converged is left alone by a pass that finds it as the first pass
left it and attaches the same owner reference: the second pass issues no create and no update
call for it. -/
theorem ChildRun.childSettled {api : Api} {g : Obj} {l1 l2 : List Event} {r1 r2 : Bool}
    {x2 : Option Err} (hcopy : CopySettles api)
    (run1 : ChildRun api g l1 none r1) (run2 : ChildRun api g l2 x2 r2)
    (hatt : ∀ d1 d2, Event.setControllerReference g (.ok d1) ∈ l1 →
      Event.setControllerReference g (.ok d2) ∈ l2 → d1 = d2)
    (hobs : ∀ key1 key2 a1 a2, Event.get g.kind key1 a1 ∈ l1 → Event.get g.kind key2 a2 ∈ l2 →
      a2 = leftOf g.kind l1 a1) :
    ∀ ev ∈ l2, ev.isWrite = false := by
  cases run2 with
  | ownerFailed err => simp [Event.isWrite]
  | fetchFailed desired key err hkind hnf => simp [Event.isWrite]
  | unchanged desired key observed hkind hobs2 hchanged => simp [Event.isWrite]
  | created desired2 key2 err2 answer2 hkind2 hnf2 =>
    exfalso
    cases run1 with
    | created desired1 key1 err1 answer1 hkind1 hnf1 =>
      have := hobs key1 key2 _ _ (List.mem_cons_of_mem _ (List.mem_cons_self _ _))
        (List.mem_cons_of_mem _ (List.mem_cons_self _ _))
      simp [leftOf, writtenOf, hkind1] at this
    | updated desired1 key1 observed1 answer1 hkind1 hobs1 hchanged1 =>
      have := hobs key1 key2 _ _ (List.mem_cons_of_mem _ (List.mem_cons_self _ _))
        (List.mem_cons_of_mem _ (List.mem_cons_self _ _))
      simp [leftOf, writtenOf, copyFields_kind, hobs1] at this
    | unchanged desired1 key1 observed1 hkind1 hobs1 hchanged1 =>
      have := hobs key1 key2 _ _ (List.mem_cons_of_mem _ (List.mem_cons_self _ _))
        (List.mem_cons_of_mem _ (List.mem_cons_self _ _))
      simp [leftOf, writtenOf] at this
  | updated desired2 key2 observed2 answer2 hkind2 hobs2 hchanged2 =>
    exfalso
    cases run1 with
    | created desired1 key1 err1 answer1 hkind1 hnf1 =>
      have h := hobs key1 key2 _ _ (List.mem_cons_of_mem _ (List.mem_cons_self _ _))
        (List.mem_cons_of_mem _ (List.mem_cons_self _ _))
      have hd := hatt desired1 desired2 (List.mem_cons_self _ _) (List.mem_cons_self _ _)
      simp only [leftOf, writtenOf, hkind1, if_true, List.getLast?_singleton,
        Except.ok.injEq] at h
      rw [h, ← hd, hcopy.1] at hchanged2
      cases hchanged2
    | updated desired1 key1 observed1 answer1 hkind1 hobs1 hchanged1 =>
      have h := hobs key1 key2 _ _ (List.mem_cons_of_mem _ (List.mem_cons_self _ _))
        (List.mem_cons_of_mem _ (List.mem_cons_self _ _))
      have hd := hatt desired1 desired2 (List.mem_cons_self _ _) (List.mem_cons_self _ _)
      simp only [leftOf, writtenOf, copyFields_kind, hobs1, if_true, List.getLast?_singleton,
        Except.ok.injEq] at h
      rw [h, ← hd, hcopy.2] at hchanged2
      cases hchanged2
    | unchanged desired1 key1 observed1 hkind1 hobs1 hchanged1 =>
      have h := hobs key1 key2 _ _ (List.mem_cons_of_mem _ (List.mem_cons_self _ _))
        (List.mem_cons_of_mem _ (List.mem_cons_self _ _))
      have hd := hatt desired1 desired2 (List.mem_cons_self _ _) (List.mem_cons_self _ _)
      simp only [leftOf, writtenOf, List.getLast?_nil, Except.ok.injEq] at h
      rw [h, ← hd, hchanged1] at hchanged2
      cases hchanged2

/-- The generated ConfigMap does not read the status of the exporter. -/
theorem GenerateMetricsConfigMap_status (api : Api) (hblind : StatusBlind api)
    (e : SolrPrometheusExporter) (st : SolrPrometheusExporterStatus) :
    GenerateMetricsConfigMap api { e with Status := st } = GenerateMetricsConfigMap api e := by
  simp only [GenerateMetricsConfigMap, SolrPrometheusExporter.GetLabels,
    SolrPrometheusExporter.GetNamespace, hblind.SharedLabelsWith, hblind.MetricsConfigMapName]

/-- The generated Service does not read the status of the exporter. -/
theorem GenerateSolrMetricsService_status (api : Api) (hblind : StatusBlind api)
    (e : SolrPrometheusExporter) (st : SolrPrometheusExporterStatus) :
    GenerateSolrMetricsService api { e with Status := st } = GenerateSolrMetricsService api e := by
  simp only [GenerateSolrMetricsService, SolrPrometheusExporter.GetLabels,
    SolrPrometheusExporter.GetNamespace, hblind.SharedLabelsWith, hblind.SharedLabels,
    hblind.MetricsServiceName]

/-- The volumes and mounts of the pod do not read the status of the exporter. -/
theorem podVolumes_status (api : Api) (hblind : StatusBlind api)
    (e : SolrPrometheusExporter) (st : SolrPrometheusExporterStatus) :
    podVolumes api { e with Status := st } = podVolumes api e := by
  simp only [podVolumes, configVolumes, configVolumeMounts, hblind.MetricsConfigMapName]

/-- The generated Deployment does not read the status of the exporter. -/
theorem GenerateSolrPrometheusExporterDeployment_status (api : Api) (hblind : StatusBlind api)
    (e : SolrPrometheusExporter) (st : SolrPrometheusExporterStatus)
    (info : SolrConnectionInfo) :
    GenerateSolrPrometheusExporterDeployment api { e with Status := st } info
      = GenerateSolrPrometheusExporterDeployment api e info := by
  have hargs : exporterArgs api { e with Status := st } info = exporterArgs api e info := rfl
  have henv : envVars api { e with Status := st } info = envVars api e info := rfl
  unfold GenerateSolrPrometheusExporterDeployment
  simp only [SolrPrometheusExporter.GetLabels, SolrPrometheusExporter.GetNamespace,
    hblind.SharedLabelsWith, hblind.SharedLabels, hblind.MetricsDeploymentName,
    podVolumes_status api hblind, hargs, henv]

/-- `getSolrConnectionInfo` does not read the status of the exporter. -/
theorem LookupRun.lookup_of_status {e : SolrPrometheusExporter} {st : SolrPrometheusExporterStatus}
    {l : List Event} {info : SolrConnectionInfo} {err : Option Err}
    (run : LookupRun { e with Status := st } l info err) : LookupRun e l info err := by
  cases run with
  | noCloud hcloud => exact LookupRun.noCloud hcloud
  | inline cloudRef zk hcloud hzk => exact LookupRun.inline cloudRef zk hcloud hzk
  | unnamed cloudRef hcloud hzk hname => exact LookupRun.unnamed cloudRef hcloud hzk hname
  | found cloudRef solrCloud hcloud hzk hname =>
    exact LookupRun.found cloudRef solrCloud hcloud hzk hname
  | failed cloudRef err hcloud hzk hname => exact LookupRun.failed cloudRef err hcloud hzk hname

/-- Lines 81-155 do not read the status of the exporter. -/
theorem ConvergeRun.converge_of_status {api : Api} (hblind : StatusBlind api)
    {e : SolrPrometheusExporter} {st : SolrPrometheusExporterStatus} {l : List Event}
    {v : Except Halt Bool} (run : ConvergeRun api { e with Status := st } l v) :
    ConvergeRun api e l v := by
  have hcfg : ∀ lc, ConfigRun api { e with Status := st } lc → ConfigRun api e lc := by
    intro lc hc
    cases hc with
    | skipped h => exact ConfigRun.skipped h
    | converged _ r h run =>
      rw [GenerateMetricsConfigMap_status api hblind] at run
      exact ConfigRun.converged _ r h run
  cases run with
  | configMapStopped lc err ready hconfig run =>
    rw [GenerateMetricsConfigMap_status api hblind] at run
    exact ConvergeRun.configMapStopped _ err ready hconfig run
  | serviceStopped lc ls err ready hc run =>
    rw [GenerateSolrMetricsService_status api hblind] at run
    exact ConvergeRun.serviceStopped lc ls err ready (hcfg lc hc) run
  | lookupFailed lc ls ll ready info err hc hs hl =>
    rw [GenerateSolrMetricsService_status api hblind] at hs
    exact ConvergeRun.lookupFailed lc ls ll ready info err (hcfg lc hc) hs hl.lookup_of_status
  | generatorPanicked lc ls ll ready info p hc hs hl hg =>
    rw [GenerateSolrMetricsService_status api hblind] at hs
    rw [GenerateSolrPrometheusExporterDeployment_status api hblind] at hg
    exact ConvergeRun.generatorPanicked lc ls ll ready info p (hcfg lc hc) hs hl.lookup_of_status hg
  | deploymentStopped lc ls ll ld ready info d err ready2 hc hs hl hg hd =>
    rw [GenerateSolrMetricsService_status api hblind] at hs
    rw [GenerateSolrPrometheusExporterDeployment_status api hblind] at hg
    exact ConvergeRun.deploymentStopped lc ls ll ld ready info d err ready2 (hcfg lc hc) hs
      hl.lookup_of_status hg hd
  | converged lc ls ll ld ready info d ready2 hc hs hl hg hd =>
    rw [GenerateSolrMetricsService_status api hblind] at hs
    rw [GenerateSolrPrometheusExporterDeployment_status api hblind] at hg
    exact ConvergeRun.converged lc ls ll ld ready info d ready2 (hcfg lc hc) hs hl.lookup_of_status hg hd

/-- The rename of line 143 leaves the metadata of the exporter alone. -/
theorem withDefaultContainerMountNames_meta (e : SolrPrometheusExporter) :
    (withDefaultContainerMountNames e).ObjectMeta = e.ObjectMeta := by
  unfold withDefaultContainerMountNames
  split <;> rfl

section
variable {σ : Type}

/-- The owner reference attachments of two exporters with the same metadata answer alike, for a
`SetControllerReference` that reads the metadata of the owner only. -/
theorem attach_of_meta (c : Client σ)
    (hown : ∀ o o2 m, o.ObjectMeta = o2.ObjectMeta →
      c.SetControllerReference o m = c.SetControllerReference o2 m)
    (e e2 : SolrPrometheusExporter) (hmeta : e.ObjectMeta = e2.ObjectMeta) (g : Obj) :
    attach c e g = attach c e2 g := by
  cases g with
  | configMap o => simp only [attach, hown e e2 _ hmeta]
  | service o => simp only [attach, hown e e2 _ hmeta]
  | deployment o =>
    simp only [attach]
    rw [hown (withDefaultContainerMountNames e) (withDefaultContainerMountNames e2) _
      (by rw [withDefaultContainerMountNames_meta, withDefaultContainerMountNames_meta, hmeta])]
  | exporter o => rfl
  | solrCloud o => rfl

/-- The calls of a pass hang together for any exporter with the metadata of the one it holds. -/
theorem Tied.of_meta {c : Client σ}
    (hown : ∀ o o2 m, o.ObjectMeta = o2.ObjectMeta →
      c.SetControllerReference o m = c.SetControllerReference o2 m)
    {e e2 : SolrPrometheusExporter} {l : List Event} (h : Tied c e l)
    (hmeta : e.ObjectMeta = e2.ObjectMeta) : Tied c e2 l := by
  refine ⟨fun g a hm => ?_, h.2⟩
  rw [← attach_of_meta c hown e e2 hmeta g]
  exact h.1 g a hm
end

/-- Two runs of `getSolrConnectionInfo` for one exporter whose fetches of the sibling were
answered alike return the same connection info. -/
theorem LookupRun.same_info {e : SolrPrometheusExporter} {l1 l2 : List Event}
    {info1 info2 : SolrConnectionInfo} {x1 x2 : Option Err}
    (run1 : LookupRun e l1 info1 x1) (run2 : LookupRun e l2 info2 x2)
    (hsame : ∀ key a1 a2, Event.get Kind.SolrCloud key a1 ∈ l1 →
      Event.get Kind.SolrCloud key a2 ∈ l2 → a2 = a1) :
    info1 = info2 := by
  cases run1 with
  | noCloud hcloud =>
    cases run2 with
    | noCloud _ => rfl
    | inline cloudRef zk h _ => rw [hcloud] at h; cases h
    | unnamed cloudRef h _ _ => rfl
    | found cloudRef solrCloud h _ _ => rw [hcloud] at h; cases h
    | failed cloudRef err h _ _ => rfl
  | inline cloudRef zk hcloud hzk =>
    cases run2 with
    | noCloud h => rw [hcloud] at h; cases h
    | inline cloudRef2 zk2 h hzk2 =>
      rw [hcloud] at h
      cases h
      rw [hzk] at hzk2
      cases hzk2
      rfl
    | unnamed cloudRef2 h hzk2 _ =>
      rw [hcloud] at h; cases h; rw [hzk] at hzk2; cases hzk2
    | found cloudRef2 solrCloud h hzk2 _ =>
      rw [hcloud] at h; cases h; rw [hzk] at hzk2; cases hzk2
    | failed cloudRef2 err h hzk2 _ =>
      rw [hcloud] at h; cases h; rw [hzk] at hzk2; cases hzk2
  | unnamed cloudRef hcloud hzk hname =>
    cases run2 with
    | noCloud h => rfl
    | inline cloudRef2 zk2 h hzk2 =>
      rw [hcloud] at h; cases h; rw [hzk] at hzk2; cases hzk2
    | unnamed cloudRef2 h hzk2 _ => rfl
    | found cloudRef2 solrCloud h hzk2 hname2 =>
      rw [hcloud] at h; cases h; exact absurd hname hname2
    | failed cloudRef2 err h hzk2 hname2 => rfl
  | found cloudRef solrCloud hcloud hzk hname =>
    cases run2 with
    | noCloud h => rw [hcloud] at h; cases h
    | inline cloudRef2 zk2 h hzk2 =>
      rw [hcloud] at h; cases h; rw [hzk] at hzk2; cases hzk2
    | unnamed cloudRef2 h hzk2 hname2 =>
      rw [hcloud] at h; cases h; exact absurd hname2 hname
    | found cloudRef2 solrCloud2 h hzk2 hname2 =>
      rw [hcloud] at h
      cases h
      have := hsame _ _ _ (List.mem_singleton_self _) (List.mem_singleton_self _)
      cases this
      rfl
    | failed cloudRef2 err h hzk2 hname2 =>
      rw [hcloud] at h
      cases h
      have := hsame _ _ _ (List.mem_singleton_self _) (List.mem_singleton_self _)
      cases this
  | failed cloudRef err hcloud hzk hname =>
    cases run2 with
    | noCloud h => rfl
    | inline cloudRef2 zk2 h hzk2 =>
      rw [hcloud] at h; cases h; rw [hzk] at hzk2; cases hzk2
    | unnamed cloudRef2 h hzk2 hname2 => rfl
    | found cloudRef2 solrCloud2 h hzk2 hname2 =>
      rw [hcloud] at h
      cases h
      have := hsame _ _ _ (List.mem_singleton_self _) (List.mem_singleton_self _)
      cases this
    | failed cloudRef2 err2 h hzk2 hname2 => rfl

/-- A stretch without event of kind `k` wrote no object of kind `k`. -/
theorem writtenOf_other (k : Kind) (l : List Event) (h : ∀ ev ∈ l, ev.kind ≠ k) :
    writtenOf k l = [] :=
  writtenOf_foreign k l (fun ev hev hk => absurd hk (h ev hev))

/-- Four consecutive stretches about the ConfigMap, the Service, the sibling SolrCloud and the
Deployment: the events of the whole about one of these kinds are those of its stretch, and so
are the objects written. -/
theorem segments_by_kind (lc ls ll ld : List Event)
    (kc : ∀ ev ∈ lc, ev.kind = Kind.ConfigMap) (ks : ∀ ev ∈ ls, ev.kind = Kind.Service)
    (kl : ∀ ev ∈ ll, ev.kind = Kind.SolrCloud) (kd : ∀ ev ∈ ld, ev.kind = Kind.Deployment) :
    (∀ ev ∈ lc ++ ls ++ ll ++ ld, ev.kind = Kind.ConfigMap → ev ∈ lc) ∧
      (∀ ev ∈ lc ++ ls ++ ll ++ ld, ev.kind = Kind.Service → ev ∈ ls) ∧
      (∀ ev ∈ lc ++ ls ++ ll ++ ld, ev.kind = Kind.SolrCloud → ev ∈ ll) ∧
      (∀ ev ∈ lc ++ ls ++ ll ++ ld, ev.kind = Kind.Deployment → ev ∈ ld) ∧
      writtenOf Kind.ConfigMap (lc ++ ls ++ ll ++ ld) = writtenOf Kind.ConfigMap lc ∧
      writtenOf Kind.Service (lc ++ ls ++ ll ++ ld) = writtenOf Kind.Service ls ∧
      writtenOf Kind.SolrCloud (lc ++ ls ++ ll ++ ld) = writtenOf Kind.SolrCloud ll ∧
      writtenOf Kind.Deployment (lc ++ ls ++ ll ++ ld) = writtenOf Kind.Deployment ld := by
  have mem : ∀ (k : Kind) (ev : Event), ev ∈ lc ++ ls ++ ll ++ ld → ev.kind = k →
      (k = Kind.ConfigMap ∧ ev ∈ lc) ∨ (k = Kind.Service ∧ ev ∈ ls) ∨
        (k = Kind.SolrCloud ∧ ev ∈ ll) ∨ (k = Kind.Deployment ∧ ev ∈ ld) := by
    intro k ev hev hk
    simp only [List.mem_append] at hev
    rcases hev with ((h | h) | h) | h
    · exact Or.inl ⟨by rw [← hk, kc ev h], h⟩
    · exact Or.inr (Or.inl ⟨by rw [← hk, ks ev h], h⟩)
    · exact Or.inr (Or.inr (Or.inl ⟨by rw [← hk, kl ev h], h⟩))
    · exact Or.inr (Or.inr (Or.inr ⟨by rw [← hk, kd ev h], h⟩))
  have oc : ∀ k, k ≠ Kind.ConfigMap → writtenOf k lc = [] := fun k hk =>
    writtenOf_other k lc (fun ev hev h => hk (by rw [← h, kc ev hev]))
  have os : ∀ k, k ≠ Kind.Service → writtenOf k ls = [] := fun k hk =>
    writtenOf_other k ls (fun ev hev h => hk (by rw [← h, ks ev hev]))
  have ol : ∀ k, k ≠ Kind.SolrCloud → writtenOf k ll = [] := fun k hk =>
    writtenOf_other k ll (fun ev hev h => hk (by rw [← h, kl ev hev]))
  have od : ∀ k, k ≠ Kind.Deployment → writtenOf k ld = [] := fun k hk =>
    writtenOf_other k ld (fun ev hev h => hk (by rw [← h, kd ev hev]))
  refine ⟨?_, ?_, ?_, ?_, ?_, ?_, ?_, ?_⟩
  · intro ev hev hk
    rcases mem _ ev hev hk with ⟨_, h⟩ | ⟨h, _⟩ | ⟨h, _⟩ | ⟨h, _⟩
    · exact h
    all_goals cases h
  · intro ev hev hk
    rcases mem _ ev hev hk with ⟨h, _⟩ | ⟨_, h⟩ | ⟨h, _⟩ | ⟨h, _⟩
    · cases h
    · exact h
    all_goals cases h
  · intro ev hev hk
    rcases mem _ ev hev hk with ⟨h, _⟩ | ⟨h, _⟩ | ⟨_, h⟩ | ⟨h, _⟩
    · cases h
    · cases h
    · exact h
    · cases h
  · intro ev hev hk
    rcases mem _ ev hev hk with ⟨h, _⟩ | ⟨h, _⟩ | ⟨h, _⟩ | ⟨_, h⟩
    · cases h
    · cases h
    · cases h
    · exact h
  · simp only [writtenOf_append, os Kind.ConfigMap (by decide), ol Kind.ConfigMap (by decide),
      od Kind.ConfigMap (by decide), List.append_nil]
  · simp only [writtenOf_append, oc Kind.Service (by decide), ol Kind.Service (by decide),
      od Kind.Service (by decide), List.append_nil, List.nil_append]
  · simp only [writtenOf_append, oc Kind.SolrCloud (by decide), os Kind.SolrCloud (by decide),
      od Kind.SolrCloud (by decide), List.append_nil, List.nil_append]
  · simp only [writtenOf_append, oc Kind.Deployment (by decide), os Kind.Deployment (by decide),
      ol Kind.Deployment (by decide), List.append_nil, List.nil_append]

section
variable {σ : Type}

/-- In a pass whose calls hang together, the fetch of a child in the stretch of that child asks
for the name and namespace of the generated object as the owner reference attachment returned
it. -/
theorem Tied.fetch_key {c : Client σ} {e : SolrPrometheusExporter} {api : Api} {g : Obj}
    {l seg : List Event} {x : Option Err} {r : Bool} (t : Tied c e l)
    (hchild : g.kind.isChild = true) (hin : ∀ ev ∈ seg, ev ∈ l)
    (hk : ∀ ev ∈ l, ev.kind = g.kind → ev ∈ seg) (run : ChildRun api g seg x r)
    (key : NamespacedName) (a : Except Err Obj) (h : Event.get g.kind key a ∈ seg) :
    ∃ d, attach c e g = .ok d ∧ key = d.key := by
  obtain ⟨g2, d, hm, hdk, hkey⟩ := t.2 g.kind key a (hin _ h) hchild
  have ha := t.1 g2 _ hm
  have hkk : g2.kind = g.kind := by rw [← attach_kind c e g2 d ha.symm, hdk]
  have hseg := hk _ hm hkk
  have hg := run.attached_on g2 _ hseg
  subst hg
  exact ⟨d, ha.symm, hkey⟩

/-- A child that a pass has converged is left alone by a later pass that holds the same
exporter and is answered by the cluster as the first pass left it. -/
theorem settled_segment {api : Api} {c : Client σ} {e : SolrPrometheusExporter}
    (hcopy : CopySettles api) {g : Obj} (hchild : g.kind.isChild = true)
    {l1 l2 seg1 seg2 : List Event} {r1 r2 : Bool} {x2 : Option Err}
    (hin1 : ∀ ev ∈ seg1, ev ∈ l1) (hin2 : ∀ ev ∈ seg2, ev ∈ l2)
    (hk1 : ∀ ev ∈ l1, ev.kind = g.kind → ev ∈ seg1)
    (hk2 : ∀ ev ∈ l2, ev.kind = g.kind → ev ∈ seg2)
    (hw : writtenOf g.kind l1 = writtenOf g.kind seg1)
    (run1 : ChildRun api g seg1 none r1) (run2 : ChildRun api g seg2 x2 r2)
    (t1 : Tied c e l1) (t2 : Tied c e l2)
    (hobs : ∀ k key a1 a2, k ≠ Kind.SolrPrometheusExporter → Event.get k key a1 ∈ l1 →
      Event.get k key a2 ∈ l2 → a2 = leftOf k l1 a1) :
    ∀ ev ∈ seg2, ev.isWrite = false := by
  have hne : g.kind ≠ Kind.SolrPrometheusExporter := by
    intro h
    rw [h] at hchild
    cases hchild
  apply ChildRun.childSettled hcopy run1 run2
  · intro d1 d2 h1 h2
    have a1 := t1.1 g _ (hin1 _ h1)
    have a2 := t2.1 g _ (hin2 _ h2)
    rw [← a2] at a1
    cases a1
    rfl
  · intro key1 key2 a1 a2 h1 h2
    obtain ⟨d1, hd1, hkey1⟩ := t1.fetch_key hchild hin1 hk1 run1 key1 a1 h1
    obtain ⟨d2, hd2, hkey2⟩ := t2.fetch_key hchild hin2 hk2 run2 key2 a2 h2
    rw [hd1] at hd2
    cases hd2
    rw [← hkey1] at hkey2
    subst hkey2
    have := hobs g.kind key2 a1 a2 hne (hin1 _ h1) (hin2 _ h2)
    rw [this]
    simp only [leftOf, hw]
end

section
variable {σ : Type}

/-- After a run of lines 81-155 that converged every child, a later run for the same exporter,
answered by the cluster as the first run left it, issues no create and no update call. -/
theorem ConvergeRun.convergeSettled {api : Api} {c : Client σ} {e : SolrPrometheusExporter}
    (hcopy : CopySettles api) {l1 l2 : List Event} {ready1 : Bool} {v2 : Except Halt Bool}
    (run1 : ConvergeRun api e l1 (.ok ready1)) (run2 : ConvergeRun api e l2 v2)
    (t1 : Tied c e l1) (t2 : Tied c e l2)
    (hobs : ∀ k key a1 a2, k ≠ Kind.SolrPrometheusExporter → Event.get k key a1 ∈ l1 →
      Event.get k key a2 ∈ l2 → a2 = leftOf k l1 a1) :
    ∀ ev ∈ l2, ev.isWrite = false := by
  obtain ⟨lc2, ls2, ll2, ld2, rfl, hc2, hs2, hlk2⟩ := run2.phases
  cases run1 with
  | converged lc1 ls1 ll1 ld1 r info1 d1 r2 hc1 hs1 hl1 hg1 hd1 =>
    have kc1 := hc1.configKind
    have ks1 : ∀ ev ∈ ls1, ev.kind = Kind.Service := hs1.childKind
    have kl1 := hl1.lookupKind
    have kd1 : ∀ ev ∈ ld1, ev.kind = Kind.Deployment := hd1.childKind
    have kc2 : ∀ ev ∈ lc2, ev.kind = Kind.ConfigMap := by
      rcases hc2 with ⟨_, rfl⟩ | ⟨_, _, _, run⟩
      · simp
      · exact run.childKind
    have ks2 : ∀ ev ∈ ls2, ev.kind = Kind.Service := by
      rcases hs2 with rfl | ⟨_, _, run⟩
      · simp
      · exact run.childKind
    have kl2 : ∀ ev ∈ ll2, ev.kind = Kind.SolrCloud := by
      rcases hlk2 with ⟨rfl, _⟩ | ⟨_, _, run, _⟩
      · simp
      · exact run.lookupKind
    have kd2 : ∀ ev ∈ ld2, ev.kind = Kind.Deployment := by
      rcases hlk2 with ⟨_, rfl⟩ | ⟨_, _, _, rfl | ⟨_, _, _, _, _, run⟩⟩
      · simp
      · simp
      · exact run.childKind
    obtain ⟨mc1, ms1, _, md1, wc1, ws1, wl1, wd1⟩ :=
      segments_by_kind lc1 ls1 ll1 ld1 kc1 ks1 kl1 kd1
    obtain ⟨mc2, ms2, _, md2, _, _, _, _⟩ := segments_by_kind lc2 ls2 ll2 ld2 kc2 ks2 kl2 kd2
    have ic1 : ∀ ev ∈ lc1, ev ∈ lc1 ++ ls1 ++ ll1 ++ ld1 := fun ev h => by simp [h]
    have is1 : ∀ ev ∈ ls1, ev ∈ lc1 ++ ls1 ++ ll1 ++ ld1 := fun ev h => by simp [h]
    have il1 : ∀ ev ∈ ll1, ev ∈ lc1 ++ ls1 ++ ll1 ++ ld1 := fun ev h => by simp [h]
    have id1 : ∀ ev ∈ ld1, ev ∈ lc1 ++ ls1 ++ ll1 ++ ld1 := fun ev h => by simp [h]
    have ic2 : ∀ ev ∈ lc2, ev ∈ lc2 ++ ls2 ++ ll2 ++ ld2 := fun ev h => by simp [h]
    have is2 : ∀ ev ∈ ls2, ev ∈ lc2 ++ ls2 ++ ll2 ++ ld2 := fun ev h => by simp [h]
    have il2 : ∀ ev ∈ ll2, ev ∈ lc2 ++ ls2 ++ ll2 ++ ld2 := fun ev h => by simp [h]
    have id2 : ∀ ev ∈ ld2, ev ∈ lc2 ++ ls2 ++ ll2 ++ ld2 := fun ev h => by simp [h]
    have wc : ∀ ev ∈ lc2, ev.isWrite = false := by
      rcases hc2 with ⟨_, rfl⟩ | ⟨hcfg, x, r3, run⟩
      · simp
      · cases hc1 with
        | skipped h => exact absurd h hcfg
        | converged _ r1 _ run1c =>
          exact settled_segment hcopy (g := Obj.configMap (GenerateMetricsConfigMap api e)) rfl
            ic1 ic2 mc1 mc2 wc1 run1c run t1 t2 hobs
    have ws : ∀ ev ∈ ls2, ev.isWrite = false := by
      rcases hs2 with rfl | ⟨x, r3, run⟩
      · simp
      · exact settled_segment hcopy (g := Obj.service (GenerateSolrMetricsService api e)) rfl
          is1 is2 ms1 ms2 ws1 hs1 run t1 t2 hobs
    have wl : ∀ ev ∈ ll2, ev.isWrite = false := by
      rcases hlk2 with ⟨rfl, _⟩ | ⟨_, _, run, _⟩
      · simp
      · intro ev hev
        obtain ⟨_, _, h⟩ := run.lookupGets ev hev
        rw [h]
        rfl
    have wd : ∀ ev ∈ ld2, ev.isWrite = false := by
      rcases hlk2 with ⟨_, rfl⟩ | ⟨info2, x, hl2, rfl | ⟨rfl, d2, x2, r3, hg2, hd2⟩⟩
      · simp
      · simp
      · have hnone : writtenOf Kind.SolrCloud (lc1 ++ ls1 ++ ll1 ++ ld1) = [] := by
          rw [wl1]
          apply writtenOf_foreign
          intro ev hev _ o answer
          obtain ⟨_, _, h⟩ := hl1.lookupGets ev hev
          rw [h]
          exact ⟨fun h2 => (by cases h2), fun h2 => (by cases h2)⟩
        have hinfo : info1 = info2 := by
          apply hl1.same_info hl2
          intro key a1 a2 h1 h2
          have := hobs Kind.SolrCloud key a1 a2 (by decide) (il1 _ h1) (il2 _ h2)
          rw [this]
          simp only [leftOf, hnone, List.getLast?_nil]
        subst hinfo
        rw [hg1] at hg2
        cases hg2
        exact settled_segment hcopy (g := Obj.deployment d1) rfl id1 id2 md1 md2 wd1 hd1 hd2
          t1 t2 hobs
    intro ev hev
    simp only [List.mem_append] at hev
    rcases hev with ((h | h) | h) | h
    · exact wc ev h
    · exact ws ev h
    · exact wl ev h
    · exact wd ev h
end

section
variable {σ : Type}

/-- Every pass begins with the fetch of the exporter. -/
theorem Reconcile_fetch_mem (api : Api) (c : Client σ) (req : NamespacedName) (s : σ) :
    Event.get Kind.SolrPrometheusExporter req
        ((c.getSolrPrometheusExporter req s).1.map Obj.exporter)
      ∈ (Reconcile api c req s).calls := by
  cases hget : (c.getSolrPrometheusExporter req s).1 with
  | error x =>
    rw [(Reconcile_parent_error api c req s x hget).1]
    simp [Except.map]
  | ok fetched =>
    cases hchanged : (api.WithDefaults fetched).2 with
    | true =>
      rw [(Reconcile_defaulted api c req s fetched hget hchanged).1]
      simp [Except.map]
    | false =>
      cases hconv : (convergeChildren api c (api.WithDefaults fetched).1
        (c.getSolrPrometheusExporter req s).2).val with
      | error h =>
        rw [(Reconcile_stopped api c req s fetched h hget hchanged hconv).1]
        simp [Except.map]
      | ok ready =>
        rw [(Reconcile_status api c req s fetched ready hget hchanged hconv).1]
        simp [Except.map]

/-- C11: let a first pass return without error for an exporter whose defaults are applied, and
let a second pass for the same request be answered by a cluster that is as the first pass left
it: every fetch answers with the object as the first pass left it (created children stored as
given, updated children stored as written, the rest as the first pass saw it) and the exporter
is fetched with the same metadata and spec. Then, when the helpers outside the sources read the
metadata and the spec of the exporter only and the `Copy...Fields` helpers report no change on
an object that already carries the managed fields, the second pass issues no create call and no
update call. -/
theorem second_pass_writes_nothing (api : Api) (c : Client σ) (req : NamespacedName)
    (s0 s1 : σ) (res : Result)
    (hblind : StatusBlind api)
    (hown : ∀ o o2 m, o.ObjectMeta = o2.ObjectMeta →
      c.SetControllerReference o m = c.SetControllerReference o2 m)
    (hcopy : CopySettles api)
    (hdefaults : ∀ fetched, (c.getSolrPrometheusExporter req s0).1 = .ok fetched →
      (api.WithDefaults fetched).2 = false)
    (hfirst : (Reconcile api c req s0).ret = Halt.returned res none)
    (hleft : NoDrift (Reconcile api c req s0).calls (Reconcile api c req s1).calls) :
    ∀ k, createdOf k (Reconcile api c req s1).calls = [] ∧
      updatedOf k (Reconcile api c req s1).calls = [] := by
  intro k
  have hparent := (hleft Kind.SolrPrometheusExporter req _ _
    (Reconcile_fetch_mem api c req s0) (Reconcile_fetch_mem api c req s1)).1 rfl
  cases hget1 : (c.getSolrPrometheusExporter req s0).1 with
  | error x =>
    rw [hget1] at hparent
    cases hget2 : (c.getSolrPrometheusExporter req s1).1 with
    | error y =>
      rw [(Reconcile_parent_error api c req s1 y hget2).1]
      exact ⟨rfl, rfl⟩
    | ok fetched2 =>
      rw [hget2] at hparent
      cases hparent
  | ok fetched1 =>
    rw [hget1] at hparent
    have hflag1 := hdefaults fetched1 hget1
    have run1 := convergeChildren_run api c (api.WithDefaults fetched1).1
      (c.getSolrPrometheusExporter req s0).2
    have t1 := convergeChildren_tied api c (api.WithDefaults fetched1).1
      (c.getSolrPrometheusExporter req s0).2
    cases hconv1 : (convergeChildren api c (api.WithDefaults fetched1).1
      (c.getSolrPrometheusExporter req s0).2).val with
    | error h =>
      rw [hconv1] at run1
      rw [(Reconcile_stopped api c req s0 fetched1 h hget1 hflag1 hconv1).2] at hfirst
      exact absurd hfirst (run1.stop_has_error res)
    | ok ready1 =>
      rw [hconv1] at run1
      have hcalls1 := (Reconcile_status api c req s0 fetched1 ready1 hget1 hflag1 hconv1).1
      cases hget2 : (c.getSolrPrometheusExporter req s1).1 with
      | error y =>
        rw [hget2] at hparent
        cases hparent
      | ok fetched2 =>
        rw [hget2] at hparent
        obtain ⟨hmeta, hspec⟩ := hparent
        have hf2 : fetched2 = { fetched1 with Status := fetched2.Status } := by
          cases fetched1
          cases fetched2
          simp only at hmeta hspec
          rw [hmeta, hspec]
        have hd2 := hblind.WithDefaults fetched1 fetched2.Status
        rw [← hf2] at hd2
        have hflag2 : (api.WithDefaults fetched2).2 = false := by rw [hd2]; exact hflag1
        have he2 : (api.WithDefaults fetched2).1
            = { (api.WithDefaults fetched1).1 with Status := fetched2.Status } := by rw [hd2]
        have run2 := convergeChildren_run api c (api.WithDefaults fetched2).1
          (c.getSolrPrometheusExporter req s1).2
        have t2 := convergeChildren_tied api c (api.WithDefaults fetched2).1
          (c.getSolrPrometheusExporter req s1).2
        rw [he2] at run2 t2
        have hobs : ∀ k key a1 a2, k ≠ Kind.SolrPrometheusExporter →
            Event.get k key a1 ∈ (convergeChildren api c (api.WithDefaults fetched1).1
              (c.getSolrPrometheusExporter req s0).2).calls →
            Event.get k key a2 ∈ (convergeChildren api c
              { (api.WithDefaults fetched1).1 with Status := fetched2.Status }
              (c.getSolrPrometheusExporter req s1).2).calls →
            a2 = leftOf k (convergeChildren api c (api.WithDefaults fetched1).1
              (c.getSolrPrometheusExporter req s0).2).calls a1 := by
          intro k2 key a1 a2 hk h1 h2
          have hm1 : Event.get k2 key a1 ∈ (Reconcile api c req s0).calls := by
            rw [hcalls1]
            simp [h1]
          have hm2 : Event.get k2 key a2 ∈ (Reconcile api c req s1).calls := by
            rw [← he2] at h2
            cases hconv2 : (convergeChildren api c (api.WithDefaults fetched2).1
              (c.getSolrPrometheusExporter req s1).2).val with
            | error h =>
              rw [(Reconcile_stopped api c req s1 fetched2 h hget2 hflag2 hconv2).1]
              simp [h2]
            | ok ready2 =>
              rw [(Reconcile_status api c req s1 fetched2 ready2 hget2 hflag2 hconv2).1]
              simp [h2]
          have := (hleft k2 key a1 a2 hm1 hm2).2 hk
          rw [this, hcalls1]
          simp only [leftOf, List.cons_append, writtenOf, writtenOf_append]
          split_ifs <;> simp [writtenOf, writtenOf_append]
        have hquiet := ConvergeRun.convergeSettled hcopy run1 (run2.converge_of_status hblind) t1
          (Tied.of_meta hown t2 rfl) hobs
        rw [← he2] at hquiet
        apply no_write_no_create_or_update
        cases hconv2 : (convergeChildren api c (api.WithDefaults fetched2).1
          (c.getSolrPrometheusExporter req s1).2).val with
        | error h =>
          rw [(Reconcile_stopped api c req s1 fetched2 h hget2 hflag2 hconv2).1]
          intro ev hev
          rcases List.mem_cons.mp hev with rfl | hev
          · exact Or.inl rfl
          · exact Or.inl (hquiet ev hev)
        | ok ready2 =>
          rw [(Reconcile_status api c req s1 fetched2 ready2 hget2 hflag2 hconv2).1]
          intro ev hev
          simp only [List.cons_append, List.mem_cons, List.mem_append] at hev
          rcases hev with rfl | hev | hev
          · exact Or.inl rfl
          · exact Or.inl (hquiet ev hev)
          · split_ifs at hev
            · simp only [List.mem_singleton] at hev
              exact Or.inr ⟨_, _, hev⟩
            · cases hev
end

/-- The fetches of a stretch are its fetch events. -/
theorem mem_getsOf (l : List Event) (k : Kind) (key : NamespacedName)
    (answer : Except Err Obj) :
    Event.get k key answer ∈ l ↔ (k, key, answer) ∈ getsOf l := by
  induction l with
  | nil => simp [getsOf]
  | cons ev rest ih =>
    cases ev <;> simp [getsOf, ih]

/-- The sample helpers do not read the status of the exporter. -/
theorem sampleApi_statusBlind : StatusBlind sampleApi where
  WithDefaults := by
    intro e st
    simp only [sampleApi]
    split_ifs <;> rfl
  SharedLabels := fun _ _ => rfl
  SharedLabelsWith := fun _ _ _ => rfl
  MetricsDeploymentName := fun _ _ => rfl
  MetricsConfigMapName := fun _ _ => rfl
  MetricsServiceName := fun _ _ => rfl

/-- The in-memory cluster builds the owner reference from the metadata of the owner. -/
theorem clusterClient_owner (o o2 : SolrPrometheusExporter) (m : ObjectMeta)
    (h : o.ObjectMeta = o2.ObjectMeta) :
    clusterClient.SetControllerReference o m = clusterClient.SetControllerReference o2 m := by
  simp only [clusterClient, ownerReferenceTo, h]

/-- The sample `Copy...Fields` helpers report no change on an object that carries the managed
fields already. -/
theorem sampleApi_copySettles : CopySettles sampleApi := by
  constructor
  · intro desired
    cases desired <;> simp [copyFields, sampleApi]
  · intro desired observed
    cases desired <;> cases observed <;> simp [copyFields, sampleApi]

/-- C11 on the in-memory cluster: the first pass creates the ConfigMap, the Service and the
Deployment of an exporter with a config document, and the second pass, run from the cluster
state that the first one left, neither creates nor updates a Deployment. -/
theorem second_pass_writes_nothing_witness :
    createdOf Kind.Deployment
        (Reconcile sampleApi clusterClient sampleRequest
          (Reconcile sampleApi clusterClient sampleRequest configCluster).state).calls = [] ∧
      updatedOf Kind.Deployment
        (Reconcile sampleApi clusterClient sampleRequest
          (Reconcile sampleApi clusterClient sampleRequest configCluster).state).calls = [] :=
  second_pass_writes_nothing sampleApi clusterClient sampleRequest configCluster
    (Reconcile sampleApi clusterClient sampleRequest configCluster).state {}
    sampleApi_statusBlind clusterClient_owner sampleApi_copySettles
    (by
      intro fetched h
      have hf : (clusterClient.getSolrPrometheusExporter sampleRequest configCluster).1
          = .ok configExporter := rfl
      rw [hf] at h
      cases h
      rfl)
    rfl
    (by
      intro k key a1 a2 h1 h2
      have g1 : getsOf (Reconcile sampleApi clusterClient sampleRequest configCluster).calls
          = [(Kind.SolrPrometheusExporter, sampleRequest, .ok (Obj.exporter configExporter)),
             (Kind.ConfigMap, sampleChildKey, .error { Reason := "NotFound" }),
             (Kind.Service, sampleChildKey, .error { Reason := "NotFound" }),
             (Kind.Deployment, sampleChildKey, .error { Reason := "NotFound" })] := rfl
      have g2 : getsOf (Reconcile sampleApi clusterClient sampleRequest
            (Reconcile sampleApi clusterClient sampleRequest configCluster).state).calls
          = [(Kind.SolrPrometheusExporter, sampleRequest, .ok (Obj.exporter configExporter)),
             (Kind.ConfigMap, sampleChildKey,
               leftOf Kind.ConfigMap
                 (Reconcile sampleApi clusterClient sampleRequest configCluster).calls
                 (.error { Reason := "NotFound" })),
             (Kind.Service, sampleChildKey,
               leftOf Kind.Service
                 (Reconcile sampleApi clusterClient sampleRequest configCluster).calls
                 (.error { Reason := "NotFound" })),
             (Kind.Deployment, sampleChildKey,
               leftOf Kind.Deployment
                 (Reconcile sampleApi clusterClient sampleRequest configCluster).calls
                 (.error { Reason := "NotFound" }))] := rfl
      rw [mem_getsOf, g1] at h1
      rw [mem_getsOf, g2] at h2
      simp only [List.mem_cons, Prod.mk.injEq, List.mem_singleton, List.not_mem_nil,
        or_false] at h1 h2
      rcases h1 with ⟨rfl, rfl, rfl⟩ | ⟨rfl, rfl, rfl⟩ | ⟨rfl, rfl, rfl⟩ | ⟨rfl, rfl, rfl⟩ <;>
        rcases h2 with ⟨h, _, rfl⟩ | ⟨h, _, rfl⟩ | ⟨h, _, rfl⟩ | ⟨h, _, rfl⟩ <;>
        first
          | exact absurd h (by decide)
          | exact ⟨fun _ => ⟨rfl, rfl⟩, fun hne => absurd rfl hne⟩
          | exact ⟨fun hk => absurd hk (by decide), fun _ => rfl⟩)
    Kind.Deployment

/-! ## The absent exporter and the wiring of the config document -/

section
variable {σ : Type}

/-- C21: when the fetch of the exporter at the start of a pass answers NotFound, that fetch is
the only call of the pass (no update of the exporter, no call about a child, no sibling lookup,
no status write) and the pass returns the empty result with no error. -/
theorem parent_not_found_ends_quietly (api : Api) (c : Client σ) (req : NamespacedName) (s : σ)
    (err : Err) (hget : (c.getSolrPrometheusExporter req s).1 = .error err)
    (hnf : IsNotFound err = true) :
    (Reconcile api c req s).calls = [Event.get Kind.SolrPrometheusExporter req (.error err)] ∧
      (Reconcile api c req s).ret = Halt.returned { Requeue := false, RequeueAfter := 0 } none := by
  obtain ⟨hc, hr⟩ := Reconcile_parent_error api c req s err hget
  rw [hc, hr, hnf]
  exact ⟨rfl, rfl⟩
end

/-- C21 on an in-memory cluster that holds no exporter. -/
theorem parent_not_found_ends_quietly_witness :
    (Reconcile sampleApi clusterClient sampleRequest {}).calls
        = [Event.get Kind.SolrPrometheusExporter sampleRequest
            (.error { Reason := "NotFound" })] ∧
      (Reconcile sampleApi clusterClient sampleRequest {}).ret
        = Halt.returned { Requeue := false, RequeueAfter := 0 } none :=
  parent_not_found_ends_quietly sampleApi clusterClient sampleRequest {}
    { Reason := "NotFound" } rfl rfl

/-- C22: for an exporter with a config document, in every Deployment the generator returns the
first volume is a ConfigMap volume that refers to the name of the ConfigMap that
`GenerateMetricsConfigMap` returns for the exporter; its single item has the key
`solr-prometheus-exporter.xml`, which is the single key of the data of that ConfigMap, with
the config document as its value; the first mount of the exporter container mounts that
volume read-only at `/opt/solr-exporter`; and the argument list ends with `-f` and the mount
path, `/` and the path of the item. -/
theorem config_wiring (api : Api) (e : SolrPrometheusExporter) (info : SolrConnectionInfo)
    (d : Deployment) (hconfig : e.Spec.Config ≠ "")
    (hd : GenerateSolrPrometheusExporterDeployment api e info = .ok d) :
    ∃ volume source item mount volumes mounts args,
      d.Spec.Template.Spec.Volumes = volume :: volumes ∧
      volume.VolumeSource.ConfigMap = some source ∧
      source.Name = (GenerateMetricsConfigMap api e).ObjectMeta.Name ∧
      source.Items = [item] ∧
      item.Key = "solr-prometheus-exporter.xml" ∧
      (GenerateMetricsConfigMap api e).Data = [(item.Key, e.Spec.Config)] ∧
      (exporterContainer d).map Container.VolumeMounts = some (mount :: mounts) ∧
      mount.Name = volume.Name ∧
      mount.ReadOnly = true ∧
      mount.MountPath = "/opt/solr-exporter" ∧
      (exporterContainer d).map Container.Args
        = some (args ++ ["-f", mount.MountPath ++ "/" ++ item.Path]) := by
  obtain ⟨vm, sv, hp, hvol, hmounts, hargs, _⟩ := generated_exporterContainer api e info d hd
  have hpv := podVolumes_eq api _ _ hp
  simp only [configVolumes, configVolumeMounts, hconfig, ne_eq, not_false_eq_true, if_true,
    List.cons_append, List.nil_append, Prod.mk.injEq] at hpv
  obtain ⟨hvm, hsv⟩ := hpv
  have hf : ∃ args, exporterArgs api e info
      = args ++ ["-f", "/opt/solr-exporter/solr-prometheus-exporter.xml"] := by
    unfold exporterArgs
    simp only [hconfig, ne_eq, not_false_eq_true, if_true]
    exact ⟨_, rfl⟩
  obtain ⟨args, hf⟩ := hf
  have hpath : "/opt/solr-exporter" ++ "/" ++ "solr-prometheus-exporter.xml"
      = "/opt/solr-exporter/solr-prometheus-exporter.xml" := by decide
  refine ⟨{ Name := "solr-prometheus-exporter-xml",
            VolumeSource :=
              { ConfigMap := some
                  { Name := api.MetricsConfigMapName e,
                    Items := [{ Key := "solr-prometheus-exporter.xml",
                                Path := "solr-prometheus-exporter.xml" }] } } },
    { Name := api.MetricsConfigMapName e,
      Items := [{ Key := "solr-prometheus-exporter.xml",
                  Path := "solr-prometheus-exporter.xml" }] },
    { Key := "solr-prometheus-exporter.xml", Path := "solr-prometheus-exporter.xml" },
    { Name := "solr-prometheus-exporter-xml", MountPath := "/opt/solr-exporter",
      ReadOnly := true },
    customVolumes e, customVolumeMounts e, args, ?_, rfl, rfl, rfl, rfl, rfl, ?_, rfl, rfl, rfl,
    ?_⟩
  · rw [hvol, hsv]
  · rw [hmounts, hvm]
  · rw [hargs, hf, hpath]

/-- C22 on the sample exporter with a config document and its standalone address. -/
theorem config_wiring_witness :
    ∃ volume source item mount volumes mounts args,
      (generatedOrEmpty (GenerateSolrPrometheusExporterDeployment sampleApi configExporter
        { StandaloneAddress := "10.0.0.5:2181" })).Spec.Template.Spec.Volumes
        = volume :: volumes ∧
      volume.VolumeSource.ConfigMap = some source ∧
      source.Name = (GenerateMetricsConfigMap sampleApi configExporter).ObjectMeta.Name ∧
      source.Items = [item] ∧
      item.Key = "solr-prometheus-exporter.xml" ∧
      (GenerateMetricsConfigMap sampleApi configExporter).Data
        = [(item.Key, configExporter.Spec.Config)] ∧
      (exporterContainer (generatedOrEmpty (GenerateSolrPrometheusExporterDeployment sampleApi
        configExporter { StandaloneAddress := "10.0.0.5:2181" }))).map Container.VolumeMounts
        = some (mount :: mounts) ∧
      mount.Name = volume.Name ∧
      mount.ReadOnly = true ∧
      mount.MountPath = "/opt/solr-exporter" ∧
      (exporterContainer (generatedOrEmpty (GenerateSolrPrometheusExporterDeployment sampleApi
        configExporter { StandaloneAddress := "10.0.0.5:2181" }))).map Container.Args
        = some (args ++ ["-f", mount.MountPath ++ "/" ++ item.Path]) :=
  config_wiring sampleApi configExporter { StandaloneAddress := "10.0.0.5:2181" } _
    (by decide) rfl

end SolrOperator
